import Mathlib

/-!
# Sparse VMDK builder: shallow embedding of `SparseVMDK::CreateSparse`

Source: `src/VMDKSparce.h` (Linux build, `__linux__` branches).

Conventions of the embedding:
* machine integers are natural numbers; every place where the C++ code
  stores a value in a `uint32_t` or a `uint64_t` is wrapped with `u32` / `u64`;
* memory buffers and arrays are functions from an index to a value
  (bytes are natural numbers below 256), with the length carried separately;
* `std::string` is the list of its bytes.
-/

namespace VMDKSparce

/-! ## Constants of `VMDKSparce.h` -/

/-- Sector size in bytes (`#define SECTOR_SIZE 512`). -/
abbrev SECTOR_SIZE : Nat := 512
/-- Number of heads (`#define HEADS 16`). -/
abbrev HEADS : Nat := 16
/-- Number of sectors per track (`#define SECTORS 63`). -/
abbrev SECTORS : Nat := 63
/-- Magic number of the sparse extent, the letters VMDK in hex. -/
abbrev VMDK_MAGICNUMBER : Nat := 0x564D444B
/-- Version of the format. -/
abbrev VMDK_VERSION : Nat := 1
/-- Grain size in sectors (64K). -/
abbrev GRAIN_SIZE : Nat := 128
/-- Descriptor size in sectors. -/
abbrev DESCRIPTOR_SIZE : Nat := 1
/-- Header size in bytes. -/
abbrev VMDK_HEADER_SIZE : Nat := 512
/-- Size of a data block (grain): 128 sectors (`constexpr uint32_t grainSize`). -/
abbrev grainSize : Nat := 128
/-- Number of entries of one grain table (`constexpr uint32_t GTE_COUNT`). -/
abbrev GTE_COUNT : Nat := 512
/-- Coverage of one grain table in sectors. -/
abbrev gtCoverage : Nat := GTE_COUNT * grainSize
/-- Number of sectors of the read buffer. -/
abbrev NUM_SECTORS : Nat := 128
/-- Size of the read buffer in bytes: 65536. -/
abbrev BUFFER_SIZE : Nat := NUM_SECTORS * SECTOR_SIZE

/-! ## Machine integers -/

/-- Value kept by a `uint32_t`. -/
def u32 (x : Nat) : Nat := x % 4294967296

/-- Value kept by a `uint64_t`. -/
def u64 (x : Nat) : Nat := x % 18446744073709551616

/-! ## Layout computation (lines 240-264 of `CreateSparse`) -/

namespace SparseVMDK

/-- Line 242: `uint64_t totalGrains = (capacitySectors%grainSize)==0 ?
(capacitySectors/grainSize) : (capacitySectors/grainSize)+1;`. -/
def totalGrains (capacitySectors : Nat) : Nat :=
  if capacitySectors % grainSize = 0 then capacitySectors / grainSize
  else u64 (capacitySectors / grainSize + 1)

/-- Line 243: `uint64_t numGT = (totalGrains%GTE_COUNT)==0 ?
(totalGrains/GTE_COUNT) : (totalGrains/GTE_COUNT)+1;`. -/
def numGT (capacitySectors : Nat) : Nat :=
  if totalGrains capacitySectors % GTE_COUNT = 0 then totalGrains capacitySectors / GTE_COUNT
  else u64 (totalGrains capacitySectors / GTE_COUNT + 1)

/-- Line 248: `uint64_t gdOffset = header.gdOffset * 512;` with `header.gdOffset = 2`. -/
def gdOffset : Nat := u64 (2 * 512)

/-- Lines 251-256: `uint64_t gtOffset = gdOffset + numGT*4;` followed by the
alignment to a multiple of 512. -/
def gtOffset (capacitySectors : Nat) : Nat :=
  let gtOffset0 := u64 (gdOffset + u64 (numGT capacitySectors * 4))
  if gtOffset0 % 512 ≠ 0 then u64 (gtOffset0 + (512 - gtOffset0 % 512)) else gtOffset0

/-- Lines 259-264: `uint32_t dataOffset = gtOffset + totalGrains*4;` followed by the
alignment to a multiple of 65536. The sum is computed in 64 bits and stored in a
32-bit variable; the alignment is 32-bit arithmetic. -/
def dataOffset (capacitySectors : Nat) : Nat :=
  let dataOffset0 := u32 (u64 (gtOffset capacitySectors + u64 (totalGrains capacitySectors * 4)))
  if dataOffset0 % 65536 ≠ 0 then u32 (dataOffset0 + (65536 - dataOffset0 % 65536))
  else dataOffset0

end SparseVMDK


/-! ## Byte strings, header and descriptor (lines 187-237) -/

/-- Bytes of an ASCII string literal: one byte per character. -/
def ascii (s : String) : List Nat := s.toList.map Char.toNat

/-- Decimal text that `operator<<` produces for an unsigned integer. -/
def decimal (n : Nat) : List Nat := (Nat.toDigits 10 n).map Char.toNat

/-- Little-endian bytes of an unsigned field that is `w` bytes wide. -/
def le (w v : Nat) : List Nat := (List.range w).map (fun k => v / 256 ^ k % 256)

/-- A list of bytes seen as a memory buffer (index to byte). -/
def bufOfList (l : List Nat) : Nat → Nat := fun k => l.getD k 0

/-- An array of 32-bit values seen as a byte buffer (`(char*)(&GDEs)`), little-endian. -/
def arrayBytes (a : Nat → Nat) : Nat → Nat := fun k => a (k / 4) / 256 ^ (k % 4) % 256

/-- The packed structure `SparseExtentHeader` (lines 142-162), without its zero padding. -/
structure SparseExtentHeader where
  magicNumber : Nat
  version : Nat
  flags : Nat
  capacity : Nat
  grainSize : Nat
  descriptorOffset : Nat
  descriptorSize : Nat
  numGTEsPerGT : Nat
  rgdOffset : Nat
  gdOffset : Nat
  overHead : Nat
  uncleanShutdown : Bool
  singleEndLineChar : Char
  nonEndLineChar : Char
  doubleEndLineChar1 : Char
  doubleEndLineChar2 : Char
  compressAlgorithm : Nat

/-- Memory image of a header under `#pragma pack(1)`: the fields in declaration order,
little-endian, followed by `uint8_t pad[433]`, which `memset` left at zero. -/
def SparseExtentHeader.bytes (h : SparseExtentHeader) : List Nat :=
  le 4 h.magicNumber ++ le 4 h.version ++ le 4 h.flags ++ le 8 h.capacity ++
  le 8 h.grainSize ++ le 8 h.descriptorOffset ++ le 8 h.descriptorSize ++
  le 4 h.numGTEsPerGT ++ le 8 h.rgdOffset ++ le 8 h.gdOffset ++ le 8 h.overHead ++
  [if h.uncleanShutdown then 1 else 0] ++
  [h.singleEndLineChar.toNat, h.nonEndLineChar.toNat,
   h.doubleEndLineChar1.toNat, h.doubleEndLineChar2.toNat] ++
  le 2 h.compressAlgorithm ++ List.replicate 433 0

/-- Lines 188-206: the header that `CreateSparse` fills in. -/
def mkHeader (capacitySectors : Nat) : SparseExtentHeader where
  magicNumber := VMDK_MAGICNUMBER
  version := VMDK_VERSION
  flags := 3
  capacity := capacitySectors
  grainSize := GRAIN_SIZE
  descriptorOffset := 1
  descriptorSize := DESCRIPTOR_SIZE
  numGTEsPerGT := 512
  rgdOffset := 0
  gdOffset := 2
  overHead := VMDK_HEADER_SIZE + SECTOR_SIZE * DESCRIPTOR_SIZE
  uncleanShutdown := false
  singleEndLineChar := '\n'
  nonEndLineChar := ' '
  doubleEndLineChar1 := '\r'
  doubleEndLineChar2 := '\n'
  compressAlgorithm := 0

/-- Lines 217-237: the descriptor text built in `desc1`. -/
def mkDescriptor (cid capacitySectors : Nat) (outFileS : List Nat) (cylinders : Nat) :
    List Nat :=
  ascii "# Disk DescriptorFile\n" ++
  ascii "version=1\n" ++
  ascii "CID=" ++ decimal cid ++ ascii "\n" ++
  ascii "parentCID=ffffffff\n" ++
  ascii "createType=\"monolithicSparse\"\n" ++
  ascii "\n" ++
  ascii "# Extent description\n" ++
  ascii "RW " ++ decimal capacitySectors ++ ascii " SPARSE \"" ++ outFileS ++ ascii "\" 0\n" ++
  ascii "\n" ++
  ascii "# The Disk Data Base\n" ++
  ascii "#DDB\n" ++
  ascii "ddb.adapterType = \"ide\"\n" ++
  ascii "ddb.geometry.cylinders = \"" ++ decimal cylinders ++ ascii "\"\n" ++
  ascii "ddb.geometry.heads = \"16\"\n" ++
  ascii "ddb.geometry.sectors = \"63\"\n" ++
  ascii "ddb.virtualHWVersion = \"10\"\n"

/-- Library function `memcmp` on the first `n` bytes of two buffers, starting at index `i`:
zero when they agree, otherwise the difference of the first two bytes that differ. -/
def memcmpFrom (a b : Nat → Nat) : Nat → Nat → Int
  | _, 0 => 0
  | i, n + 1 => if a i = b i then memcmpFrom a b (i + 1) n else (a i : Int) - (b i : Int)

/-- Library function `memcmp(a, b, n)`. -/
def memcmp (a b : Nat → Nat) (n : Nat) : Int := memcmpFrom a b 0 n

/-! ## Reader and Writer (`DiskInterface.h` declares them; their bodies are not in the sources) -/

/-- Modelled from the spec: the output file behind `Writer`, whose member functions are only
declared in `DiskInterface.h`. A file is its bytes (zero where nothing was written), its
length and the write cursor. -/
structure Writer where
  bytes : Nat → Nat
  size : Nat
  pos : Nat

/-- Modelled from the spec: `Writer::OpenFile` (section 4.2, open): creates the file if
absent and truncates it if present, so a freshly opened file is empty. -/
def Writer.OpenFile : Writer := { bytes := fun _ => 0, size := 0, pos := 0 }

/-- Modelled from the spec: `Writer::Write` (section 4.2, write): a successful write stores the
`n` bytes of the buffer at the cursor and moves the cursor behind them; a failed write leaves
the file as it is. -/
def Writer.Write (w : Writer) (ok : Bool) (lpBuffer : Nat → Nat) (n : Nat) : Writer :=
  if ok then
    { bytes := fun k => if w.pos ≤ k ∧ k < w.pos + n then lpBuffer (k - w.pos) else w.bytes k
      size := if n = 0 then w.size else max w.size (w.pos + n)
      pos := w.pos + n }
  else w

/-- Modelled from the spec: `Writer::SetFilePointer` (section 4.2, seek): a successful seek
positions the cursor exactly at the absolute byte offset. (The comment on the declaration
in `DiskInterface.h` speaks of a distance from the current position; the spec fixes the
contract as absolute positioning, which is how `CreateSparse` calls it, with `gdOffset`,
`dataOffset` and `gtOffset`.) -/
def Writer.SetFilePointer (w : Writer) (ok : Bool) (Distance : Nat) : Writer :=
  if ok then { w with pos := Distance } else w

/-- Operations issued to the output file, to the source and to the resume log, in program
order. The last one is a call of `LogsReadWrite::CreateSparseLog` (declared in
`LogsReadWrite.h`), which writes a Sparse resume record; `VMDKSparce.h` contains no such
call. -/
inductive Event where
  | openFile (ok : Bool)
  | write (pos n : Nat) (ok : Bool)
  | seek (target : Nat) (ok : Bool)
  | openDisk (ok : Bool)
  | read (pos n : Nat) (ok : Bool)
  | createSparseLog (numOfGrainWriten numOfGrainRead totalGrains dataOffset gtOffset : Nat)
      (GTEs : List Nat)
  deriving DecidableEq

/-- What the surroundings of one run decide: the value returned by `rand()`, the bytes of the
source, and for each reader or writer call whether it succeeds. The fields are named after
the variables that receive the results in `CreateSparse`. -/
structure Env where
  rand : Nat
  source : Nat → Nat
  openFile : Bool
  wresHeader : Bool
  wresDesc : Bool
  wresPadding : Bool
  wresSetGD : Bool
  wresGD : Bool
  wresSetData : Bool
  openDisk : Bool
  rres : Nat → Bool
  wresData : Nat → Bool
  wresSetGT : Bool
  wresGT : Bool

/-- The object `SparseVMDK` (Linux build): three `std::string` members. -/
structure SparseVMDK where
  outFileDir : List Nat
  outFileName : List Nat
  disk : List Nat

/-- Program state of one run of `CreateSparse`: the output file, the read cursor of the
source, the local arrays `GDEs` and `GTEs`, the counter `curGTEvalue`, and the operations
issued so far. -/
structure State where
  writer : Writer
  rpos : Nat
  GDEs : Nat → Nat
  GTEs : Nat → Nat
  curGTEvalue : Nat
  trace : List Event

/-- State before any operation. -/
def State.init : State :=
  { writer := Writer.OpenFile, rpos := 0, GDEs := fun _ => 0, GTEs := fun _ => 0,
    curGTEvalue := 0, trace := [] }

/-- Call of `writer.OpenFile`. -/
def State.OpenFile (s : State) (ok : Bool) : State :=
  { s with writer := Writer.OpenFile, trace := s.trace ++ [Event.openFile ok] }

/-- Call of `writer.Write(lpBuffer, n)`. -/
def State.Write (s : State) (ok : Bool) (lpBuffer : Nat → Nat) (n : Nat) : State :=
  { s with writer := s.writer.Write ok lpBuffer n,
           trace := s.trace ++ [Event.write s.writer.pos n ok] }

/-- Call of `writer.SetFilePointer(Distance)`. -/
def State.SetFilePointer (s : State) (ok : Bool) (Distance : Nat) : State :=
  { s with writer := s.writer.SetFilePointer ok Distance,
           trace := s.trace ++ [Event.seek Distance ok] }

/-- Call of `reader.OpenDisk`. -/
def State.OpenDisk (s : State) (ok : Bool) : State :=
  { s with rpos := 0, trace := s.trace ++ [Event.openDisk ok] }

/-- Modelled from the spec: `Reader::Read` (section 4.1, read; section 4.4 step 5), whose body
is not in the sources: a successful read delivers the `n` bytes of the source at the read
cursor and moves the cursor behind them. The buffer it fills is `readBuffer`. -/
def State.Read (s : State) (ok : Bool) (n : Nat) : State :=
  { s with rpos := if ok then s.rpos + n else s.rpos,
           trace := s.trace ++ [Event.read s.rpos n ok] }

/-- Content of `readBuffer` after a successful read at read cursor `rpos`. -/
def readBuffer (env : Env) (rpos : Nat) : Nat → Nat := fun k => env.source (rpos + k)

namespace SparseVMDK

/-- Lines 128-130: `return 10000000 + (rand() % 90000000);` as a `uint32_t`. -/
def generateRandomCID (rand : Nat) : Nat := u32 (10000000 + rand % 90000000)

/-- Lines 307-313: the loop that fills `GDEs`; `count` iterations are left, `i` is the
loop index. -/
def fillGDEs : (count i curGDEvalue : Nat) → (GDEs : Nat → Nat) → (Nat → Nat)
  | 0, _, _, GDEs => GDEs
  | count + 1, i, curGDEvalue, GDEs =>
      fillGDEs count (i + 1) (u32 (curGDEvalue + 4)) (Function.update GDEs i curGDEvalue)

/-- Lines 377-410: one iteration of the grain loop, for index `i`. The boolean is `false`
when the iteration executes `return false`. -/
def grainStep (env : Env) (i : Nat) (s : State) : Bool × State :=
  let buf := readBuffer env s.rpos
  let rres := env.rres i
  let s1 := s.Read rres BUFFER_SIZE
  if !rres then (false, s1)
  else
    let zeroMemory := memcmp buf (fun _ => 0) BUFFER_SIZE
    if zeroMemory ≠ 0 then
      let s2 := s1.Write (env.wresData i) buf BUFFER_SIZE
      if !env.wresData i then (false, s2)
      else
        (true, { s2 with GTEs := Function.update s2.GTEs i s2.curGTEvalue,
                         curGTEvalue := u32 (s2.curGTEvalue + 128) })
    else
      (true, { s1 with GTEs := Function.update s1.GTEs i 0 })

/-- Lines 375-411: `for(size_t i=0; i != totalGrains; i++)`; `count` iterations are left,
`i` is the loop index. -/
def grainLoop (env : Env) : (count i : Nat) → State → Bool × State
  | 0, _, s => (true, s)
  | count + 1, i, s =>
      match grainStep env i s with
      | (false, s1) => (false, s1)
      | (true, s1) => grainLoop env count (i + 1) s1

/-- Lines 284-285: the header write and the descriptor write. -/
def writeHeaderDescriptor (env : Env) (header : SparseExtentHeader) (descriptor : List Nat)
    (s : State) : State :=
  (s.Write env.wresHeader (bufOfList header.bytes) 512).Write env.wresDesc
    (bufOfList descriptor) descriptor.length

/-- Lines 288-291: the zero padding up to 1 KB, `512 - descriptor.length()` bytes. -/
def writePadding (env : Env) (descriptor : List Nat) (s : State) : State :=
  s.Write env.wresPadding (fun _ => 0) (512 - descriptor.length)

/-- Lines 307-326: fill `GDEs`, seek to `gdOffset` and, when the seek succeeded, write the
`numGT*4` bytes of the array. -/
def writeGD (env : Env) (capacitySectors : Nat) (s : State) : State :=
  let curGDEvalue := u32 (gtOffset capacitySectors / 512)
  let s5 := { s with GDEs := fillGDEs (numGT capacitySectors) 0 curGDEvalue (fun _ => 0) }
  let s6 := s5.SetFilePointer env.wresSetGD gdOffset
  if env.wresSetGD then
    s6.Write env.wresGD (arrayBytes s6.GDEs) (u64 (numGT capacitySectors * 4))
  else s6

/-- Lines 342-348: initialise `curGTEvalue` and `GTEs`, seek to `dataOffset`. -/
def seekData (env : Env) (capacitySectors : Nat) (s : State) : State :=
  let s8 := { s with curGTEvalue := u32 (dataOffset capacitySectors / 512),
                     GTEs := fun _ => 0 }
  s8.SetFilePointer env.wresSetData (dataOffset capacitySectors)

/-- Lines 417-427: seek to `gtOffset` and, when the seek succeeded, write the
`totalGrains*4` bytes of `GTEs`. -/
def writeGT (env : Env) (capacitySectors : Nat) (s : State) : State :=
  let s12 := s.SetFilePointer env.wresSetGT (gtOffset capacitySectors)
  if env.wresSetGT then
    s12.Write env.wresGT (arrayBytes s12.GTEs) (u64 (totalGrains capacitySectors * 4))
  else s12

/-- Lines 173-237: the descriptor text of a run. -/
def descriptorOf (self : SparseVMDK) (env : Env) (capacitySectors : Nat) : List Nat :=
  let cylinders := capacitySectors / (HEADS * SECTORS)
  let cid := generateRandomCID env.rand
  let Filename := self.outFileName ++ ascii ".vmdk"
  let outFileS := Filename
  mkDescriptor cid capacitySectors outFileS cylinders

set_option linter.unusedVariables false in
/-- The member function `bool SparseVMDK::CreateSparse(unsigned long bufSize, uint64_t
capacitySectors)` (lines 166-454). The first component is the returned boolean, or `none`
when the run ends in the exception that `new char[512 - descriptor.length()]` throws for a
descriptor longer than 512 bytes (the length is unsigned, so the difference wraps around to
a size that cannot be allocated). The variable-length arrays `GDEs[numGT]` (line 308) and
`GTEs[totalGrains]` (line 343) are arrays of unbounded length here: this is the run on a
stack that has room for them; `CreateSparseOnStack` is the run on a stack of a given
size. -/
def CreateSparse (self : SparseVMDK) (env : Env) (bufSize capacitySectors : Nat) :
    Option Bool × State :=
  if capacitySectors = 0 then (some false, State.init)
  else
    let header := mkHeader capacitySectors
    let descriptor := descriptorOf self env capacitySectors
    let s1 := State.init.OpenFile env.openFile
    if env.openFile then
      let s3 := writeHeaderDescriptor env header descriptor s1
      if 512 < descriptor.length then (none, s3)
      else
        let s4 := writePadding env descriptor s3
        if !env.wresHeader || !env.wresDesc then (some false, s4)
        else
          let s7 := writeGD env capacitySectors s4
          if env.wresSetGD && !env.wresGD then (some false, s7)
          else
            let s9 := seekData env capacitySectors s7
            if !env.wresSetData then (some false, s9)
            else
              let s10 := s9.OpenDisk env.openDisk
              if !env.openDisk then (some false, s10)
              else
                match grainLoop env (totalGrains capacitySectors) 0 s10 with
                | (false, s11) => (some false, s11)
                | (true, s11) =>
                    let s13 := writeGT env capacitySectors s11
                    if env.wresSetGT && !env.wresGT then (some false, s13)
                    else (some true, s13)
    else (some false, s1)

set_option linter.unusedVariables false in
/-- The member function `CreateSparse` run in a process whose stack leaves `stack` bytes for
its variable-length arrays. `uint32_t GDEs[numGT]={}` (line 308) and
`uint32_t GTEs[totalGrains] = {}` (line 343) are automatic arrays whose size is computed from
`capacitySectors`; when the stack has no room for one of them the process is killed at the
declaration, before the seek that follows it, and the function does not return (`none`, as
for the failed `new[]`). Everything else is `CreateSparse`, line by line. -/
def CreateSparseOnStack (self : SparseVMDK) (env : Env) (stack bufSize capacitySectors : Nat) :
    Option Bool × State :=
  if capacitySectors = 0 then (some false, State.init)
  else
    let header := mkHeader capacitySectors
    let descriptor := descriptorOf self env capacitySectors
    let s1 := State.init.OpenFile env.openFile
    if env.openFile then
      let s3 := writeHeaderDescriptor env header descriptor s1
      if 512 < descriptor.length then (none, s3)
      else
        let s4 := writePadding env descriptor s3
        if !env.wresHeader || !env.wresDesc then (some false, s4)
        else
          if stack < numGT capacitySectors * 4 then (none, s4)
          else
            let s7 := writeGD env capacitySectors s4
            if env.wresSetGD && !env.wresGD then (some false, s7)
            else
              if stack < numGT capacitySectors * 4 + totalGrains capacitySectors * 4 then
                (none, s7)
              else
                let s9 := seekData env capacitySectors s7
                if !env.wresSetData then (some false, s9)
                else
                  let s10 := s9.OpenDisk env.openDisk
                  if !env.openDisk then (some false, s10)
                  else
                    match grainLoop env (totalGrains capacitySectors) 0 s10 with
                    | (false, s11) => (some false, s11)
                    | (true, s11) =>
                        let s13 := writeGT env capacitySectors s11
                        if env.wresSetGT && !env.wresGT then (some false, s13)
                        else (some true, s13)
    else (some false, s1)

/-- The 64-bit sum `gtOffset + totalGrains*4` that line 259 stores in the 32-bit
`dataOffset`. -/
def dataEnd (c : Nat) : Nat := gtOffset c + 4 * totalGrains c

end SparseVMDK

/-! ## Notions used to state the properties -/

/-- Source grain `i` consists of zero bytes only. -/
def grainIsZero (source : Nat → Nat) (i : Nat) : Prop :=
  ∀ k, k < 65536 → source (i * 65536 + k) = 0

instance grainIsZero_decidable (source : Nat → Nat) (i : Nat) :
    Decidable (grainIsZero source i) :=
  Nat.decidableBallLT 65536 (fun k _ => source (i * 65536 + k) = 0)

/-- Number of source grains with index below `i` that are not all-zero. -/
def nonZeroBefore (source : Nat → Nat) (i : Nat) : Nat :=
  Nat.count (fun j => ¬ grainIsZero source j) i

/-- What the grain loop has established after the grains below `i` were processed, in terms
of the state `s0` in which the loop was entered. -/
structure LoopInv (env : Env) (s0 : State) (i : Nat) (s : State) : Prop where
  rpos : s.rpos = i * 65536
  pos : s.writer.pos = s0.writer.pos + 65536 * nonZeroBefore env.source i
  cur : s.curGTEvalue = u32 (s0.curGTEvalue + 128 * nonZeroBefore env.source i)
  gte : ∀ j, s.GTEs j =
    if j < i then
      (if grainIsZero env.source j then 0
       else u32 (s0.curGTEvalue + 128 * nonZeroBefore env.source j))
    else s0.GTEs j
  gde : s.GDEs = s0.GDEs
  data : ∀ j, j < i → ¬ grainIsZero env.source j → ∀ m, m < 65536 →
    s.writer.bytes (s0.writer.pos + 65536 * nonZeroBefore env.source j + m)
      = env.source (j * 65536 + m)
  other : ∀ k, (k < s0.writer.pos ∨
      s0.writer.pos + 65536 * nonZeroBefore env.source i ≤ k) →
    s.writer.bytes k = s0.writer.bytes k
  size : s.writer.size =
    if nonZeroBefore env.source i = 0 then s0.writer.size
    else max s0.writer.size (s0.writer.pos + 65536 * nonZeroBefore env.source i)

/-- State in which the grain loop is entered (line 375) when nothing before it made the
run return. -/
def SparseVMDK.preLoop (self : SparseVMDK) (env : Env) (capacitySectors : Nat) : State :=
  (SparseVMDK.seekData env capacitySectors
    (SparseVMDK.writeGD env capacitySectors
      (SparseVMDK.writePadding env (SparseVMDK.descriptorOf self env capacitySectors)
        (SparseVMDK.writeHeaderDescriptor env (mkHeader capacitySectors)
          (SparseVMDK.descriptorOf self env capacitySectors)
          (State.init.OpenFile env.openFile))))).OpenDisk env.openDisk

/-- State in which a run that returns `true` ends. -/
def SparseVMDK.finalState (self : SparseVMDK) (env : Env) (capacitySectors : Nat) : State :=
  SparseVMDK.writeGT env capacitySectors
    (SparseVMDK.grainLoop env (SparseVMDK.totalGrains capacitySectors) 0
      (SparseVMDK.preLoop self env capacitySectors)).2

/-- State in which the grain loop of a run ends. -/
def SparseVMDK.loopState (self : SparseVMDK) (env : Env) (capacitySectors : Nat) : State :=
  (SparseVMDK.grainLoop env (SparseVMDK.totalGrains capacitySectors) 0
    (SparseVMDK.preLoop self env capacitySectors)).2

/-! ## Concrete runs used as examples -/

/-- Surroundings in which every reader and writer call succeeds, for a given source. -/
def okEnv (source : Nat → Nat) : Env :=
  { rand := 0, source := source, openFile := true, wresHeader := true, wresDesc := true,
    wresPadding := true, wresSetGD := true, wresGD := true, wresSetData := true,
    openDisk := true, rres := fun _ => true, wresData := fun _ => true,
    wresSetGT := true, wresGT := true }

/-- An object writing `/tmp//img.vmdk` from `/dev/sda`. -/
def img : SparseVMDK :=
  { outFileDir := ascii "/tmp", outFileName := ascii "img", disk := ascii "/dev/sda" }

/-- Source of Scenario A: sectors 0..127 hold 0xAA, sectors 128..255 are zero, all later
sectors hold 0xBB. -/
def scenarioA : Nat → Nat :=
  fun off => if off < 65536 then 0xAA else if off < 131072 then 0 else 0xBB

/-- A source in which every byte is 0xFF. -/
def allOnes : Nat → Nat := fun _ => 255

/-! ## Reference reader -/

/-- Little-endian 32-bit value stored at byte offset `off`. -/
def readU32 (bytes : Nat → Nat) (off : Nat) : Nat :=
  bytes off + 256 * bytes (off + 1) + 65536 * bytes (off + 2) + 16777216 * bytes (off + 3)

/-- Byte `m` of logical grain `i` as a reference reader of the format decodes it: take
grain-directory entry number `i / 512` from the grain directory at byte 1024, read entry
`i mod 512` of the grain table at that entry times 512, and return zero bytes if the
grain-table entry is 0, else the bytes at the grain-table entry times 512. -/
def refGrainByte (bytes : Nat → Nat) (i m : Nat) : Nat :=
  let gde := readU32 bytes (1024 + 4 * (i / 512))
  let gte := readU32 bytes (gde * 512 + 4 * (i % 512))
  if gte = 0 then 0 else bytes (gte * 512 + m)

/-- Byte `x` of the logical image that the reference reader decodes from a file. -/
def refImage (bytes : Nat → Nat) (x : Nat) : Nat := refGrainByte bytes (x / 65536) (x % 65536)

/-- Every reader and writer call of a run over `n` grains succeeds. -/
def Env.allOk (env : Env) (n : Nat) : Prop :=
  env.openFile = true ∧ env.wresHeader = true ∧ env.wresDesc = true ∧
  env.wresPadding = true ∧ env.wresSetGD = true ∧ env.wresGD = true ∧
  env.wresSetData = true ∧ env.openDisk = true ∧ (∀ i, i < n → env.rres i = true) ∧
  (∀ i, i < n → env.wresData i = true) ∧ env.wresSetGT = true ∧ env.wresGT = true

/-- The `n` bytes of a file that start at byte offset `off`. -/
def fileSlice (bytes : Nat → Nat) (off n : Nat) : List Nat :=
  (List.range n).map (fun k => bytes (off + k))

/-- The 65536 bytes of source grain `i`. -/
def grainBytes (source : Nat → Nat) (i : Nat) : List Nat :=
  (List.range 65536).map (fun m => source (i * 65536 + m))

/-- Indices below `n` of the source grains that are not all-zero, in source order. -/
def nonZeroGrains (source : Nat → Nat) (n : Nat) : List Nat :=
  (List.range n).filter (fun i => decide (¬ grainIsZero source i))

/-! ## Notions used for the header and the descriptor -/

/-- Little-endian value of the `w` bytes that start at index `off` of a byte list. -/
def fieldAt (l : List Nat) (off w : Nat) : Nat :=
  ((List.range w).map (fun k => l.getD (off + k) 0 * 256 ^ k)).sum

/-- The descriptor text as section 6 of the specification gives it, with the interpolated
fields `cid`, `capacitySectors`, `outputFileName` and `cylinders` = capacitySectors ÷
(16 × 63) written in decimal, LF line endings. -/
def specDescriptor (cid capacitySectors : Nat) (outputFileName : List Nat) : List Nat :=
  ascii "# Disk DescriptorFile\nversion=1\nCID=" ++ decimal cid ++
  ascii "\nparentCID=ffffffff\ncreateType=\"monolithicSparse\"\n\n# Extent description\nRW " ++
  decimal capacitySectors ++ ascii " SPARSE \"" ++ outputFileName ++
  ascii ".vmdk\" 0\n\n# The Disk Data Base\n#DDB\nddb.adapterType = \"ide\"\nddb.geometry.cylinders = \"" ++
  decimal (capacitySectors / (16 * 63)) ++
  ascii "\"\nddb.geometry.heads = \"16\"\nddb.geometry.sectors = \"63\"\nddb.virtualHWVersion = \"10\"\n"

/-- State after the header write, the descriptor write and the padding write (line 291). -/
def SparseVMDK.headerState (self : SparseVMDK) (env : Env) (capacitySectors : Nat) : State :=
  SparseVMDK.writePadding env (SparseVMDK.descriptorOf self env capacitySectors)
    (SparseVMDK.writeHeaderDescriptor env (mkHeader capacitySectors)
      (SparseVMDK.descriptorOf self env capacitySectors)
      (State.init.OpenFile env.openFile))

/-- Surroundings of Scenario F: every call succeeds and `rand()` returns 2345678, which
gives the CID 12345678. -/
def envF : Env := { okEnv (fun _ => 0) with rand := 2345678 }

/-- A source in which every byte is zero. -/
def allZeros : Nat → Nat := fun _ => 0

/-! ## Notions used to state properties of the operations issued -/

/-- The operation is a read of the source. -/
def Event.isRead : Event → Bool
  | Event.read _ _ _ => true
  | _ => false

/-- The operation writes a Sparse resume record. -/
def Event.isResumeRecord : Event → Bool
  | Event.createSparseLog _ _ _ _ _ _ => true
  | _ => false

/-- Operations of one iteration of the grain loop that does not return: the read of grain
`j` and, when the grain is not all-zero, its write at the next free place of the data
region, which starts at `D`. -/
def grainEvents (env : Env) (D j : Nat) : List Event :=
  if grainIsZero env.source j then [Event.read (j * 65536) 65536 true]
  else [Event.read (j * 65536) 65536 true,
        Event.write (D + 65536 * nonZeroBefore env.source j) 65536 true]

/-- Operations of the grain-directory phase and of the seek to the data region (lines
316-359). -/
def gdEvents (env : Env) (c : Nat) : List Event :=
  [Event.seek 1024 env.wresSetGD] ++
  (if env.wresSetGD = true then
      [Event.write 1024 (u64 (SparseVMDK.numGT c * 4)) env.wresGD]
    else []) ++
  [Event.seek (SparseVMDK.dataOffset c) env.wresSetData, Event.openDisk env.openDisk]

/-- Operations of the grain-table phase (lines 417-427). -/
def gtEvents (env : Env) (c : Nat) : List Event :=
  [Event.seek (SparseVMDK.gtOffset c) env.wresSetGT] ++
  (if env.wresSetGT = true then
      [Event.write (SparseVMDK.gtOffset c) (u64 (SparseVMDK.totalGrains c * 4)) env.wresGT]
    else [])

/-- A source of one sector of zero bytes followed, beyond the capacity of one sector, by a
non-zero byte at offset 600. -/
def leakSource : Nat → Nat := fun off => if off = 600 then 1 else 0

/-- No operation of the list writes a Sparse resume record. -/
def NoResumeRecord (tr : List Event) : Prop := ∀ e, e ∈ tr → Event.isResumeRecord e = false

/-- Surroundings of Scenario A in which the read of grain 2 fails. -/
def envReadFails : Env := { okEnv scenarioA with rres := fun i => decide (i ≠ 2) }

/-- Surroundings of Scenario A in which only the seek to the grain directory fails. -/
def envGDSeekFails : Env := { okEnv scenarioA with wresSetGD := false }

/-- Surroundings of Scenario A in which only the seek to the grain tables fails. -/
def envGTSeekFails : Env := { okEnv scenarioA with wresSetGT := false }

/-! ## The flat builder (`VMDK.h`) -/

/-- The object `FlatVMDK` of `VMDK.h` (Linux build): three `std::string` members. -/
structure FlatVMDK where
  outFileDir : List Nat
  outFileName : List Nat
  disk : List Nat

/-- What the surroundings of one run of `FlatVMDK::CreateVMDK` decide: the value returned by
`rand()`, whether `std::ofstream` can open the descriptor file, how many bytes of the text
the stream manages to store, and the value returned by `RawCopy::CreateRawCopy`, which
`RawCopy.h` only declares. -/
structure FlatEnv where
  rand : Nat
  openDescriptor : Bool
  stored : Nat
  rawCopyResult : Bool

/-- What a run of `FlatVMDK::CreateVMDK` leaves behind: the descriptor file (path and
content) when one was created, and the arguments `disk`, `outFile`, `bufSize` of the raw
copy when one was started. -/
structure FlatState where
  descriptorFile : Option (List Nat × List Nat)
  rawCopy : Option (List Nat × List Nat × Nat)

namespace FlatVMDK

/-- Sector size in bytes (`VMDK.h` line 19). -/
abbrev SECTOR_SIZE : Nat := 512
/-- Number of heads (`VMDK.h` line 20, `#define HEADS 255`). -/
abbrev HEADS : Nat := 255
/-- Number of sectors per track (`VMDK.h` line 21). -/
abbrev SECTORS : Nat := 63

/-- Lines 105-107 of `VMDK.h`: `return 10000000 + (rand() % 90000000);` as a `uint32_t`. -/
def generateRandomCID (rand : Nat) : Nat := u32 (10000000 + rand % 90000000)

/-- Lines 164-181 of `VMDK.h`: the text streamed into `descriptorFile`. -/
def mkDescriptor (cid capacitySectors : Nat) (filenameFlat : List Nat) (cylinders : Nat) :
    List Nat :=
  ascii "# Disk DescriptorFile\n" ++
  ascii "version=1\n" ++
  ascii "encoding=\"UTF-8\"\n" ++
  ascii "CID=" ++ decimal cid ++ ascii "\n" ++
  ascii "parentCID=ffffffff\n" ++
  ascii "isNativeSnapshot=\"no\"\n" ++
  ascii "createType=\"monolithicFlat\"\n" ++
  ascii "\n" ++
  ascii "# Extent description\n" ++
  ascii "RW " ++ decimal capacitySectors ++ ascii " FLAT \"" ++ filenameFlat ++ ascii "\" 0\n" ++
  ascii "\n" ++
  ascii "# The Disk Data Base\n" ++
  ascii "#DDB\n" ++
  ascii "ddb.adapterType = \"lsilogic\"\n" ++
  ascii "ddb.geometry.cylinders = \"" ++ decimal cylinders ++ ascii "\"\n" ++
  ascii "ddb.geometry.heads = \"255\"\n" ++
  ascii "ddb.geometry.sectors = \"63\"\n" ++
  ascii "ddb.virtualHWVersion = \"10\"\n"

/-- Lines 121-181: the descriptor text of a run. -/
def descriptorOf (self : FlatVMDK) (env : FlatEnv) (capacitySectors : Nat) : List Nat :=
  let cylinders := capacitySectors / (HEADS * SECTORS)
  let cid := generateRandomCID env.rand
  let filenameFlat := self.outFileName ++ ascii "-flat.vmdk"
  mkDescriptor cid capacitySectors filenameFlat cylinders

/-- State in which nothing was created or started. -/
def init : FlatState := { descriptorFile := none, rawCopy := none }

set_option linter.unusedVariables false in
/-- The member function `bool FlatVMDK::CreateVMDK(unsigned long bufSize, uint64_t
capacitySectors)` (lines 112-194 of `VMDK.h`, Linux build). The descriptor goes through a
`std::ofstream`, whose state is never tested: when the file cannot be opened nothing is
created and the insertions have no effect. The value returned by `RC.CreateRawCopy()` is
discarded. -/
def CreateVMDK (self : FlatVMDK) (env : FlatEnv) (bufSize capacitySectors : Nat) :
    Bool × FlatState :=
  if capacitySectors = 0 then (false, init)
  else
    let outFile := self.outFileDir ++ ascii "/" ++ self.outFileName ++ ascii ".vmdk"
    let text := descriptorOf self env capacitySectors
    let descriptorFile :=
      if env.openDescriptor then some (outFile, text.take env.stored) else none
    let outFile := self.outFileDir ++ ascii "/" ++ self.outFileName ++ ascii "-flat.vmdk"
    let result := env.rawCopyResult
    (true, { descriptorFile := descriptorFile, rawCopy := some (self.disk, outFile, bufSize) })

end FlatVMDK

/-- The flat descriptor as section 6 of the specification gives it: the sparse descriptor
text with createType "monolithicFlat", the extent line RW {capacitySectors} FLAT
"{name}-flat.vmdk" 0, heads "255", and cylinders = capacitySectors ÷ (255 × 63). -/
def specFlatDescriptor (cid capacitySectors : Nat) (name : List Nat) : List Nat :=
  ascii "# Disk DescriptorFile\nversion=1\nCID=" ++ decimal cid ++
  ascii "\nparentCID=ffffffff\ncreateType=\"monolithicFlat\"\n\n# Extent description\nRW " ++
  decimal capacitySectors ++ ascii " FLAT \"" ++ name ++
  ascii "-flat.vmdk\" 0\n\n# The Disk Data Base\n#DDB\nddb.adapterType = \"ide\"\nddb.geometry.cylinders = \"" ++
  decimal (capacitySectors / (255 * 63)) ++
  ascii "\"\nddb.geometry.heads = \"255\"\nddb.geometry.sectors = \"63\"\nddb.virtualHWVersion = \"10\"\n"

/-- The flat descriptor text with the further lines of `VMDK.h`: `encoding="UTF-8"` after
the version line, `isNativeSnapshot="no"` after the parentCID line, and the adapter type
"lsilogic". -/
def flatDescriptorText (cid capacitySectors : Nat) (name : List Nat) : List Nat :=
  ascii "# Disk DescriptorFile\nversion=1\nencoding=\"UTF-8\"\nCID=" ++ decimal cid ++
  ascii "\nparentCID=ffffffff\nisNativeSnapshot=\"no\"\ncreateType=\"monolithicFlat\"\n\n# Extent description\nRW " ++
  decimal capacitySectors ++ ascii " FLAT \"" ++ name ++
  ascii "-flat.vmdk\" 0\n\n# The Disk Data Base\n#DDB\nddb.adapterType = \"lsilogic\"\nddb.geometry.cylinders = \"" ++
  decimal (capacitySectors / (255 * 63)) ++
  ascii "\"\nddb.geometry.heads = \"255\"\nddb.geometry.sectors = \"63\"\nddb.virtualHWVersion = \"10\"\n"

/-- An object writing `/tmp/img.vmdk` and `/tmp/img-flat.vmdk` from `/dev/sda`. -/
def flatImg : FlatVMDK :=
  { outFileDir := ascii "/tmp", outFileName := ascii "img", disk := ascii "/dev/sda" }

/-- Surroundings in which the descriptor file opens, the whole text is stored, the raw copy
succeeds and `rand()` returns 2345678, which gives the CID 12345678. -/
def flatEnvOk : FlatEnv :=
  { rand := 2345678, openDescriptor := true, stored := 1000, rawCopyResult := true }


/-! ## Notions used to state the order of the operations -/

/-- The operation is a write to the output file. -/
def Event.isWrite : Event → Bool
  | Event.write _ _ _ => true
  | _ => false

/-- Operations up to the padding write, with their outcomes: the opening of the output
file, the header write at offset 0, the descriptor write behind what the header write
stored, and the padding write behind what the descriptor write stored. -/
def headerOps (self : SparseVMDK) (env : Env) (c : Nat) : List Event :=
  [Event.openFile env.openFile,
   Event.write 0 512 env.wresHeader,
   Event.write (if env.wresHeader = true then 512 else 0)
     (SparseVMDK.descriptorOf self env c).length env.wresDesc,
   Event.write ((if env.wresHeader = true then 512 else 0) +
       (if env.wresDesc = true then (SparseVMDK.descriptorOf self env c).length else 0))
     (512 - (SparseVMDK.descriptorOf self env c).length) env.wresPadding]

/-- Operations of the iteration of the grain loop for source grain `j`, with their outcomes:
the read of the grain and, when the read succeeded and the grain is not all-zero, the write
of the grain at the next free place of the data region, which starts at `D`. -/
def grainOps (env : Env) (D j : Nat) : List Event :=
  [Event.read (j * 65536) 65536 (env.rres j)] ++
  (if env.rres j = true ∧ ¬ grainIsZero env.source j then
      [Event.write (D + 65536 * nonZeroBefore env.source j) 65536 (env.wresData j)]
    else [])

/-- The operations of a run that is not cut short, in the order that sections 4.4 and 5 of
the specification give: header, descriptor and padding; grain directory; seek to the data
region and opening of the source; the grains in increasing source index; grain tables. -/
def orderedOps (self : SparseVMDK) (env : Env) (c : Nat) : List Event :=
  headerOps self env c ++ gdEvents env c ++
  (List.range (SparseVMDK.totalGrains c)).flatMap (grainOps env (SparseVMDK.dataOffset c)) ++
  gtEvents env c

/-- The writes among `orderedOps`: first the header write, then the descriptor write and the
padding write, then the grain-directory write, then the grain data writes in increasing
source index, last the grain-table write. -/
def orderedWrites (self : SparseVMDK) (env : Env) (c : Nat) : List Event :=
  [Event.write 0 512 env.wresHeader] ++
  [Event.write (if env.wresHeader = true then 512 else 0)
     (SparseVMDK.descriptorOf self env c).length env.wresDesc,
   Event.write ((if env.wresHeader = true then 512 else 0) +
       (if env.wresDesc = true then (SparseVMDK.descriptorOf self env c).length else 0))
     (512 - (SparseVMDK.descriptorOf self env c).length) env.wresPadding] ++
  (if env.wresSetGD = true then
      [Event.write 1024 (u64 (SparseVMDK.numGT c * 4)) env.wresGD]
    else []) ++
  ((List.range (SparseVMDK.totalGrains c)).filter
      (fun j => env.rres j && decide (¬ grainIsZero env.source j))).map
    (fun j => Event.write (SparseVMDK.dataOffset c + 65536 * nonZeroBefore env.source j) 65536
      (env.wresData j)) ++
  (if env.wresSetGT = true then
      [Event.write (SparseVMDK.gtOffset c) (u64 (SparseVMDK.totalGrains c * 4)) env.wresGT]
    else [])

/-- An object whose output name is 240 bytes long (245 with the extension `.vmdk`). -/
def longName : SparseVMDK :=
  { outFileDir := ascii "/tmp", outFileName := List.replicate 240 97, disk := ascii "/dev/sda" }

/-! ## Notions used to compare two runs -/

/-- Two program states agree in everything except, possibly, the bytes of the output file
at offsets 548..555. -/
structure SameOutsideCID (s1 s2 : State) : Prop where
  size : s1.writer.size = s2.writer.size
  pos : s1.writer.pos = s2.writer.pos
  bytes : ∀ k, ¬ (548 ≤ k ∧ k ≤ 555) → s1.writer.bytes k = s2.writer.bytes k
  rpos : s1.rpos = s2.rpos
  GDEs : s1.GDEs = s2.GDEs
  GTEs : s1.GTEs = s2.GTEs
  curGTEvalue : s1.curGTEvalue = s2.curGTEvalue
  trace : s1.trace = s2.trace

/-- The surroundings that differ from `env` only in the value returned by `rand()`. -/
def Env.withRand (env : Env) (r : Nat) : Env := { env with rand := r }

/-! ## The resume log (`LogsReadWrite.h` declares it; the bodies are not in the sources) -/

/-- The enumeration `ImageType` of `ConsoleIO.h`: `DD = 1`, `VMDK = 2`. -/
inductive ImageType where
  | DD
  | VMDK
  deriving DecidableEq

/-- The integer value of an image type (`static_cast<int>`). -/
def ImageType.code : ImageType → Nat
  | ImageType.DD => 1
  | ImageType.VMDK => 2

/-- The image type with a given integer value, if there is one. -/
def ImageType.ofCode : Nat → Option ImageType
  | 1 => some ImageType.DD
  | 2 => some ImageType.VMDK
  | _ => none

/-- The structure `LogFile` of `LogsReadWrite.h` (lines 17-36); strings are the lists of their
characters. -/
structure LogFile where
  type : ImageType
  disk : List Nat
  serialNum : List Nat
  outFileDir : List Nat
  outFileName : List Nat
  endTime : Nat
  numOfSectorsWriten : Nat
  totalSectors : Nat
  numOfGrainWriten : Nat
  numOfGrainRead : Nat
  totalGrains : Nat
  dataOffset : Nat
  gtOffset : Nat

namespace LogsReadWrite

/-- Modelled from the spec: the text of a log file (section 4.6, "text, line-per-field"),
every field on a line of its own that ends with LF. -/
def logLines (fields : List (List Nat)) : List Nat := fields.flatMap (fun l => l ++ [10])

/-- Modelled from the spec: the lines of a text file as line-by-line reading delivers them:
the text is cut at every LF, and what follows the last LF is a line when it is not empty. -/
def splitLines : List Nat → List (List Nat)
  | [] => []
  | b :: rest =>
      if b = 10 then [] :: splitLines rest
      else
        match splitLines rest with
        | [] => [[b]]
        | l :: ls => (b :: l) :: ls

/-- Modelled from the spec: section 4.6, "parser trims trailing \r". -/
def trimCR (l : List Nat) : List Nat := if l.getLast? = some 13 then l.dropLast else l

/-- Value of a string of decimal digits that continues the value `acc`; `none` when a
character is not a digit. -/
def parseNatAux : List Nat → Nat → Option Nat
  | [], acc => some acc
  | b :: rest, acc =>
      if 48 ≤ b ∧ b ≤ 57 then parseNatAux rest (acc * 10 + (b - 48)) else none

/-- Modelled from the spec: reading of a field written "as decimal" (section 4.6): the value
of a non-empty string of decimal digits. -/
def parseNat : List Nat → Option Nat
  | [] => none
  | b :: rest => parseNatAux (b :: rest) 0

/-- Reading of a decimal field that has to fit an unsigned integer of `w` bits. -/
def parseField (w : Nat) (l : List Nat) : Option Nat :=
  match parseNat l with
  | some n => if n < 2 ^ w then some n else none
  | none => none

/-- Modelled from the spec: the name `LogFile<N>` of a log file (section 4.6). -/
def logFileName (N : Nat) : List Nat := ascii "LogFile" ++ decimal N

/-- Modelled from the spec: the number `N` of a file whose name matches the pattern
`LogFile<N>` (section 4.6, enumerate); `none` for any other name. -/
def logFileId : List Nat → Option Nat
  | 76 :: 111 :: 103 :: 70 :: 105 :: 108 :: 101 :: digits => parseNat digits
  | _ => none

/-- The member `maxLogFileId` of the class: the largest number of a log file found in the
working directory, 0 when there is none. A directory is the list of its files, each with
its name and its content. -/
def maxLogFileId (dir : List (List Nat × List Nat)) : Nat :=
  (dir.filterMap (fun f => logFileId f.1)).foldl max 0

/-- Modelled from the spec: the text that `CreateRawCopyLog` writes (section 4.6): line 1 is
the image type as a decimal integer, then disk, serialNumber, outputDir, outputFileName,
endTime as decimal, sectorsWritten, totalSectors. -/
def rawCopyLogText (disk serialNum outFileDir outFileName : List Nat)
    (endTime numOfSectorsWriten totalSectors : Nat) : List Nat :=
  logLines [decimal ImageType.DD.code, disk, serialNum, outFileDir, outFileName,
    decimal endTime, decimal numOfSectorsWriten, decimal totalSectors]

/-- Modelled from the spec: `LogsReadWrite::CreateRawCopyLog`, declared in `LogsReadWrite.h`
(lines 97-103) without a body: section 4.6, createRaw, "writes a new file with a fresh N",
where N is a positive integer that increases and is not in use. `ok` tells whether the file
could be created and written. -/
def CreateRawCopyLog (dir : List (List Nat × List Nat)) (ok : Bool)
    (disk serialNum outFileDir outFileName : List Nat)
    (endTime numOfSectorsWriten totalSectors : Nat) : Bool × List (List Nat × List Nat) :=
  if ok then
    (true, dir ++ [(logFileName (maxLogFileId dir + 1),
      rawCopyLogText disk serialNum outFileDir outFileName endTime numOfSectorsWriten
        totalSectors)])
  else (false, dir)

/-- Modelled from the spec: the record that a log file holds (section 4.6, file format),
`none` for a malformed file. The fields of the other image type stay zero. -/
def parseLogFile (content : List Nat) : Option LogFile :=
  match (splitLines content).map trimCR with
  | t :: disk :: serialNum :: outFileDir :: outFileName :: endTime :: rest =>
      match (parseNat t).bind ImageType.ofCode, parseField 63 endTime with
      | some ImageType.DD, some e =>
          (match rest with
          | w :: total :: _ =>
              match parseField 64 w, parseField 64 total with
              | some w, some total =>
                  some { type := ImageType.DD, disk := disk, serialNum := serialNum,
                         outFileDir := outFileDir, outFileName := outFileName, endTime := e,
                         numOfSectorsWriten := w, totalSectors := total,
                         numOfGrainWriten := 0, numOfGrainRead := 0, totalGrains := 0,
                         dataOffset := 0, gtOffset := 0 }
              | _, _ => none
          | _ => none)
      | some ImageType.VMDK, some e =>
          (match rest with
          | gw :: gr :: tg :: dOff :: gtOff :: _ =>
              match parseField 64 gw, parseField 64 gr, parseField 64 tg, parseField 64 dOff,
                parseField 64 gtOff with
              | some gw, some gr, some tg, some dOff, some gtOff =>
                  some { type := ImageType.VMDK, disk := disk, serialNum := serialNum,
                         outFileDir := outFileDir, outFileName := outFileName, endTime := e,
                         numOfSectorsWriten := 0, totalSectors := 0,
                         numOfGrainWriten := gw, numOfGrainRead := gr, totalGrains := tg,
                         dataOffset := dOff, gtOffset := gtOff }
              | _, _, _, _, _ => none
          | _ => none)
      | _, _ => none
  | _ => none

/-- Modelled from the spec: `LogsReadWrite::ReadLogFiles`, declared in `LogsReadWrite.h`
(line 66) without a body: section 4.6, enumerate: the files of the working directory whose
name matches the pattern are parsed in turn, a malformed file is skipped. The result is the
returned boolean, the records stored in `logFiles`, and `*filesRead`. -/
def ReadLogFiles (dir : List (List Nat × List Nat)) : Bool × List LogFile × Nat :=
  let records := dir.filterMap
    (fun f => match logFileId f.1 with
      | some _ => parseLogFile f.2
      | none => none)
  (true, records, records.length)

end LogsReadWrite

/-- The string holds no line break: neither LF nor CR. -/
def NoLineBreak (l : List Nat) : Prop := ∀ b, b ∈ l → b ≠ 10 ∧ b ≠ 13

instance NoLineBreak_decidable (l : List Nat) : Decidable (NoLineBreak l) :=
  List.decidableBAll (fun b => b ≠ 10 ∧ b ≠ 13) l

/-! # Theorems -/

set_option linter.unusedVariables false

/-! ## Facts about the layout -/


namespace SparseVMDK

theorem totalGrains_eq (c : Nat) (hc : c < 18446744073709551616) :
    totalGrains c = (c + 127) / 128 := by
  unfold totalGrains u64
  simp only [grainSize]
  split <;> omega

theorem numGT_eq (c : Nat) (hc : c < 18446744073709551616) :
    numGT c = (totalGrains c + 511) / 512 := by
  have ht := totalGrains_eq c hc
  unfold numGT u64
  simp only [GTE_COUNT]
  split <;> omega

theorem gdOffset_eq : gdOffset = 1024 := by decide

theorem gtOffset_eq (c : Nat) (hc : c < 18446744073709551616) :
    gtOffset c = (1024 + 4 * numGT c + 511) / 512 * 512 := by
  have ht := totalGrains_eq c hc
  have hn := numGT_eq c hc
  unfold gtOffset
  simp only [gdOffset_eq, u64]
  split <;> omega

theorem dataOffset_eq (c : Nat) (hc : c < 18446744073709551616)
    (hfit : dataEnd c ≤ 4294967296 - 65536) :
    dataOffset c = (dataEnd c + 65535) / 65536 * 65536 := by
  have ht := totalGrains_eq c hc
  have hn := numGT_eq c hc
  have hg := gtOffset_eq c hc
  unfold dataEnd at *
  unfold dataOffset
  simp only [u64, u32]
  split <;> omega

theorem dataOffset_mod (c : Nat) : dataOffset c % 65536 = 0 := by
  unfold dataOffset
  simp only [u32]
  split <;> omega

theorem dataOffset_lt (c : Nat) : dataOffset c < 4294967296 := by
  unfold dataOffset
  simp only [u32]
  split <;> omega

end SparseVMDK

namespace SparseVMDK

theorem ceil_div_eq (n d : Nat) (hd : 0 < d) : ⌈(n : ℚ) / d⌉₊ = (n + (d - 1)) / d := by
  have hdq : (0 : ℚ) < d := by exact_mod_cast hd
  apply le_antisymm
  · rw [Nat.ceil_le, div_le_iff₀ hdq]
    have h : n ≤ (n + (d - 1)) / d * d := by
      have h1 := Nat.div_add_mod (n + (d - 1)) d
      have h2 := Nat.mod_lt (n + (d - 1)) hd
      rw [Nat.mul_comm]
      omega
    exact_mod_cast h
  · rw [Nat.div_le_iff_le_mul_add_pred hd]
    have h : (n : ℚ) ≤ d * ⌈(n : ℚ) / d⌉₊ := by
      have := Nat.le_ceil ((n : ℚ) / d)
      rw [div_le_iff₀ hdq] at this
      linarith
    have h2 : n ≤ d * ⌈(n : ℚ) / d⌉₊ := by exact_mod_cast h
    omega

/-- C6: for every 64-bit capacitySectors > 0, totalGrains is the ceiling of
capacitySectors / 128 and numGT is the ceiling of totalGrains / 512. -/
theorem totalGrains_numGT_ceil (capacitySectors : Nat) (hpos : 0 < capacitySectors)
    (h64 : capacitySectors < 2 ^ 64) :
    totalGrains capacitySectors = ⌈(capacitySectors : ℚ) / 128⌉₊ ∧
    numGT capacitySectors = ⌈(totalGrains capacitySectors : ℚ) / 512⌉₊ := by
  have h1 := totalGrains_eq capacitySectors (by simpa using h64)
  have h2 := numGT_eq capacitySectors (by simpa using h64)
  have e1 := ceil_div_eq capacitySectors 128 (by norm_num)
  have e2 := ceil_div_eq (totalGrains capacitySectors) 512 (by norm_num)
  constructor
  · rw [h1]; simpa using e1.symm
  · rw [h2]; simpa using e2.symm

/-- C6, Scenario A: capacitySectors = 1024 gives totalGrains = 8 and numGT = 1. -/
theorem totalGrains_numGT_ceil_witness :
    (0 < 1024 ∧ 1024 < 2 ^ 64) ∧
    (totalGrains 1024 = ⌈((1024 : Nat) : ℚ) / 128⌉₊ ∧
      numGT 1024 = ⌈(totalGrains 1024 : ℚ) / 512⌉₊) ∧
    totalGrains 1024 = 8 ∧ numGT 1024 = 1 :=
  ⟨⟨by decide, by decide⟩, totalGrains_numGT_ceil 1024 (by decide) (by decide),
    by decide, by decide⟩

/-- C7: for every capacitySectors > 0, gtOffset is 1024 + numGT * 4 rounded up to the next
multiple of 512, that is the least multiple of 512 that is at least 1024 + 4 * numGT. -/
theorem gtOffset_least_multiple (capacitySectors : Nat) (hpos : 0 < capacitySectors)
    (h64 : capacitySectors < 2 ^ 64) :
    IsLeast {m : Nat | 512 ∣ m ∧ 1024 + 4 * numGT capacitySectors ≤ m}
      (gtOffset capacitySectors) := by
  have hg := gtOffset_eq capacitySectors (by simpa using h64)
  constructor
  · refine ⟨?_, ?_⟩
    · rw [hg]; exact Dvd.intro_left _ rfl
    · omega
  · rintro m ⟨⟨q, rfl⟩, hm⟩
    omega

/-- C7, Scenario A: numGT = 1 gives gtOffset = 1536. -/
theorem gtOffset_least_multiple_witness :
    (0 < 1024 ∧ 1024 < 2 ^ 64) ∧
    IsLeast {m : Nat | 512 ∣ m ∧ 1024 + 4 * numGT 1024 ≤ m} (gtOffset 1024) ∧
    numGT 1024 = 1 ∧ gtOffset 1024 = 1536 :=
  ⟨⟨by decide, by decide⟩, gtOffset_least_multiple 1024 (by decide) (by decide),
    by decide, by decide⟩

/-- C8, at capacitySectors = 2^37: the 64-bit sum gtOffset + totalGrains * 4 is
4303356928, the 32-bit variable dataOffset keeps 8389632 of it and is aligned to 8454144,
which is below the end of the grain tables and is not the least multiple of 65536 at or
above the sum (that is 4303421440). -/
theorem dataOffset_truncated :
    gtOffset 137438953472 + 4 * totalGrains 137438953472 = 4303356928 ∧
    dataOffset 137438953472 = 8454144 ∧
    dataOffset 137438953472 < gtOffset 137438953472 + 4 * totalGrains 137438953472 ∧
    ¬ IsLeast {m : Nat | 65536 ∣ m ∧
        gtOffset 137438953472 + 4 * totalGrains 137438953472 ≤ m}
      (dataOffset 137438953472) := by
  have h1 : gtOffset 137438953472 + 4 * totalGrains 137438953472 = 4303356928 := by decide
  have h2 : dataOffset 137438953472 = 8454144 := by decide
  refine ⟨h1, h2, by omega, ?_⟩
  rintro ⟨⟨-, h⟩, -⟩
  omega

/-- C9: for 0 < capacitySectors ≤ 2^36, gtOffset is a multiple of 512, dataOffset is a
multiple of 65536, the grain directory stops at or before gtOffset, the grain-table array
stops at or before dataOffset, and the four regions (header and descriptor, grain
directory, grain-table array, data region) are pairwise disjoint byte ranges in that
order. -/
theorem layout_aligned_ordered (capacitySectors : Nat) (hpos : 0 < capacitySectors)
    (hcap : capacitySectors ≤ 2 ^ 36) :
    512 ∣ gtOffset capacitySectors ∧ 65536 ∣ dataOffset capacitySectors ∧
    1024 + 4 * numGT capacitySectors ≤ gtOffset capacitySectors ∧
    gtOffset capacitySectors + 4 * totalGrains capacitySectors ≤ dataOffset capacitySectors ∧
    Disjoint (Set.Ico 0 1024) (Set.Ico 1024 (1024 + 4 * numGT capacitySectors)) ∧
    Disjoint (Set.Ico 0 1024)
      (Set.Ico (gtOffset capacitySectors)
        (gtOffset capacitySectors + 4 * totalGrains capacitySectors)) ∧
    Disjoint (Set.Ico 0 1024) (Set.Ici (dataOffset capacitySectors)) ∧
    Disjoint (Set.Ico 1024 (1024 + 4 * numGT capacitySectors))
      (Set.Ico (gtOffset capacitySectors)
        (gtOffset capacitySectors + 4 * totalGrains capacitySectors)) ∧
    Disjoint (Set.Ico 1024 (1024 + 4 * numGT capacitySectors))
      (Set.Ici (dataOffset capacitySectors)) ∧
    Disjoint (Set.Ico (gtOffset capacitySectors)
        (gtOffset capacitySectors + 4 * totalGrains capacitySectors))
      (Set.Ici (dataOffset capacitySectors)) := by
  have hc : capacitySectors ≤ 68719476736 := by simpa using hcap
  have ht := totalGrains_eq capacitySectors (by omega)
  have hn := numGT_eq capacitySectors (by omega)
  have hg := gtOffset_eq capacitySectors (by omega)
  have hd := dataOffset_eq capacitySectors (by omega) (by unfold dataEnd; omega)
  unfold dataEnd at hd
  have a1 : 1024 + 4 * numGT capacitySectors ≤ gtOffset capacitySectors := by omega
  have a2 : gtOffset capacitySectors + 4 * totalGrains capacitySectors
      ≤ dataOffset capacitySectors := by omega
  refine ⟨?_, ?_, a1, a2, ?_, ?_, ?_, ?_, ?_, ?_⟩
  · rw [hg]; exact Dvd.intro_left _ rfl
  · rw [hd]; exact Dvd.intro_left _ rfl
  all_goals
    rw [Set.disjoint_left]
    intro x hx hy
    simp only [Set.mem_Ico, Set.mem_Ici] at hx hy
    omega

/-- C9, Scenario A: capacitySectors = 1024. -/
theorem layout_aligned_ordered_witness :
    (0 < 1024 ∧ 1024 ≤ 2 ^ 36) ∧ 512 ∣ gtOffset 1024 ∧ 65536 ∣ dataOffset 1024 ∧
    1024 + 4 * numGT 1024 ≤ gtOffset 1024 ∧
    gtOffset 1024 + 4 * totalGrains 1024 ≤ dataOffset 1024 :=
  have h := layout_aligned_ordered 1024 (by decide) (by decide)
  ⟨⟨by decide, by decide⟩, h.1, h.2.1, h.2.2.1, h.2.2.2.1⟩

end SparseVMDK

/-! ## The grain loop -/

theorem BUFFER_SIZE_eq : BUFFER_SIZE = 65536 := rfl

theorem memcmpFrom_zero_iff (a : Nat → Nat) (n i : Nat) :
    memcmpFrom a (fun _ => 0) i n = 0 ↔ ∀ k, k < n → a (i + k) = 0 := by
  induction n generalizing i with
  | zero => simp [memcmpFrom]
  | succ n ih =>
    simp only [memcmpFrom]
    by_cases h : a i = 0
    · rw [if_pos h, ih]
      constructor
      · intro hh k hk
        cases k with
        | zero => simpa using h
        | succ k =>
          have := hh k (by omega)
          rwa [show i + (k + 1) = i + 1 + k by omega]
      · intro hh k hk
        have := hh (k + 1) (by omega)
        rwa [show i + (k + 1) = i + 1 + k by omega] at this
    · rw [if_neg h]
      constructor
      · intro hh
        exfalso
        apply h
        have : (a i : Int) = 0 := by simpa using hh
        exact_mod_cast this
      · intro hh
        exact absurd (by simpa using hh 0 (by omega)) h

theorem memcmp_readBuffer (env : Env) (i : Nat) :
    memcmp (readBuffer env (i * 65536)) (fun _ => 0) 65536 ≠ 0 ↔
      ¬ grainIsZero env.source i := by
  unfold memcmp
  rw [not_iff_not, memcmpFrom_zero_iff]
  unfold grainIsZero readBuffer
  simp

theorem nonZeroBefore_succ (source : Nat → Nat) (i : Nat) :
    nonZeroBefore source (i + 1) =
      nonZeroBefore source i + (if grainIsZero source i then 0 else 1) := by
  unfold nonZeroBefore
  rw [Nat.count_succ]
  by_cases h : grainIsZero source i <;> simp [h]

theorem nonZeroBefore_le (source : Nat → Nat) (i : Nat) : nonZeroBefore source i ≤ i :=
  Nat.count_le _

theorem nonZeroBefore_mono (source : Nat → Nat) {i j : Nat} (h : i ≤ j) :
    nonZeroBefore source i ≤ nonZeroBefore source j :=
  Nat.count_monotone _ h

theorem nonZeroBefore_lt (source : Nat → Nat) {i j : Nat} (h : i < j)
    (hi : ¬ grainIsZero source i) :
    nonZeroBefore source i < nonZeroBefore source j := by
  have h1 := nonZeroBefore_succ source i
  have h2 := nonZeroBefore_mono source (show i + 1 ≤ j from h)
  rw [if_neg hi] at h1
  omega

open SparseVMDK

theorem fillGDEs_apply (count i cur : Nat) (hcur : cur < 4294967296) (G : Nat → Nat)
    (j : Nat) :
    fillGDEs count i cur G j =
      if i ≤ j ∧ j < i + count then u32 (cur + 4 * (j - i)) else G j := by
  induction count generalizing i cur G with
  | zero =>
    simp only [fillGDEs]
    rw [if_neg (by omega)]
  | succ n ih =>
    simp only [fillGDEs]
    rw [ih (i + 1) (u32 (cur + 4)) (by unfold u32; omega)]
    by_cases h1 : i + 1 ≤ j ∧ j < i + 1 + n
    · rw [if_pos h1, if_pos (by omega)]
      unfold u32
      omega
    · rw [if_neg h1]
      by_cases h2 : j = i
      · subst h2
        rw [if_pos (by omega)]
        simp [Function.update, u32]
        omega
      · rw [if_neg (by omega), Function.update_noteq h2]

theorem grainStep_fst (env : Env) (i : Nat) (s : State) (hr : s.rpos = i * 65536) :
    (grainStep env i s).1 = true ↔
      env.rres i = true ∧ (¬ grainIsZero env.source i → env.wresData i = true) := by
  have hm := memcmp_readBuffer env i
  unfold grainStep
  simp only [BUFFER_SIZE_eq, hr]
  by_cases h1 : env.rres i = true
  · by_cases h2 : grainIsZero env.source i
    · have h3 : ¬ (memcmp (readBuffer env (i * 65536)) (fun _ => 0) 65536 ≠ 0) := by
        rw [hm]; exact not_not.mpr h2
      simp [h1, h2, h3]
    · have h3 : memcmp (readBuffer env (i * 65536)) (fun _ => 0) 65536 ≠ 0 := hm.mpr h2
      by_cases h4 : env.wresData i = true <;> simp [h1, h2, h3, h4]
  · simp [h1]

theorem grainStep_inv (env : Env) (s0 : State) (i : Nat) (s : State)
    (hinv : LoopInv env s0 i s) (hok : (grainStep env i s).1 = true) :
    LoopInv env s0 (i + 1) (grainStep env i s).2 := by
  have hm := memcmp_readBuffer env i
  obtain ⟨h1, h4⟩ := (grainStep_fst env i s hinv.rpos).mp hok
  have hsucc := nonZeroBefore_succ env.source i
  obtain ⟨irpos, ipos, icur, igte, igde, idata, iother, isize⟩ := hinv
  unfold grainStep
  simp only [BUFFER_SIZE_eq, irpos]
  by_cases h2 : grainIsZero env.source i
  · have h3 : ¬ (memcmp (readBuffer env (i * 65536)) (fun _ => 0) 65536 ≠ 0) := by
      rw [hm]; exact not_not.mpr h2
    rw [if_pos h2] at hsucc
    simp only [h1, Bool.not_true, Bool.false_eq_true, if_false]
    rw [if_neg h3]
    simp only [State.Read, if_true]
    refine ⟨?_, ?_, ?_, ?_, ?_, ?_, ?_, ?_⟩
    · show s.rpos + 65536 = (i + 1) * 65536
      omega
    · show s.writer.pos = _
      rw [ipos, hsucc]; rfl
    · show s.curGTEvalue = _
      rw [icur, hsucc]; rfl
    · intro j
      show Function.update s.GTEs i 0 j = _
      by_cases hj : j = i
      · subst hj
        simp [h2]
      · rw [Function.update_noteq hj, igte j]
        by_cases hlt : j < i
        · have hlt1 : j < i + 1 := by omega
          simp only [hlt, hlt1, if_true]
        · have hlt1 : ¬ j < i + 1 := by omega
          simp only [hlt, hlt1, if_false]
    · exact igde
    · intro j hj hnz m hm
      show s.writer.bytes _ = _
      have hji : j < i := by
        rcases Nat.lt_succ_iff_lt_or_eq.mp hj with h | h
        · exact h
        · subst h; exact absurd h2 hnz
      exact idata j hji hnz m hm
    · intro k hk
      show s.writer.bytes k = _
      rw [hsucc] at hk
      exact iother k hk
    · show s.writer.size = _
      rw [isize, hsucc]; rfl
  · have h3 : memcmp (readBuffer env (i * 65536)) (fun _ => 0) 65536 ≠ 0 := hm.mpr h2
    have h5 := h4 h2
    rw [if_neg h2] at hsucc
    simp only [h1, Bool.not_true, Bool.false_eq_true, if_false]
    rw [if_pos h3]
    simp only [h5, Bool.not_true, Bool.false_eq_true, if_false, State.Read, if_true,
      State.Write, Writer.Write]
    refine ⟨?_, ?_, ?_, ?_, ?_, ?_, ?_, ?_⟩
    · show s.rpos + 65536 = (i + 1) * 65536
      omega
    · show s.writer.pos + 65536 = _
      rw [ipos, hsucc]; omega
    · show u32 (s.curGTEvalue + 128) = _
      rw [icur, hsucc]; unfold u32; omega
    · intro j
      show Function.update s.GTEs i s.curGTEvalue j = _
      by_cases hj : j = i
      · subst hj
        simp [h2, icur]
      · rw [Function.update_noteq hj, igte j]
        by_cases hlt : j < i
        · have hlt1 : j < i + 1 := by omega
          simp only [hlt, hlt1, if_true]
        · have hlt1 : ¬ j < i + 1 := by omega
          simp only [hlt, hlt1, if_false]
    · exact igde
    · intro j hj hnz m hm
      show (if s.writer.pos ≤ _ ∧ _ < s.writer.pos + 65536 then _ else _) = _
      rcases Nat.lt_succ_iff_lt_or_eq.mp hj with h | h
      · have hlt := nonZeroBefore_lt env.source h hnz
        rw [if_neg (by rw [ipos]; omega)]
        exact idata j h hnz m hm
      · subst h
        rw [if_pos (by rw [ipos]; omega)]
        unfold readBuffer
        rw [ipos]
        congr 1
        omega
    · intro k hk
      show (if s.writer.pos ≤ k ∧ k < s.writer.pos + 65536 then _ else _) = _
      rw [hsucc] at hk
      rw [if_neg (by rw [ipos]; omega)]
      exact iother k (by omega)
    · show (if (65536 : Nat) = 0 then s.writer.size else max s.writer.size (s.writer.pos + 65536))
        = _
      rw [if_neg (by omega), if_neg (by omega), isize, ipos, hsucc]
      split <;> omega

theorem grainLoop_spec (env : Env) (s0 : State) (count i : Nat) (s : State)
    (hinv : LoopInv env s0 i s) :
    ((grainLoop env count i s).1 = true ↔
      ∀ j, i ≤ j → j < i + count →
        env.rres j = true ∧ (¬ grainIsZero env.source j → env.wresData j = true)) ∧
    ((grainLoop env count i s).1 = true →
      LoopInv env s0 (i + count) (grainLoop env count i s).2) := by
  induction count generalizing i s with
  | zero =>
    simp only [grainLoop]
    exact ⟨⟨fun _ j h1 h2 => by omega, fun _ => trivial⟩, fun _ => hinv⟩
  | succ n ih =>
    have hfst := grainStep_fst env i s hinv.rpos
    have hstep := grainStep_inv env s0 i s hinv
    simp only [grainLoop]
    rcases hgs : grainStep env i s with ⟨b, s1⟩
    rw [hgs] at hfst hstep
    cases b with
    | false =>
      simp only
      refine ⟨⟨fun h => by simp at h, fun h => ?_⟩, fun h => by simp at h⟩
      exact absurd (hfst.mpr (h i (by omega) (by omega))) (by simp)
    | true =>
      simp only
      have hinv1 := hstep rfl
      obtain ⟨ih1, ih2⟩ := ih (i + 1) s1 hinv1
      refine ⟨?_, ?_⟩
      · rw [ih1]
        constructor
        · intro h j h1 h2
          rcases Nat.eq_or_lt_of_le h1 with h3 | h3
          · subst h3; exact hfst.mp rfl
          · exact h j h3 (by omega)
        · intro h j h1 h2
          exact h j (by omega) (by omega)
      · intro h
        have := ih2 h
        rwa [show i + 1 + n = i + (n + 1) by omega] at this

theorem LoopInv_init (env : Env) (s0 : State) (hr : s0.rpos = 0)
    (hc : s0.curGTEvalue < 4294967296) : LoopInv env s0 0 s0 := by
  have h0 : nonZeroBefore env.source 0 = 0 := by simp [nonZeroBefore]
  refine ⟨by omega, by rw [h0]; omega, by rw [h0]; unfold u32; omega, ?_, rfl, ?_, ?_, ?_⟩
  · intro j; rw [if_neg (by omega)]
  · intro j hj; omega
  · intro k _; rfl
  · rw [h0]; simp

/-! ## The whole run -/

theorem CreateSparse_true_iff (self : SparseVMDK) (env : Env) (bufSize c : Nat) :
    (CreateSparse self env bufSize c).1 = some true ↔
      c ≠ 0 ∧ env.openFile = true ∧ (descriptorOf self env c).length ≤ 512 ∧
      env.wresHeader = true ∧ env.wresDesc = true ∧
      (env.wresSetGD = true → env.wresGD = true) ∧ env.wresSetData = true ∧
      env.openDisk = true ∧
      (grainLoop env (totalGrains c) 0 (preLoop self env c)).1 = true ∧
      (env.wresSetGT = true → env.wresGT = true) := by
  unfold CreateSparse preLoop
  by_cases hc : c = 0
  · simp [hc]
  by_cases h1 : env.openFile = true
  swap
  · simp [hc, h1]
  by_cases hlen : 512 < (descriptorOf self env c).length
  · simp [hc, h1, hlen]
  have hlen1 : (descriptorOf self env c).length ≤ 512 := by omega
  by_cases h2 : env.wresHeader = true
  swap
  · simp [hc, h1, hlen, h2]
  by_cases h3 : env.wresDesc = true
  swap
  · simp [hc, h1, hlen, h2, h3]
  by_cases h4 : env.wresSetGD = true → env.wresGD = true
  swap
  · have h4a : env.wresSetGD = true := by
      by_contra hh; exact h4 (fun h => absurd h hh)
    have h4b : env.wresGD = false := by
      cases hh : env.wresGD
      · rfl
      · exact absurd (fun _ => hh) h4
    simp [hc, h1, hlen, h2, h3, h4a, h4b]
  have h4c : (env.wresSetGD && !env.wresGD) = false := by
    cases ha : env.wresSetGD <;> cases hb : env.wresGD <;> simp_all
  by_cases h5 : env.wresSetData = true
  swap
  · simp [hc, h1, hlen, h2, h3, h4c, h5]
  by_cases h6 : env.openDisk = true
  swap
  · simp [hc, h1, hlen, h2, h3, h4c, h5, h6]
  simp only [hc, h1, hlen, h2, h3, h4c, h5, h6, if_true, if_false, Bool.not_true,
    Bool.or_false, Bool.false_eq_true, ne_eq, not_false_eq_true, true_and, hlen1]
  rcases hg : grainLoop env (totalGrains c) 0 _ with ⟨b, s11⟩
  cases b with
  | false => simp [h4]
  | true =>
    cases ha : env.wresSetGT <;> cases hb : env.wresGT <;> simp <;> exact h4

theorem CreateSparse_state (self : SparseVMDK) (env : Env) (bufSize c : Nat)
    (h : (CreateSparse self env bufSize c).1 = some true) :
    (CreateSparse self env bufSize c).2 = finalState self env c := by
  obtain ⟨hc, h1, hlen, h2, h3, h4, h5, h6, h7, h8⟩ :=
    (CreateSparse_true_iff self env bufSize c).mp h
  have h4c : (env.wresSetGD && !env.wresGD) = false := by
    cases ha : env.wresSetGD <;> cases hb : env.wresGD <;> simp_all
  have h8c : (env.wresSetGT && !env.wresGT) = false := by
    cases ha : env.wresSetGT <;> cases hb : env.wresGT <;> simp_all
  have hlen1 : ¬ 512 < (descriptorOf self env c).length := by omega
  unfold finalState
  unfold preLoop at h7 ⊢
  unfold CreateSparse
  simp only [h1, h6] at h7
  simp only [hc, h1, hlen1, h2, h3, h4c, h5, h6, if_true, if_false, Bool.not_true,
    Bool.or_false, Bool.false_eq_true]
  rcases hg : grainLoop env (totalGrains c) 0 _ with ⟨b, s11⟩
  rw [hg] at h7
  simp only at h7
  subst h7
  simp only [h8c, Bool.false_eq_true, if_false]

theorem Write_bytes_of_le (w : Writer) (ok : Bool) (buf : Nat → Nat) (n k : Nat)
    (hk : w.pos + n ≤ k) : (w.Write ok buf n).bytes k = w.bytes k := by
  unfold Writer.Write
  cases ok
  · rfl
  · simp only [if_true]
    rw [if_neg (by omega)]

theorem Write_pos_le (w : Writer) (ok : Bool) (buf : Nat → Nat) (n : Nat) :
    (w.Write ok buf n).pos ≤ w.pos + n := by
  unfold Writer.Write
  cases ok
  · exact Nat.le_add_right _ _
  · exact Nat.le_refl _

theorem header_region (env : Env) (hdr : SparseExtentHeader) (d : List Nat) (b : Bool)
    (hlen : d.length ≤ 512) (k : Nat) (hk : 1024 ≤ k) :
    (writePadding env d (writeHeaderDescriptor env hdr d
      (State.init.OpenFile b))).writer.bytes k = 0 := by
  unfold writePadding writeHeaderDescriptor
  simp only [State.Write, State.OpenFile]
  generalize bufOfList hdr.bytes = hb
  generalize bufOfList d = db
  have p0 : Writer.OpenFile.pos = 0 := rfl
  have p1 := Write_pos_le Writer.OpenFile env.wresHeader hb 512
  have p2 := Write_pos_le (Writer.OpenFile.Write env.wresHeader hb 512) env.wresDesc db
    d.length
  rw [Write_bytes_of_le _ _ _ _ _ (by omega), Write_bytes_of_le _ _ _ _ _ (by omega),
    Write_bytes_of_le _ _ _ _ _ (by omega)]
  rfl

theorem preLoop_facts (self : SparseVMDK) (env : Env) (c : Nat)
    (hlen : (descriptorOf self env c).length ≤ 512)
    (h4 : env.wresSetGD = true → env.wresGD = true) (h5 : env.wresSetData = true) :
    (preLoop self env c).rpos = 0 ∧
    (preLoop self env c).curGTEvalue = u32 (dataOffset c / 512) ∧
    (preLoop self env c).GTEs = (fun _ => 0) ∧
    (preLoop self env c).GDEs = fillGDEs (numGT c) 0 (u32 (gtOffset c / 512)) (fun _ => 0) ∧
    (preLoop self env c).writer.pos = dataOffset c ∧
    ∀ k, 1024 ≤ k → (preLoop self env c).writer.bytes k =
      if env.wresSetGD = true ∧ k < 1024 + u64 (numGT c * 4) then
        arrayBytes (fillGDEs (numGT c) 0 (u32 (gtOffset c / 512)) (fun _ => 0)) (k - 1024)
      else 0 := by
  refine ⟨rfl, rfl, rfl, ?_, ?_, ?_⟩
  · unfold preLoop seekData writeGD
    cases env.wresSetGD <;> rfl
  · unfold preLoop seekData
    simp [State.OpenDisk, State.SetFilePointer, Writer.SetFilePointer, h5]
  · intro k hk
    have hz := header_region env (mkHeader c) (descriptorOf self env c) env.openFile hlen k hk
    unfold preLoop seekData writeGD
    generalize (writePadding env (descriptorOf self env c) (writeHeaderDescriptor env
      (mkHeader c) (descriptorOf self env c) (State.init.OpenFile env.openFile))) = s4 at hz ⊢
    cases hsg : env.wresSetGD
    · simp [State.OpenDisk, State.SetFilePointer, Writer.SetFilePointer, h5, hz]
    · have hg := h4 hsg
      simp only [State.OpenDisk, State.SetFilePointer, Writer.SetFilePointer, h5, hg,
        State.Write, Writer.Write, if_true, gdOffset_eq, true_and]
      by_cases hlt : k < 1024 + u64 (numGT c * 4)
      · rw [if_pos ⟨hk, hlt⟩, if_pos hlt]
      · rw [if_neg (by omega), if_neg hlt, hz]

theorem finalState_eq (self : SparseVMDK) (env : Env) (c : Nat) :
    finalState self env c = writeGT env c (loopState self env c) := rfl

theorem writeGT_GTEs (env : Env) (c : Nat) (s : State) : (writeGT env c s).GTEs = s.GTEs := by
  unfold writeGT
  cases env.wresSetGT <;> rfl

theorem writeGT_GDEs (env : Env) (c : Nat) (s : State) : (writeGT env c s).GDEs = s.GDEs := by
  unfold writeGT
  cases env.wresSetGT <;> rfl

theorem writeGT_bytes (env : Env) (c : Nat) (s : State) (k : Nat) :
    (writeGT env c s).writer.bytes k =
      if env.wresSetGT = true ∧ env.wresGT = true ∧
          gtOffset c ≤ k ∧ k < gtOffset c + u64 (totalGrains c * 4) then
        arrayBytes s.GTEs (k - gtOffset c)
      else s.writer.bytes k := by
  unfold writeGT
  cases h1 : env.wresSetGT
  · simp [State.SetFilePointer, Writer.SetFilePointer]
  · cases h2 : env.wresGT
    · simp [State.SetFilePointer, Writer.SetFilePointer, State.Write, Writer.Write]
    · simp [State.SetFilePointer, Writer.SetFilePointer, State.Write, Writer.Write]

theorem loop_inv (self : SparseVMDK) (env : Env) (bufSize c : Nat)
    (h : (CreateSparse self env bufSize c).1 = some true) :
    LoopInv env (preLoop self env c) (totalGrains c) (loopState self env c) := by
  obtain ⟨hc, h1, hlen, h2, h3, h4, h5, h6, h7, h8⟩ :=
    (CreateSparse_true_iff self env bufSize c).mp h
  obtain ⟨p1, p2, -⟩ := preLoop_facts self env c hlen h4 h5
  have hinit := LoopInv_init env (preLoop self env c) p1 (by rw [p2]; unfold u32; omega)
  have := (grainLoop_spec env (preLoop self env c) (totalGrains c) 0 _ hinit).2 h7
  rwa [Nat.zero_add] at this

theorem u32_of_lt {x : Nat} (h : x < 4294967296) : u32 x = x := Nat.mod_eq_of_lt h

theorem dataOffset_div (c : Nat) : u32 (dataOffset c / 512) = dataOffset c / 512 := by
  have := dataOffset_lt c
  exact u32_of_lt (by omega)

/-- Grain table of a successful run, for every input. -/
theorem GTEs_formula (self : SparseVMDK) (env : Env) (bufSize c : Nat)
    (h : (CreateSparse self env bufSize c).1 = some true) (j : Nat) :
    (CreateSparse self env bufSize c).2.GTEs j =
      if j < totalGrains c then
        (if grainIsZero env.source j then 0
         else u32 (dataOffset c / 512 + 128 * nonZeroBefore env.source j))
      else 0 := by
  obtain ⟨hc, h1, hlen, h2, h3, h4, h5, h6, h7, h8⟩ :=
    (CreateSparse_true_iff self env bufSize c).mp h
  obtain ⟨p1, p2, p3, -⟩ := preLoop_facts self env c hlen h4 h5
  have hinv := loop_inv self env bufSize c h
  rw [CreateSparse_state self env bufSize c h, finalState_eq, writeGT_GTEs, hinv.gte j, p2, p3,
    dataOffset_div]

/-- Grain directory of a successful run, for every input. -/
theorem GDEs_formula (self : SparseVMDK) (env : Env) (bufSize c : Nat)
    (h : (CreateSparse self env bufSize c).1 = some true) (j : Nat) :
    (CreateSparse self env bufSize c).2.GDEs j =
      if j < numGT c then u32 (gtOffset c / 512 + 4 * j) else 0 := by
  obtain ⟨hc, h1, hlen, h2, h3, h4, h5, h6, h7, h8⟩ :=
    (CreateSparse_true_iff self env bufSize c).mp h
  obtain ⟨p1, p2, p3, p4, -⟩ := preLoop_facts self env c hlen h4 h5
  have hinv := loop_inv self env bufSize c h
  rw [CreateSparse_state self env bufSize c h, finalState_eq, writeGT_GDEs, hinv.gde, p4,
    fillGDEs_apply _ _ _ (by unfold u32; omega)]
  by_cases hj : j < numGT c
  · rw [if_pos (by omega), if_pos hj]
    unfold u32
    omega
  · rw [if_neg (by omega), if_neg hj]

/-- A run in which every reader and writer call succeeds and whose descriptor fits in its
sector returns `true`. -/
theorem CreateSparse_succeeds (self : SparseVMDK) (env : Env) (bufSize c : Nat)
    (hc : 0 < c) (hlen : (descriptorOf self env c).length ≤ 512)
    (h1 : env.openFile = true) (h2 : env.wresHeader = true) (h3 : env.wresDesc = true)
    (h4 : env.wresSetGD = true → env.wresGD = true) (h5 : env.wresSetData = true)
    (h6 : env.openDisk = true) (hr : ∀ i, i < totalGrains c → env.rres i = true)
    (hw : ∀ i, i < totalGrains c → ¬ grainIsZero env.source i → env.wresData i = true)
    (h8 : env.wresSetGT = true → env.wresGT = true) :
    (CreateSparse self env bufSize c).1 = some true := by
  rw [CreateSparse_true_iff]
  obtain ⟨p1, p2, -⟩ := preLoop_facts self env c hlen h4 h5
  have hinit := LoopInv_init env (preLoop self env c) p1 (by rw [p2]; unfold u32; omega)
  refine ⟨by omega, h1, hlen, h2, h3, h4, h5, h6, ?_, h8⟩
  rw [(grainLoop_spec env (preLoop self env c) (totalGrains c) 0 _ hinit).1]
  intro j _ hj
  exact ⟨hr j (by omega), hw j (by omega)⟩

/-! ## Facts about the example runs -/

theorem img_descriptor (source : Nat → Nat) (c : Nat) :
    descriptorOf img (okEnv source) c =
      mkDescriptor (generateRandomCID 0) c (ascii "img" ++ ascii ".vmdk") (c / (16 * 63)) :=
  rfl

theorem okEnv_run (source : Nat → Nat) (bufSize c : Nat) (hc : 0 < c)
    (h : (mkDescriptor (generateRandomCID 0) c (ascii "img" ++ ascii ".vmdk")
      (c / (16 * 63))).length ≤ 512) :
    (CreateSparse img (okEnv source) bufSize c).1 = some true :=
  CreateSparse_succeeds img (okEnv source) bufSize c hc (by rw [img_descriptor]; exact h)
    rfl rfl rfl (fun _ => rfl) rfl rfl (fun _ _ => rfl) (fun _ _ _ => rfl) (fun _ => rfl)

theorem mkDescriptor_length (cid c : Nat) (name : List Nat) (cyl : Nat) :
    (mkDescriptor cid c name cyl).length =
      285 + (decimal cid).length + (decimal c).length + name.length + (decimal cyl).length := by
  unfold mkDescriptor
  simp only [List.length_append]
  have e0 : (ascii "# Disk DescriptorFile\n").length = 22 := rfl
  have e1 : (ascii "version=1\n").length = 10 := rfl
  have e2 : (ascii "CID=").length = 4 := rfl
  have e3 : (ascii "\n").length = 1 := rfl
  have e4 : (ascii "parentCID=ffffffff\n").length = 19 := rfl
  have e5 : (ascii "createType=\"monolithicSparse\"\n").length = 30 := rfl
  have e7 : (ascii "# Extent description\n").length = 21 := rfl
  have e8 : (ascii "RW ").length = 3 := rfl
  have e9 : (ascii " SPARSE \"").length = 9 := rfl
  have e10 : (ascii "\" 0\n").length = 4 := rfl
  have e12 : (ascii "# The Disk Data Base\n").length = 21 := rfl
  have e13 : (ascii "#DDB\n").length = 5 := rfl
  have e14 : (ascii "ddb.adapterType = \"ide\"\n").length = 24 := rfl
  have e15 : (ascii "ddb.geometry.cylinders = \"").length = 26 := rfl
  have e16 : (ascii "\"\n").length = 2 := rfl
  have e17 : (ascii "ddb.geometry.heads = \"16\"\n").length = 26 := rfl
  have e18 : (ascii "ddb.geometry.sectors = \"63\"\n").length = 28 := rfl
  have e19 : (ascii "ddb.virtualHWVersion = \"10\"\n").length = 28 := rfl
  rw [e0, e1, e2, e3, e4, e5, e7, e8, e9, e10, e12, e13, e14, e15, e16, e17, e18, e19]
  omega

theorem scenarioA_run (bufSize : Nat) :
    (CreateSparse img (okEnv scenarioA) bufSize 1024).1 = some true :=
  okEnv_run scenarioA bufSize 1024 (by decide) (by rw [mkDescriptor_length]; decide)

theorem allOnes_run (bufSize : Nat) :
    (CreateSparse img (okEnv allOnes) bufSize 4294967296).1 = some true :=
  okEnv_run allOnes bufSize 4294967296 (by decide) (by rw [mkDescriptor_length]; decide)

theorem scenarioA_zero (i : Nat) : grainIsZero scenarioA i ↔ i = 1 := by
  constructor
  · intro h
    have h0 := h 0 (by omega)
    unfold scenarioA at h0
    by_contra hne
    by_cases h1 : i * 65536 + 0 < 65536
    · rw [if_pos h1] at h0; omega
    · rw [if_neg h1] at h0
      by_cases h2 : i * 65536 + 0 < 131072
      · omega
      · rw [if_neg h2] at h0; omega
  · rintro rfl k hk
    unfold scenarioA
    rw [if_neg (by omega), if_pos (by omega)]

theorem allOnes_nonzero (i : Nat) : ¬ grainIsZero allOnes i := by
  intro h
  have := h 0 (by omega)
  unfold allOnes at this
  omega

theorem allOnes_count (i : Nat) : nonZeroBefore allOnes i = i := by
  induction i with
  | zero => simp [nonZeroBefore]
  | succ n ih => rw [nonZeroBefore_succ, if_neg (allOnes_nonzero n), ih]

/-! ## Grain table -/

theorem scenarioA_count (i : Nat) :
    nonZeroBefore scenarioA i = if i ≤ 1 then i else i - 1 := by
  induction i with
  | zero => simp [nonZeroBefore]
  | succ n ih =>
    rw [nonZeroBefore_succ, ih]
    by_cases h : n = 1
    · subst h
      rw [if_pos ((scenarioA_zero 1).mpr rfl)]
      simp
    · rw [if_neg (fun hz => h ((scenarioA_zero n).mp hz))]
      split <;> split <;> omega

/-- C3: for every capacitySectors > 0 with dataOffset/512 + 128 * totalGrains < 2^32 and
every source, in a run that returns true the grain table built by the grain loop is
GTEs[i] = 0 if source grain i is all-zero, and otherwise
GTEs[i] = dataOffset/512 + 128 * (number of non-zero grains with index below i). -/
theorem GTEs_closed_form (self : SparseVMDK) (env : Env) (bufSize capacitySectors : Nat)
    (hpos : 0 < capacitySectors)
    (hfit : dataOffset capacitySectors / 512 + 128 * totalGrains capacitySectors < 2 ^ 32)
    (hrun : (CreateSparse self env bufSize capacitySectors).1 = some true) :
    ∀ i, i < totalGrains capacitySectors →
      (CreateSparse self env bufSize capacitySectors).2.GTEs i =
        if grainIsZero env.source i then 0
        else dataOffset capacitySectors / 512 + 128 * nonZeroBefore env.source i := by
  intro i hi
  rw [GTEs_formula self env bufSize capacitySectors hrun i, if_pos hi]
  by_cases hz : grainIsZero env.source i
  · rw [if_pos hz, if_pos hz]
  · rw [if_neg hz, if_neg hz]
    have := nonZeroBefore_le env.source i
    exact u32_of_lt (by norm_num at hfit; omega)

/-- C3, Scenario A: capacitySectors = 1024 with grains 0xAA, zero, 0xBB (six times) gives
GTEs = 128, 0, 256, 384, 512, 640, 768, 896. -/
theorem GTEs_closed_form_witness :
    (0 < 1024 ∧ dataOffset 1024 / 512 + 128 * totalGrains 1024 < 2 ^ 32 ∧
      (CreateSparse img (okEnv scenarioA) 65536 1024).1 = some true) ∧
    (∀ i, i < totalGrains 1024 →
      (CreateSparse img (okEnv scenarioA) 65536 1024).2.GTEs i =
        if grainIsZero (okEnv scenarioA).source i then 0
        else dataOffset 1024 / 512 + 128 * nonZeroBefore (okEnv scenarioA).source i) ∧
    (List.range 8).map (CreateSparse img (okEnv scenarioA) 65536 1024).2.GTEs
      = [128, 0, 256, 384, 512, 640, 768, 896] := by
  have h := GTEs_closed_form img (okEnv scenarioA) 65536 1024 (by decide) (by decide)
    (scenarioA_run 65536)
  refine ⟨⟨by decide, by decide, scenarioA_run 65536⟩, h, ?_⟩
  have ht : totalGrains 1024 = 8 := by decide
  have hd : dataOffset 1024 = 65536 := by decide
  have hs : (okEnv scenarioA).source = scenarioA := rfl
  simp only [List.range, List.range.loop, List.map]
  rw [h 0 (by omega), h 1 (by omega), h 2 (by omega), h 3 (by omega), h 4 (by omega),
    h 5 (by omega), h 6 (by omega), h 7 (by omega)]
  simp [hs, hd, scenarioA_zero, scenarioA_count]

/-- C4 as stated fails: with capacitySectors = 2^32 and a source without zero bytes the run
returns true, grain 33552379 is not all-zero, and its grain-table entry is 0, which is below
dataOffset. -/
theorem GTEs_invariant_counterexample :
    (CreateSparse img (okEnv allOnes) 65536 4294967296).1 = some true ∧
    33552379 < totalGrains 4294967296 ∧
    ¬ grainIsZero (okEnv allOnes).source 33552379 ∧
    (CreateSparse img (okEnv allOnes) 65536 4294967296).2.GTEs 33552379 = 0 ∧
    ¬ (((CreateSparse img (okEnv allOnes) 65536 4294967296).2.GTEs 33552379 = 0 ∧
          grainIsZero (okEnv allOnes).source 33552379) ∨
        (65536 ∣ (CreateSparse img (okEnv allOnes) 65536 4294967296).2.GTEs 33552379 * 512 ∧
          dataOffset 4294967296 ≤
            (CreateSparse img (okEnv allOnes) 65536 4294967296).2.GTEs 33552379 * 512)) := by
  have hrun := allOnes_run 65536
  have ht : totalGrains 4294967296 = 33554432 := by decide
  have hd : dataOffset 4294967296 = 134545408 := by decide
  have hz : ¬ grainIsZero (okEnv allOnes).source 33552379 := allOnes_nonzero _
  have hg : (CreateSparse img (okEnv allOnes) 65536 4294967296).2.GTEs 33552379 = 0 := by
    rw [GTEs_formula img (okEnv allOnes) 65536 4294967296 hrun, if_pos (by omega), if_neg hz]
    have hs : (okEnv allOnes).source = allOnes := rfl
    rw [hs, allOnes_count, hd]
    norm_num [u32]
  refine ⟨hrun, by omega, hz, hg, ?_⟩
  rw [hg, hd]
  rintro (⟨-, h⟩ | ⟨-, h⟩)
  · exact hz h
  · omega

/-- C4, amended: for every capacitySectors > 0 whose layout fits the 32-bit dataOffset
(gtOffset + 4 * totalGrains ≤ 2^32 - 65536) and every source whose non-zero grains fit
below sector 2^32 (dataOffset/512 + 128 * number of non-zero grains ≤ 2^32), after a run
that returns true every index i below totalGrains has either GTEs[i] = 0 and source grain i
all zeros, or GTEs[i] * 512 a multiple of 65536 that is at least dataOffset; a grain that
is not all-zero never receives the entry 0. -/
theorem GTEs_invariant (self : SparseVMDK) (env : Env) (bufSize capacitySectors : Nat)
    (hpos : 0 < capacitySectors) (h64 : capacitySectors < 2 ^ 64)
    (hlayout : dataEnd capacitySectors ≤ 2 ^ 32 - 65536)
    (hdata : dataOffset capacitySectors / 512 +
      128 * nonZeroBefore env.source (totalGrains capacitySectors) ≤ 2 ^ 32)
    (hrun : (CreateSparse self env bufSize capacitySectors).1 = some true) :
    ∀ i, i < totalGrains capacitySectors →
      (((CreateSparse self env bufSize capacitySectors).2.GTEs i = 0 ∧
          grainIsZero env.source i) ∨
        (65536 ∣ (CreateSparse self env bufSize capacitySectors).2.GTEs i * 512 ∧
          dataOffset capacitySectors ≤
            (CreateSparse self env bufSize capacitySectors).2.GTEs i * 512)) ∧
      (¬ grainIsZero env.source i →
        (CreateSparse self env bufSize capacitySectors).2.GTEs i ≠ 0) := by
  intro i hi
  have h64a : capacitySectors < 18446744073709551616 := by simpa using h64
  have hl : dataEnd capacitySectors ≤ 4294967296 - 65536 := by simpa using hlayout
  have hdo := dataOffset_eq capacitySectors h64a hl
  have hg := gtOffset_eq capacitySectors h64a
  have hm := dataOffset_mod capacitySectors
  have hde : dataEnd capacitySectors = gtOffset capacitySectors +
      4 * totalGrains capacitySectors := rfl
  rw [GTEs_formula self env bufSize capacitySectors hrun i, if_pos hi]
  by_cases hz : grainIsZero env.source i
  · rw [if_pos hz]
    exact ⟨Or.inl ⟨rfl, hz⟩, fun h => absurd hz h⟩
  · rw [if_neg hz]
    have hlt := nonZeroBefore_lt env.source hi hz
    have hu : u32 (dataOffset capacitySectors / 512 + 128 * nonZeroBefore env.source i)
        = dataOffset capacitySectors / 512 + 128 * nonZeroBefore env.source i :=
      u32_of_lt (by norm_num at hdata; omega)
    rw [hu]
    refine ⟨Or.inr ⟨?_, by omega⟩, by omega⟩
    exact Nat.dvd_of_mod_eq_zero (by omega)

/-- C4, amended, on Scenario A. -/
theorem GTEs_invariant_witness :
    (0 < 1024 ∧ 1024 < 2 ^ 64 ∧ dataEnd 1024 ≤ 2 ^ 32 - 65536 ∧
      dataOffset 1024 / 512 + 128 * nonZeroBefore (okEnv scenarioA).source (totalGrains 1024)
        ≤ 2 ^ 32 ∧
      (CreateSparse img (okEnv scenarioA) 65536 1024).1 = some true) ∧
    ∀ i, i < totalGrains 1024 →
      (((CreateSparse img (okEnv scenarioA) 65536 1024).2.GTEs i = 0 ∧
          grainIsZero (okEnv scenarioA).source i) ∨
        (65536 ∣ (CreateSparse img (okEnv scenarioA) 65536 1024).2.GTEs i * 512 ∧
          dataOffset 1024 ≤ (CreateSparse img (okEnv scenarioA) 65536 1024).2.GTEs i * 512)) ∧
      (¬ grainIsZero (okEnv scenarioA).source i →
        (CreateSparse img (okEnv scenarioA) 65536 1024).2.GTEs i ≠ 0) := by
  have hcount : dataOffset 1024 / 512 +
      128 * nonZeroBefore (okEnv scenarioA).source (totalGrains 1024) ≤ 2 ^ 32 := by
    have hle := nonZeroBefore_le (okEnv scenarioA).source (totalGrains 1024)
    have ht : totalGrains 1024 = 8 := by decide
    have hd : dataOffset 1024 = 65536 := by decide
    rw [ht] at hle ⊢
    rw [hd]
    norm_num
    omega
  exact ⟨⟨by decide, by decide, by decide, hcount, scenarioA_run 65536⟩,
    GTEs_invariant img (okEnv scenarioA) 65536 1024 (by decide) (by decide) (by decide)
      hcount (scenarioA_run 65536)⟩

/-- C5 as stated fails: with capacitySectors = 2^32 and a source without zero bytes, grains
0 and 33552379 are both not all-zero, yet GTEs[0] = 262784 and GTEs[33552379] = 0. -/
theorem GTEs_monotone_counterexample :
    (CreateSparse img (okEnv allOnes) 65536 4294967296).1 = some true ∧
    0 < 33552379 ∧ 33552379 < totalGrains 4294967296 ∧
    ¬ grainIsZero (okEnv allOnes).source 0 ∧
    ¬ grainIsZero (okEnv allOnes).source 33552379 ∧
    (CreateSparse img (okEnv allOnes) 65536 4294967296).2.GTEs 0 = 262784 ∧
    (CreateSparse img (okEnv allOnes) 65536 4294967296).2.GTEs 33552379 = 0 ∧
    ¬ ((CreateSparse img (okEnv allOnes) 65536 4294967296).2.GTEs 0 <
        (CreateSparse img (okEnv allOnes) 65536 4294967296).2.GTEs 33552379) := by
  have hrun := allOnes_run 65536
  have ht : totalGrains 4294967296 = 33554432 := by decide
  have hd : dataOffset 4294967296 = 134545408 := by decide
  have hz : ∀ i, ¬ grainIsZero (okEnv allOnes).source i := allOnes_nonzero
  have hg : (CreateSparse img (okEnv allOnes) 65536 4294967296).2.GTEs 33552379 = 0 := by
    rw [GTEs_formula img (okEnv allOnes) 65536 4294967296 hrun, if_pos (by omega),
      if_neg (hz _)]
    have hs : (okEnv allOnes).source = allOnes := rfl
    rw [hs, allOnes_count, hd]
    norm_num [u32]
  have hg0 : (CreateSparse img (okEnv allOnes) 65536 4294967296).2.GTEs 0 = 262784 := by
    have hs : (okEnv allOnes).source = allOnes := rfl
    rw [GTEs_formula img (okEnv allOnes) 65536 4294967296 hrun, if_pos (by omega),
      if_neg (hz _), hs, allOnes_count, hd]
    norm_num [u32]
  refine ⟨hrun, by omega, by omega, hz 0, hz _, hg0, hg, ?_⟩
  rw [hg, hg0]
  omega

/-- C5, amended: for every capacitySectors > 0 and every source whose non-zero grains fit
below sector 2^32 (dataOffset/512 + 128 * number of non-zero grains ≤ 2^32), after a run
that returns true any two source grains i < j that are both not all-zero have
GTEs[i] < GTEs[j]. -/
theorem GTEs_monotone (self : SparseVMDK) (env : Env) (bufSize capacitySectors : Nat)
    (hpos : 0 < capacitySectors)
    (hdata : dataOffset capacitySectors / 512 +
      128 * nonZeroBefore env.source (totalGrains capacitySectors) ≤ 2 ^ 32)
    (hrun : (CreateSparse self env bufSize capacitySectors).1 = some true)
    (i j : Nat) (hij : i < j) (hj : j < totalGrains capacitySectors)
    (hi0 : ¬ grainIsZero env.source i) (hj0 : ¬ grainIsZero env.source j) :
    (CreateSparse self env bufSize capacitySectors).2.GTEs i <
      (CreateSparse self env bufSize capacitySectors).2.GTEs j := by
  rw [GTEs_formula self env bufSize capacitySectors hrun i,
    GTEs_formula self env bufSize capacitySectors hrun j, if_pos hj, if_pos (by omega),
    if_neg hi0, if_neg hj0]
  have h1 := nonZeroBefore_lt env.source hij hi0
  have h2 := nonZeroBefore_lt env.source hj hj0
  rw [u32_of_lt (by norm_num at hdata; omega), u32_of_lt (by norm_num at hdata; omega)]
  omega

/-- C5, amended, on Scenario A with the grains 0 and 2. -/
theorem GTEs_monotone_witness :
    (0 < 1024 ∧
      dataOffset 1024 / 512 + 128 * nonZeroBefore (okEnv scenarioA).source (totalGrains 1024)
        ≤ 2 ^ 32 ∧
      (CreateSparse img (okEnv scenarioA) 65536 1024).1 = some true ∧
      0 < 2 ∧ 2 < totalGrains 1024 ∧ ¬ grainIsZero (okEnv scenarioA).source 0 ∧
      ¬ grainIsZero (okEnv scenarioA).source 2) ∧
    (CreateSparse img (okEnv scenarioA) 65536 1024).2.GTEs 0 <
      (CreateSparse img (okEnv scenarioA) 65536 1024).2.GTEs 2 := by
  have hcount : dataOffset 1024 / 512 +
      128 * nonZeroBefore (okEnv scenarioA).source (totalGrains 1024) ≤ 2 ^ 32 := by
    have hle := nonZeroBefore_le (okEnv scenarioA).source (totalGrains 1024)
    have ht : totalGrains 1024 = 8 := by decide
    have hd : dataOffset 1024 = 65536 := by decide
    rw [ht] at hle ⊢
    rw [hd]
    norm_num
    omega
  have h0 : ¬ grainIsZero (okEnv scenarioA).source 0 :=
    fun h => absurd ((scenarioA_zero 0).mp h) (by decide)
  have h2 : ¬ grainIsZero (okEnv scenarioA).source 2 :=
    fun h => absurd ((scenarioA_zero 2).mp h) (by decide)
  exact ⟨⟨by decide, hcount, scenarioA_run 65536, by decide, by decide, h0, h2⟩,
    GTEs_monotone img (okEnv scenarioA) 65536 1024 (by decide) hcount (scenarioA_run 65536)
      0 2 (by decide) (by decide) h0 h2⟩

/-! ## Content of the produced file -/

theorem final_bytes (self : SparseVMDK) (env : Env) (bufSize c : Nat)
    (h : (CreateSparse self env bufSize c).1 = some true) (k : Nat) :
    (CreateSparse self env bufSize c).2.writer.bytes k =
      if env.wresSetGT = true ∧ env.wresGT = true ∧
          gtOffset c ≤ k ∧ k < gtOffset c + u64 (totalGrains c * 4) then
        arrayBytes (CreateSparse self env bufSize c).2.GTEs (k - gtOffset c)
      else (loopState self env c).writer.bytes k := by
  rw [CreateSparse_state self env bufSize c h, finalState_eq, writeGT_bytes, writeGT_GTEs]

theorem loop_bytes_low (self : SparseVMDK) (env : Env) (bufSize c : Nat)
    (h : (CreateSparse self env bufSize c).1 = some true) (k : Nat) (hk : k < dataOffset c) :
    (loopState self env c).writer.bytes k = (preLoop self env c).writer.bytes k := by
  obtain ⟨hc, h1, hlen, h2, h3, h4, h5, h6, h7, h8⟩ :=
    (CreateSparse_true_iff self env bufSize c).mp h
  obtain ⟨-, -, -, -, p5, -⟩ := preLoop_facts self env c hlen h4 h5
  exact (loop_inv self env bufSize c h).other k (Or.inl (by rw [p5]; exact hk))

theorem loop_bytes_data (self : SparseVMDK) (env : Env) (bufSize c : Nat)
    (h : (CreateSparse self env bufSize c).1 = some true) (j m : Nat)
    (hj : j < totalGrains c) (hz : ¬ grainIsZero env.source j) (hm : m < 65536) :
    (loopState self env c).writer.bytes (dataOffset c + 65536 * nonZeroBefore env.source j + m)
      = env.source (j * 65536 + m) := by
  obtain ⟨hc, h1, hlen, h2, h3, h4, h5, h6, h7, h8⟩ :=
    (CreateSparse_true_iff self env bufSize c).mp h
  obtain ⟨-, -, -, -, p5, -⟩ := preLoop_facts self env c hlen h4 h5
  have := (loop_inv self env bufSize c h).data j hj hz m hm
  rwa [p5] at this

theorem readU32_arrayBytes (bytes a : Nat → Nat) (base j : Nat)
    (hb : ∀ t, t < 4 → bytes (base + 4 * j + t) = arrayBytes a (4 * j + t))
    (ha : a j < 4294967296) : readU32 bytes (base + 4 * j) = a j := by
  have h0 := hb 0 (by omega)
  have h1 := hb 1 (by omega)
  have h2 := hb 2 (by omega)
  have h3 := hb 3 (by omega)
  unfold arrayBytes at h0 h1 h2 h3
  rw [show (4 * j + 0) / 4 = j by omega, show (4 * j + 0) % 4 = 0 by omega] at h0
  rw [show (4 * j + 1) / 4 = j by omega, show (4 * j + 1) % 4 = 1 by omega] at h1
  rw [show (4 * j + 2) / 4 = j by omega, show (4 * j + 2) % 4 = 2 by omega] at h2
  rw [show (4 * j + 3) / 4 = j by omega, show (4 * j + 3) % 4 = 3 by omega] at h3
  norm_num at h0 h1 h2 h3
  unfold readU32
  rw [show base + 4 * j + 1 = base + 4 * j + 1 from rfl, h0, h1, h2, h3]
  omega

theorem final_GDEs_eq (self : SparseVMDK) (env : Env) (bufSize c : Nat)
    (h : (CreateSparse self env bufSize c).1 = some true) :
    (CreateSparse self env bufSize c).2.GDEs =
      fillGDEs (numGT c) 0 (u32 (gtOffset c / 512)) (fun _ => 0) := by
  obtain ⟨hc, h1, hlen, h2, h3, h4, h5, h6, h7, h8⟩ :=
    (CreateSparse_true_iff self env bufSize c).mp h
  obtain ⟨p1, p2, p3, p4, -⟩ := preLoop_facts self env c hlen h4 h5
  rw [CreateSparse_state self env bufSize c h, finalState_eq, writeGT_GDEs,
    (loop_inv self env bufSize c h).gde, p4]

theorem GDEs_lt (self : SparseVMDK) (env : Env) (bufSize c : Nat)
    (h : (CreateSparse self env bufSize c).1 = some true) (j : Nat) :
    (CreateSparse self env bufSize c).2.GDEs j < 4294967296 := by
  rw [GDEs_formula self env bufSize c h j]
  unfold u32
  split <;> omega

theorem GTEs_lt (self : SparseVMDK) (env : Env) (bufSize c : Nat)
    (h : (CreateSparse self env bufSize c).1 = some true) (j : Nat) :
    (CreateSparse self env bufSize c).2.GTEs j < 4294967296 := by
  rw [GTEs_formula self env bufSize c h j]
  unfold u32
  split
  · split <;> omega
  · omega

/-- In the file of a successful run whose seek to the grain directory succeeded and whose
data region starts behind the grain directory, the grain directory holds `GDEs`. -/
theorem file_GDE (self : SparseVMDK) (env : Env) (bufSize c : Nat)
    (h : (CreateSparse self env bufSize c).1 = some true)
    (h64 : c < 18446744073709551616) (hsg : env.wresSetGD = true)
    (hD : 1024 + 4 * numGT c ≤ dataOffset c) (j : Nat) (hj : j < numGT c) :
    readU32 (CreateSparse self env bufSize c).2.writer.bytes (1024 + 4 * j) =
      (CreateSparse self env bufSize c).2.GDEs j := by
  obtain ⟨hc, h1, hlen, h2, h3, h4, h5, h6, h7, h8⟩ :=
    (CreateSparse_true_iff self env bufSize c).mp h
  obtain ⟨-, -, -, -, -, p6⟩ := preLoop_facts self env c hlen h4 h5
  have ht := totalGrains_eq c h64
  have hn := numGT_eq c h64
  have hg := gtOffset_eq c h64
  have hu : u64 (numGT c * 4) = numGT c * 4 := Nat.mod_eq_of_lt (by omega)
  apply readU32_arrayBytes _ _ 1024 j _ (GDEs_lt self env bufSize c h j)
  intro t ht4
  rw [final_bytes self env bufSize c h, if_neg (by omega),
    loop_bytes_low self env bufSize c h _ (by omega), p6 _ (by omega), hu,
    if_pos ⟨hsg, by omega⟩, final_GDEs_eq self env bufSize c h,
    show 1024 + 4 * j + t - 1024 = 4 * j + t by omega]

/-- In the file of a successful run whose seek to the grain tables succeeded, the
grain-table array holds `GTEs`. -/
theorem file_GTE (self : SparseVMDK) (env : Env) (bufSize c : Nat)
    (h : (CreateSparse self env bufSize c).1 = some true)
    (h64 : c < 18446744073709551616) (hsg : env.wresSetGT = true)
    (i : Nat) (hi : i < totalGrains c) :
    readU32 (CreateSparse self env bufSize c).2.writer.bytes (gtOffset c + 4 * i) =
      (CreateSparse self env bufSize c).2.GTEs i := by
  obtain ⟨hc, h1, hlen, h2, h3, h4, h5, h6, h7, h8⟩ :=
    (CreateSparse_true_iff self env bufSize c).mp h
  have ht := totalGrains_eq c h64
  have hu : u64 (totalGrains c * 4) = totalGrains c * 4 := Nat.mod_eq_of_lt (by omega)
  apply readU32_arrayBytes _ _ (gtOffset c) i _ (GTEs_lt self env bufSize c h i)
  intro t ht4
  rw [final_bytes self env bufSize c h, hu, if_pos ⟨hsg, h8 hsg, by omega, by omega⟩,
    show gtOffset c + 4 * i + t - gtOffset c = 4 * i + t by omega]

theorem arrayBytes_at (a : Nat → Nat) (j t : Nat) (ht : t < 4) :
    arrayBytes a (4 * j + t) = a j / 256 ^ t % 256 := by
  unfold arrayBytes
  rw [show (4 * j + t) / 4 = j by omega, show (4 * j + t) % 4 = t by omega]

/-- Byte `t` of grain-directory entry `j` in the file of a successful run. -/
theorem file_GD_byte (self : SparseVMDK) (env : Env) (bufSize c : Nat)
    (h : (CreateSparse self env bufSize c).1 = some true)
    (h64 : c < 18446744073709551616) (hsg : env.wresSetGD = true)
    (hD : 1024 + 4 * numGT c ≤ dataOffset c) (j : Nat) (hj : j < numGT c)
    (t : Nat) (ht4 : t < 4) :
    (CreateSparse self env bufSize c).2.writer.bytes (1024 + 4 * j + t) =
      (CreateSparse self env bufSize c).2.GDEs j / 256 ^ t % 256 := by
  obtain ⟨hc, h1, hlen, h2, h3, h4, h5, h6, h7, h8⟩ :=
    (CreateSparse_true_iff self env bufSize c).mp h
  obtain ⟨-, -, -, -, -, p6⟩ := preLoop_facts self env c hlen h4 h5
  have ht := totalGrains_eq c h64
  have hn := numGT_eq c h64
  have hg := gtOffset_eq c h64
  have hu : u64 (numGT c * 4) = numGT c * 4 := Nat.mod_eq_of_lt (by omega)
  rw [final_bytes self env bufSize c h, if_neg (by omega),
    loop_bytes_low self env bufSize c h _ (by omega), p6 _ (by omega), hu,
    if_pos ⟨hsg, by omega⟩, final_GDEs_eq self env bufSize c h,
    show 1024 + 4 * j + t - 1024 = 4 * j + t by omega, arrayBytes_at _ _ _ ht4]

/-! ## Grain directory -/

theorem allOnes_run47 (bufSize : Nat) :
    (CreateSparse img (okEnv allOnes) bufSize 140737488355328).1 = some true :=
  okEnv_run allOnes bufSize 140737488355328 (by decide) (by rw [mkDescriptor_length]; decide)

/-- C10 as stated fails: with capacitySectors = 2^47 the run has numGT = 2^31 grain tables
and gtOffset/512 = 16777218; entry number 2^30 of the grain directory is 16777218, not
16777218 + 4 * 2^30. -/
theorem GDEs_counterexample :
    (CreateSparse img (okEnv allOnes) 65536 140737488355328).1 = some true ∧
    1073741824 < numGT 140737488355328 ∧
    (CreateSparse img (okEnv allOnes) 65536 140737488355328).2.GDEs 1073741824 = 16777218 ∧
    (CreateSparse img (okEnv allOnes) 65536 140737488355328).2.GDEs 1073741824 ≠
      gtOffset 140737488355328 / 512 + 4 * 1073741824 := by
  have hrun := allOnes_run47 65536
  have hn : numGT 140737488355328 = 2147483648 := by decide
  have hg : gtOffset 140737488355328 = 8589935616 := by decide
  have he : (CreateSparse img (okEnv allOnes) 65536 140737488355328).2.GDEs 1073741824
      = 16777218 := by
    rw [GDEs_formula img (okEnv allOnes) 65536 140737488355328 hrun, if_pos (by omega), hg]
    norm_num [u32]
  refine ⟨hrun, by omega, he, ?_⟩
  rw [he, hg]
  omega

/-- C10, amended: for every capacitySectors > 0 whose grain-directory entries fit in 32
bits (gtOffset/512 + 4 * numGT ≤ 2^32), after a run that returns true every j below numGT
has GDEs[j] = gtOffset/512 + 4j, hence GDEs[j+1] = GDEs[j] + 4 and GDEs[j] * 512 =
gtOffset + 2048 * j, the byte position of grain-table entry number 512 * j; and when the
seek to the grain directory succeeded and the layout fits the 32-bit dataOffset
(gtOffset + 4 * totalGrains ≤ 2^32 - 65536), the produced file holds that entry,
little-endian, at byte 1024 + 4j. -/
theorem GDEs_closed_form (self : SparseVMDK) (env : Env) (bufSize capacitySectors : Nat)
    (hpos : 0 < capacitySectors) (h64 : capacitySectors < 2 ^ 64)
    (hfit : gtOffset capacitySectors / 512 + 4 * numGT capacitySectors ≤ 2 ^ 32)
    (hrun : (CreateSparse self env bufSize capacitySectors).1 = some true) :
    ∀ j, j < numGT capacitySectors →
      (CreateSparse self env bufSize capacitySectors).2.GDEs j =
        gtOffset capacitySectors / 512 + 4 * j ∧
      (j + 1 < numGT capacitySectors →
        (CreateSparse self env bufSize capacitySectors).2.GDEs (j + 1) =
          (CreateSparse self env bufSize capacitySectors).2.GDEs j + 4) ∧
      (CreateSparse self env bufSize capacitySectors).2.GDEs j * 512 =
        gtOffset capacitySectors + 4 * (512 * j) ∧
      (env.wresSetGD = true → dataEnd capacitySectors ≤ 2 ^ 32 - 65536 →
        readU32 (CreateSparse self env bufSize capacitySectors).2.writer.bytes (1024 + 4 * j)
          = gtOffset capacitySectors / 512 + 4 * j) := by
  intro j hj
  have h64a : capacitySectors < 18446744073709551616 := by simpa using h64
  have hf : gtOffset capacitySectors / 512 + 4 * numGT capacitySectors ≤ 4294967296 := by
    simpa using hfit
  have hg := gtOffset_eq capacitySectors h64a
  have e : ∀ k, k < numGT capacitySectors →
      (CreateSparse self env bufSize capacitySectors).2.GDEs k =
        gtOffset capacitySectors / 512 + 4 * k := by
    intro k hk
    rw [GDEs_formula self env bufSize capacitySectors hrun k, if_pos hk]
    exact u32_of_lt (by omega)
  refine ⟨e j hj, fun h1 => ?_, ?_, fun hsg hl => ?_⟩
  · rw [e j hj, e (j + 1) h1]
    omega
  · rw [e j hj]
    omega
  · have hl1 : dataEnd capacitySectors ≤ 4294967296 - 65536 := by simpa using hl
    have hdo := dataOffset_eq capacitySectors h64a hl1
    have hde : dataEnd capacitySectors = gtOffset capacitySectors +
        4 * totalGrains capacitySectors := rfl
    rw [file_GDE self env bufSize capacitySectors hrun h64a hsg (by omega) j hj, e j hj]

/-- C10, amended, on Scenario A: one grain table, GDEs[0] = 3, stored at byte 1024. -/
theorem GDEs_closed_form_witness :
    (0 < 1024 ∧ 1024 < 2 ^ 64 ∧ gtOffset 1024 / 512 + 4 * numGT 1024 ≤ 2 ^ 32 ∧
      (CreateSparse img (okEnv scenarioA) 65536 1024).1 = some true ∧ 0 < numGT 1024) ∧
    ((CreateSparse img (okEnv scenarioA) 65536 1024).2.GDEs 0 = gtOffset 1024 / 512 + 4 * 0 ∧
      (0 + 1 < numGT 1024 →
        (CreateSparse img (okEnv scenarioA) 65536 1024).2.GDEs (0 + 1) =
          (CreateSparse img (okEnv scenarioA) 65536 1024).2.GDEs 0 + 4) ∧
      (CreateSparse img (okEnv scenarioA) 65536 1024).2.GDEs 0 * 512 =
        gtOffset 1024 + 4 * (512 * 0) ∧
      ((okEnv scenarioA).wresSetGD = true → dataEnd 1024 ≤ 2 ^ 32 - 65536 →
        readU32 (CreateSparse img (okEnv scenarioA) 65536 1024).2.writer.bytes (1024 + 4 * 0)
          = gtOffset 1024 / 512 + 4 * 0)) ∧
    gtOffset 1024 / 512 + 4 * 0 = 3 :=
  ⟨⟨by decide, by decide, by decide, scenarioA_run 65536, by decide⟩,
    GDEs_closed_form img (okEnv scenarioA) 65536 1024 (by decide) (by decide) (by decide)
      (scenarioA_run 65536) 0 (by decide),
    by decide⟩

/-! ## Runs on a stack of a given size -/

/-- On a stack with room for both arrays the run is the run of `CreateSparse`. -/
theorem CreateSparseOnStack_fits (self : SparseVMDK) (env : Env) (stack bufSize c : Nat)
    (h : numGT c * 4 + totalGrains c * 4 ≤ stack) :
    CreateSparseOnStack self env stack bufSize c = CreateSparse self env bufSize c := by
  have h1 : ¬ stack < numGT c * 4 := by omega
  have h2 : ¬ stack < numGT c * 4 + totalGrains c * 4 := by omega
  unfold CreateSparseOnStack CreateSparse
  simp only [h1, h2, if_false]

/-- A run returns true exactly when both arrays fit the stack and the run of `CreateSparse`
returns true. -/
theorem CreateSparseOnStack_true_iff (self : SparseVMDK) (env : Env) (stack bufSize c : Nat) :
    (CreateSparseOnStack self env stack bufSize c).1 = some true ↔
      numGT c * 4 + totalGrains c * 4 ≤ stack ∧
      (CreateSparse self env bufSize c).1 = some true := by
  by_cases h : numGT c * 4 + totalGrains c * 4 ≤ stack
  · rw [CreateSparseOnStack_fits self env stack bufSize c h]
    exact ⟨fun hr => ⟨h, hr⟩, fun hr => hr.2⟩
  · constructor
    · intro hr
      exfalso
      revert hr
      unfold CreateSparseOnStack
      simp only []
      split
      · simp
      split
      swap
      · simp
      split
      · simp
      split
      · simp
      split
      · simp
      split
      · simp
      split
      · simp
      · rename_i hfit
        exact absurd (by omega) h
    · intro hr
      exact absurd hr.1 h

/-- A run does not return exactly when the descriptor is longer than its sector or one of
the two arrays is reached and does not fit the stack. -/
theorem CreateSparseOnStack_none_iff (self : SparseVMDK) (env : Env) (stack bufSize c : Nat) :
    (CreateSparseOnStack self env stack bufSize c).1 = none ↔
      c ≠ 0 ∧ env.openFile = true ∧
      (512 < (descriptorOf self env c).length ∨
        (env.wresHeader = true ∧ env.wresDesc = true ∧
          (stack < numGT c * 4 ∨
            ((env.wresSetGD = true → env.wresGD = true) ∧
              stack < numGT c * 4 + totalGrains c * 4)))) := by
  unfold CreateSparseOnStack
  by_cases hc : c = 0
  · simp [hc]
  by_cases h1 : env.openFile = true
  swap
  · simp [hc, h1]
  by_cases hlen : 512 < (descriptorOf self env c).length
  · simp [hc, h1, hlen]
  by_cases h2 : env.wresHeader = true
  swap
  · simp [hc, h1, hlen, h2]
  by_cases h3 : env.wresDesc = true
  swap
  · simp [hc, h1, hlen, h2, h3]
  by_cases hs1 : stack < numGT c * 4
  · simp [hc, h1, hlen, h2, h3, hs1]
  by_cases h4 : env.wresSetGD = true → env.wresGD = true
  swap
  · have h4a : env.wresSetGD = true := by
      by_contra hn
      exact h4 (fun hh => absurd hh hn)
    have h4b : env.wresGD = false := by
      cases hg : env.wresGD
      · rfl
      · exact absurd (fun _ => hg) h4
    simp [hc, h1, hlen, h2, h3, hs1, h4a, h4b]
  have h4c : (env.wresSetGD && !env.wresGD) = false := by
    cases ha : env.wresSetGD <;> cases hb : env.wresGD <;> simp_all
  by_cases hs2 : stack < numGT c * 4 + totalGrains c * 4
  · simp [hc, h1, hlen, h2, h3, hs1, h4c, hs2]
    exact h4
  simp only [hc, h1, hlen, h2, h3, hs1, h4c, hs2, if_true, if_false, Bool.not_true,
    Bool.or_self, Bool.false_eq_true, ne_eq, not_false_eq_true, true_and, false_or,
    or_false, and_false, iff_false]
  split
  · simp
  split
  · simp
  · split
    · simp
    · split <;> simp

/-- With capacitySectors = 268435584 the array `GTEs` takes 8388612 bytes: on a stack that
leaves 8 MiB for the arrays the process is killed, whatever the source holds. -/
theorem CreateSparseOnStack_killed :
    totalGrains 268435584 * 4 = 8388612 ∧
    (CreateSparseOnStack img (okEnv allZeros) 8388608 65536 268435584).1 = none := by
  have ht : totalGrains 268435584 = 2097153 := by decide
  have hn : numGT 268435584 = 4097 := by decide
  refine ⟨by rw [ht], ?_⟩
  rw [CreateSparseOnStack_none_iff]
  refine ⟨by decide, rfl, Or.inr ⟨rfl, rfl, Or.inr ⟨fun _ => rfl, ?_⟩⟩⟩
  rw [ht, hn]
  norm_num

/-! ## Round trip -/

theorem refGrainByte_of (bytes : Nat → Nat) (i m gde gte : Nat)
    (h1 : readU32 bytes (1024 + 4 * (i / 512)) = gde)
    (h2 : readU32 bytes (gde * 512 + 4 * (i % 512)) = gte) :
    refGrainByte bytes i m = if gte = 0 then 0 else bytes (gte * 512 + m) := by
  unfold refGrainByte
  simp only [h1, h2]

theorem okEnv_allOk (source : Nat → Nat) (n : Nat) : (okEnv source).allOk n :=
  ⟨rfl, rfl, rfl, rfl, rfl, rfl, rfl, rfl, fun _ _ => rfl, fun _ _ => rfl, rfl, rfl⟩

/-- C1 as stated fails: with capacitySectors = 2^32, a source without zero bytes and every
reader and writer call succeeding, the reference reader decodes byte 33552379 * 65536 of
the logical image as 0, while the source holds 0xFF there. -/
theorem round_trip_counterexample :
    0 < 4294967296 ∧ (okEnv allOnes).allOk (totalGrains 4294967296) ∧
    (CreateSparse img (okEnv allOnes) 65536 4294967296).1 = some true ∧
    2198888710144 < 4294967296 * 512 ∧
    refImage (CreateSparse img (okEnv allOnes) 65536 4294967296).2.writer.bytes
      2198888710144 = 0 ∧
    (okEnv allOnes).source 2198888710144 = 255 := by
  have hrun := allOnes_run 65536
  have ht : totalGrains 4294967296 = 33554432 := by decide
  have hn : numGT 4294967296 = 65536 := by decide
  have hg : gtOffset 4294967296 = 263168 := by decide
  have hd : dataOffset 4294967296 = 134545408 := by decide
  have hs : (okEnv allOnes).source = allOnes := rfl
  have hgte : (CreateSparse img (okEnv allOnes) 65536 4294967296).2.GTEs 33552379 = 0 := by
    have hz : ¬ grainIsZero (okEnv allOnes).source 33552379 := allOnes_nonzero _
    rw [GTEs_formula img (okEnv allOnes) 65536 4294967296 hrun, if_pos (by omega),
      if_neg hz, hs, allOnes_count, hd]
    norm_num [u32]
  have hgde : (CreateSparse img (okEnv allOnes) 65536 4294967296).2.GDEs 65531 = 262638 := by
    rw [GDEs_formula img (okEnv allOnes) 65536 4294967296 hrun, if_pos (by omega), hg]
    norm_num [u32]
  have h1 := file_GDE img (okEnv allOnes) 65536 4294967296 hrun (by norm_num) rfl
    (by omega) 65531 (by omega)
  have h2 := file_GTE img (okEnv allOnes) 65536 4294967296 hrun (by norm_num) rfl
    33552379 (by omega)
  rw [hgde] at h1
  rw [hgte, hg] at h2
  refine ⟨by omega, okEnv_allOk _ _, hrun, by omega, ?_, rfl⟩
  unfold refImage
  rw [refGrainByte_of _ _ _ 262638 0 (by rw [← h1]) (by rw [← h2])]
  rfl

/-- Round trip of a run of `CreateSparse`, in which the arrays fit the stack: when the
descriptor fits in its sector, every reader and writer call succeeds, the layout fits the
32-bit dataOffset and the non-zero grains fit below sector 2^32, the run returns true and
the reference reader decodes the first capacitySectors * 512 bytes of the source. -/
theorem round_trip_CreateSparse (self : SparseVMDK) (env : Env) (bufSize capacitySectors : Nat)
    (hpos : 0 < capacitySectors) (h64 : capacitySectors < 2 ^ 64)
    (hdesc : (descriptorOf self env capacitySectors).length ≤ 512)
    (hok : env.allOk (totalGrains capacitySectors))
    (hlayout : dataEnd capacitySectors ≤ 2 ^ 32 - 65536)
    (hdata : dataOffset capacitySectors / 512 +
      128 * nonZeroBefore env.source (totalGrains capacitySectors) ≤ 2 ^ 32) :
    (CreateSparse self env bufSize capacitySectors).1 = some true ∧
    ∀ x, x < capacitySectors * 512 →
      refImage (CreateSparse self env bufSize capacitySectors).2.writer.bytes x
        = env.source x := by
  obtain ⟨o1, o2, o3, -, o5, o6, o7, o8, o9, o10, o11, o12⟩ := hok
  have hrun : (CreateSparse self env bufSize capacitySectors).1 = some true :=
    CreateSparse_succeeds self env bufSize capacitySectors hpos hdesc o1 o2 o3 (fun _ => o6)
      o7 o8 o9 (fun i hi _ => o10 i hi) (fun _ => o12)
  refine ⟨hrun, fun x hx => ?_⟩
  have h64a : capacitySectors < 18446744073709551616 := by simpa using h64
  have hl : dataEnd capacitySectors ≤ 4294967296 - 65536 := by simpa using hlayout
  have hda : dataOffset capacitySectors / 512 +
      128 * nonZeroBefore env.source (totalGrains capacitySectors) ≤ 4294967296 := by
    simpa using hdata
  have ht := totalGrains_eq capacitySectors h64a
  have hn := numGT_eq capacitySectors h64a
  have hg := gtOffset_eq capacitySectors h64a
  have hdo := dataOffset_eq capacitySectors h64a hl
  have hm := dataOffset_mod capacitySectors
  have hde : dataEnd capacitySectors = gtOffset capacitySectors +
      4 * totalGrains capacitySectors := rfl
  have hi : x / 65536 < totalGrains capacitySectors := by omega
  have hj : x / 65536 / 512 < numGT capacitySectors := by omega
  have hx' : x = x / 65536 * 65536 + x % 65536 := by omega
  have e1 := file_GDE self env bufSize capacitySectors hrun h64a o5 (by omega)
    (x / 65536 / 512) hj
  rw [GDEs_formula self env bufSize capacitySectors hrun, if_pos hj,
    u32_of_lt (by omega)] at e1
  have e2 := file_GTE self env bufSize capacitySectors hrun h64a o11 (x / 65536) hi
  rw [show gtOffset capacitySectors + 4 * (x / 65536) =
      (gtOffset capacitySectors / 512 + 4 * (x / 65536 / 512)) * 512 + 4 * (x / 65536 % 512)
    by omega] at e2
  unfold refImage
  rw [refGrainByte_of _ _ _ _ _ e1 e2, GTEs_formula self env bufSize capacitySectors hrun,
    if_pos hi]
  by_cases hz : grainIsZero env.source (x / 65536)
  · rw [if_pos hz, if_pos rfl]
    have := hz (x % 65536) (by omega)
    rw [← hx'] at this
    exact this.symm
  · have hlt := nonZeroBefore_lt env.source hi hz
    rw [if_neg hz, u32_of_lt (by omega), if_neg (by omega),
      final_bytes self env bufSize capacitySectors hrun]
    have hu : u64 (totalGrains capacitySectors * 4) = totalGrains capacitySectors * 4 :=
      Nat.mod_eq_of_lt (by omega)
    rw [hu, if_neg (by omega),
      show (dataOffset capacitySectors / 512 + 128 * nonZeroBefore env.source (x / 65536)) * 512
          + x % 65536
        = dataOffset capacitySectors + 65536 * nonZeroBefore env.source (x / 65536) + x % 65536
        by omega,
      loop_bytes_data self env bufSize capacitySectors hrun _ _ hi hz (by omega), ← hx']

/-- C1, amended: for every capacitySectors > 0, every run whose descriptor fits in its
sector (at most 512 bytes), whose reader and writer calls all succeed, whose stack has room
for the arrays GDEs and GTEs (4 * numGT + 4 * totalGrains bytes), whose layout fits the
32-bit dataOffset (gtOffset + 4 * totalGrains ≤ 2^32 - 65536) and whose non-zero grains fit
below sector 2^32 (dataOffset/512 + 128 * number of non-zero grains ≤ 2^32): the run
returns true and the reference reader decodes from the produced file a logical image whose
first capacitySectors * 512 bytes equal those of the source. -/
theorem round_trip (self : SparseVMDK) (env : Env) (stack bufSize capacitySectors : Nat)
    (hpos : 0 < capacitySectors) (h64 : capacitySectors < 2 ^ 64)
    (hdesc : (descriptorOf self env capacitySectors).length ≤ 512)
    (hok : env.allOk (totalGrains capacitySectors))
    (hstack : numGT capacitySectors * 4 + totalGrains capacitySectors * 4 ≤ stack)
    (hlayout : dataEnd capacitySectors ≤ 2 ^ 32 - 65536)
    (hdata : dataOffset capacitySectors / 512 +
      128 * nonZeroBefore env.source (totalGrains capacitySectors) ≤ 2 ^ 32) :
    (CreateSparseOnStack self env stack bufSize capacitySectors).1 = some true ∧
    ∀ x, x < capacitySectors * 512 →
      refImage (CreateSparseOnStack self env stack bufSize capacitySectors).2.writer.bytes x
        = env.source x := by
  rw [CreateSparseOnStack_fits self env stack bufSize capacitySectors hstack]
  exact round_trip_CreateSparse self env bufSize capacitySectors hpos h64 hdesc hok hlayout hdata

theorem scenarioA_fits : dataOffset 1024 / 512 +
    128 * nonZeroBefore (okEnv scenarioA).source (totalGrains 1024) ≤ 2 ^ 32 := by
  have hle := nonZeroBefore_le (okEnv scenarioA).source (totalGrains 1024)
  have ht : totalGrains 1024 = 8 := by decide
  have hd : dataOffset 1024 = 65536 := by decide
  rw [ht] at hle ⊢
  rw [hd]
  norm_num
  omega

theorem scenarioA_descriptor : (descriptorOf img (okEnv scenarioA) 1024).length ≤ 512 := by
  rw [img_descriptor, mkDescriptor_length]
  decide

/-- C1, amended, on Scenario A with a stack that leaves 8 MiB for the arrays. -/
theorem round_trip_witness :
    (0 < 1024 ∧ 1024 < 2 ^ 64 ∧ (descriptorOf img (okEnv scenarioA) 1024).length ≤ 512 ∧
      (okEnv scenarioA).allOk (totalGrains 1024) ∧
      numGT 1024 * 4 + totalGrains 1024 * 4 ≤ 8388608 ∧ dataEnd 1024 ≤ 2 ^ 32 - 65536 ∧
      dataOffset 1024 / 512 + 128 * nonZeroBefore (okEnv scenarioA).source (totalGrains 1024)
        ≤ 2 ^ 32) ∧
    (CreateSparseOnStack img (okEnv scenarioA) 8388608 65536 1024).1 = some true ∧
    ∀ x, x < 1024 * 512 →
      refImage (CreateSparseOnStack img (okEnv scenarioA) 8388608 65536 1024).2.writer.bytes x
        = (okEnv scenarioA).source x :=
  ⟨⟨by decide, by decide, scenarioA_descriptor, okEnv_allOk _ _, by decide, by decide,
      scenarioA_fits⟩,
    round_trip img (okEnv scenarioA) 8388608 65536 1024 (by decide) (by decide)
      scenarioA_descriptor (okEnv_allOk _ _) (by decide) (by decide) scenarioA_fits⟩

/-! ## Data region -/

theorem fileSlice_add (bytes : Nat → Nat) (off a b : Nat) :
    fileSlice bytes off (a + b) = fileSlice bytes off a ++ fileSlice bytes (off + a) b := by
  unfold fileSlice
  rw [List.range_add, List.map_append, List.map_map]
  congr 1
  apply List.map_congr_left
  intro k _
  simp [Nat.add_assoc]

theorem fileSlice_grain (bytes source : Nat → Nat) (off i : Nat)
    (h : ∀ m, m < 65536 → bytes (off + m) = source (i * 65536 + m)) :
    fileSlice bytes off 65536 = grainBytes source i := by
  unfold fileSlice grainBytes
  apply List.map_congr_left
  intro m hm
  exact h m (List.mem_range.mp hm)

theorem nonZeroGrains_succ (source : Nat → Nat) (n : Nat) :
    nonZeroGrains source (n + 1) =
      nonZeroGrains source n ++ (if grainIsZero source n then [] else [n]) := by
  have hlast : List.filter (fun i => decide (¬ grainIsZero source i)) [n] =
      if grainIsZero source n then [] else [n] := by
    by_cases h : grainIsZero source n
    · rw [if_pos h]
      exact List.filter_cons_of_neg (by rw [decide_eq_true_iff]; exact not_not.mpr h)
    · rw [if_neg h]
      exact List.filter_cons_of_pos (by rw [decide_eq_true_iff]; exact h)
  unfold nonZeroGrains
  rw [List.range_succ, List.filter_append, hlast]

theorem concat_of_pointwise (bytes source : Nat → Nat) (D n : Nat)
    (hP : ∀ j, j < n → ¬ grainIsZero source j → ∀ m, m < 65536 →
      bytes (D + 65536 * nonZeroBefore source j + m) = source (j * 65536 + m)) :
    fileSlice bytes D (65536 * nonZeroBefore source n) =
      (nonZeroGrains source n).flatMap (grainBytes source) := by
  induction n with
  | zero =>
    have h0 : nonZeroBefore source 0 = 0 := by simp [nonZeroBefore]
    rw [h0]
    rfl
  | succ n ih =>
    have ih1 := ih (fun j hj => hP j (by omega))
    rw [nonZeroBefore_succ, nonZeroGrains_succ, List.flatMap_append, ← ih1]
    by_cases hz : grainIsZero source n
    · rw [if_pos hz, if_pos hz]
      simp
    · rw [if_neg hz, if_neg hz, Nat.mul_add, fileSlice_add, Nat.mul_one,
        List.flatMap_singleton, fileSlice_grain bytes source _ n (hP n (by omega) hz)]

theorem fileSlice_head (bytes : Nat → Nat) (off n : Nat) (hn : 0 < n) :
    (fileSlice bytes off n).head? = some (bytes off) := by
  obtain ⟨m, rfl⟩ : ∃ m, n = m + 1 := ⟨n - 1, by omega⟩
  rw [show m + 1 = 1 + m by omega, fileSlice_add]
  rfl

theorem grainBytes_head (source : Nat → Nat) (i : Nat) :
    (grainBytes source i).head? = some (source (i * 65536)) := by
  have h := fileSlice_grain source source (i * 65536) i (fun _ _ => rfl)
  rw [← h, fileSlice_head _ _ _ (by omega)]

/-- C2 as stated fails: with capacitySectors = 2^32 and a source without zero bytes the run
returns true and GTEs[33552380] = 128, but the byte of the file at 128 * 512 is 2 (it
belongs to the grain directory), while grain 33552380 of the source starts with 0xFF. -/
theorem data_region_counterexample :
    (CreateSparse img (okEnv allOnes) 65536 4294967296).1 = some true ∧
    33552380 < totalGrains 4294967296 ∧
    (CreateSparse img (okEnv allOnes) 65536 4294967296).2.GTEs 33552380 = 128 ∧
    (CreateSparse img (okEnv allOnes) 65536 4294967296).2.writer.bytes (128 * 512) = 2 ∧
    fileSlice (CreateSparse img (okEnv allOnes) 65536 4294967296).2.writer.bytes
        ((CreateSparse img (okEnv allOnes) 65536 4294967296).2.GTEs 33552380 * 512) 65536
      ≠ grainBytes (okEnv allOnes).source 33552380 := by
  have hrun := allOnes_run 65536
  have ht : totalGrains 4294967296 = 33554432 := by decide
  have hn : numGT 4294967296 = 65536 := by decide
  have hg : gtOffset 4294967296 = 263168 := by decide
  have hd : dataOffset 4294967296 = 134545408 := by decide
  have hs : (okEnv allOnes).source = allOnes := rfl
  have hgte : (CreateSparse img (okEnv allOnes) 65536 4294967296).2.GTEs 33552380 = 128 := by
    have hz : ¬ grainIsZero (okEnv allOnes).source 33552380 := allOnes_nonzero _
    rw [GTEs_formula img (okEnv allOnes) 65536 4294967296 hrun, if_pos (by omega),
      if_neg hz, hs, allOnes_count, hd]
    norm_num [u32]
  have hgde : (CreateSparse img (okEnv allOnes) 65536 4294967296).2.GDEs 16128 = 65026 := by
    rw [GDEs_formula img (okEnv allOnes) 65536 4294967296 hrun, if_pos (by omega), hg]
    norm_num [u32]
  have hb := file_GD_byte img (okEnv allOnes) 65536 4294967296 hrun (by norm_num) rfl
    (by omega) 16128 (by omega) 0 (by omega)
  rw [hgde, show 1024 + 4 * 16128 + 0 = 65536 by norm_num,
    show 65026 / 256 ^ 0 % 256 = 2 by norm_num] at hb
  have e : (128 * 512 : Nat) = 65536 := by norm_num
  refine ⟨hrun, by omega, hgte, by rw [e]; exact hb, ?_⟩
  rw [hgte, e]
  intro heq
  have h := congrArg List.head? heq
  rw [fileSlice_head _ _ _ (by omega), grainBytes_head, hb] at h
  exact absurd h (by simp [hs, allOnes])

/-- C2, amended: for every capacitySectors > 0 whose layout fits the 32-bit dataOffset
(gtOffset + 4 * totalGrains ≤ 2^32 - 65536) and every source whose non-zero grains fit
below sector 2^32 (dataOffset/512 + 128 * number of non-zero grains ≤ 2^32), after a run
that returns true the bytes of the file from dataOffset to the end of the last grain
written are exactly the concatenation, in source order, of the source grains that are not
all-zero, 65536 bytes each, and for every i with GTEs[i] ≠ 0 the 65536 bytes at file
offset GTEs[i] * 512 are the 65536 bytes read from the source for grain i. -/
theorem data_region (self : SparseVMDK) (env : Env) (bufSize capacitySectors : Nat)
    (hpos : 0 < capacitySectors) (h64 : capacitySectors < 2 ^ 64)
    (hlayout : dataEnd capacitySectors ≤ 2 ^ 32 - 65536)
    (hdata : dataOffset capacitySectors / 512 +
      128 * nonZeroBefore env.source (totalGrains capacitySectors) ≤ 2 ^ 32)
    (hrun : (CreateSparse self env bufSize capacitySectors).1 = some true) :
    fileSlice (CreateSparse self env bufSize capacitySectors).2.writer.bytes
        (dataOffset capacitySectors)
        (65536 * nonZeroBefore env.source (totalGrains capacitySectors))
      = (nonZeroGrains env.source (totalGrains capacitySectors)).flatMap
          (grainBytes env.source) ∧
    ∀ i, i < totalGrains capacitySectors →
      (CreateSparse self env bufSize capacitySectors).2.GTEs i ≠ 0 →
      fileSlice (CreateSparse self env bufSize capacitySectors).2.writer.bytes
          ((CreateSparse self env bufSize capacitySectors).2.GTEs i * 512) 65536
        = grainBytes env.source i := by
  have h64a : capacitySectors < 18446744073709551616 := by simpa using h64
  have hl : dataEnd capacitySectors ≤ 4294967296 - 65536 := by simpa using hlayout
  have hda : dataOffset capacitySectors / 512 +
      128 * nonZeroBefore env.source (totalGrains capacitySectors) ≤ 4294967296 := by
    simpa using hdata
  have ht := totalGrains_eq capacitySectors h64a
  have hdo := dataOffset_eq capacitySectors h64a hl
  have hm := dataOffset_mod capacitySectors
  have hde : dataEnd capacitySectors = gtOffset capacitySectors +
      4 * totalGrains capacitySectors := rfl
  have hu : u64 (totalGrains capacitySectors * 4) = totalGrains capacitySectors * 4 :=
    Nat.mod_eq_of_lt (by omega)
  have hP : ∀ j, j < totalGrains capacitySectors → ¬ grainIsZero env.source j →
      ∀ m, m < 65536 →
      (CreateSparse self env bufSize capacitySectors).2.writer.bytes
          (dataOffset capacitySectors + 65536 * nonZeroBefore env.source j + m)
        = env.source (j * 65536 + m) := by
    intro j hj hz m hm
    rw [final_bytes self env bufSize capacitySectors hrun, hu, if_neg (by omega),
      loop_bytes_data self env bufSize capacitySectors hrun j m hj hz hm]
  refine ⟨concat_of_pointwise _ _ _ _ hP, fun i hi hne => ?_⟩
  have hf := GTEs_formula self env bufSize capacitySectors hrun i
  rw [if_pos hi] at hf
  by_cases hz : grainIsZero env.source i
  · rw [if_pos hz] at hf
    exact absurd hf hne
  · rw [if_neg hz] at hf
    have hlt := nonZeroBefore_lt env.source hi hz
    rw [u32_of_lt (by omega)] at hf
    rw [hf]
    apply fileSlice_grain
    intro m hm
    rw [show (dataOffset capacitySectors / 512 + 128 * nonZeroBefore env.source i) * 512 + m
        = dataOffset capacitySectors + 65536 * nonZeroBefore env.source i + m by omega]
    exact hP i hi hz m hm

/-- C2, amended, on Scenario A. -/
theorem data_region_witness :
    (0 < 1024 ∧ 1024 < 2 ^ 64 ∧ dataEnd 1024 ≤ 2 ^ 32 - 65536 ∧
      dataOffset 1024 / 512 + 128 * nonZeroBefore (okEnv scenarioA).source (totalGrains 1024)
        ≤ 2 ^ 32 ∧
      (CreateSparse img (okEnv scenarioA) 65536 1024).1 = some true) ∧
    fileSlice (CreateSparse img (okEnv scenarioA) 65536 1024).2.writer.bytes
        (dataOffset 1024) (65536 * nonZeroBefore (okEnv scenarioA).source (totalGrains 1024))
      = (nonZeroGrains (okEnv scenarioA).source (totalGrains 1024)).flatMap
          (grainBytes (okEnv scenarioA).source) ∧
    ∀ i, i < totalGrains 1024 →
      (CreateSparse img (okEnv scenarioA) 65536 1024).2.GTEs i ≠ 0 →
      fileSlice (CreateSparse img (okEnv scenarioA) 65536 1024).2.writer.bytes
          ((CreateSparse img (okEnv scenarioA) 65536 1024).2.GTEs i * 512) 65536
        = grainBytes (okEnv scenarioA).source i :=
  ⟨⟨by decide, by decide, by decide, scenarioA_fits, scenarioA_run 65536⟩,
    data_region img (okEnv scenarioA) 65536 1024 (by decide) (by decide) (by decide)
      scenarioA_fits (scenarioA_run 65536)⟩

/-! ## Header -/

theorem le8_eq (c : Nat) :
    le 8 c = [c / 256 ^ 0 % 256, c / 256 ^ 1 % 256, c / 256 ^ 2 % 256, c / 256 ^ 3 % 256,
      c / 256 ^ 4 % 256, c / 256 ^ 5 % 256, c / 256 ^ 6 % 256, c / 256 ^ 7 % 256] := rfl

theorem mkHeader_bytes (c : Nat) :
    (mkHeader c).bytes =
      [0x4B, 0x44, 0x4D, 0x56, 1, 0, 0, 0, 3, 0, 0, 0,
       c / 256 ^ 0 % 256, c / 256 ^ 1 % 256, c / 256 ^ 2 % 256, c / 256 ^ 3 % 256,
       c / 256 ^ 4 % 256, c / 256 ^ 5 % 256, c / 256 ^ 6 % 256, c / 256 ^ 7 % 256,
       128, 0, 0, 0, 0, 0, 0, 0, 1, 0, 0, 0, 0, 0, 0, 0, 1, 0, 0, 0, 0, 0, 0, 0,
       0, 2, 0, 0, 0, 0, 0, 0, 0, 0, 0, 0, 2, 0, 0, 0, 0, 0, 0, 0,
       0, 4, 0, 0, 0, 0, 0, 0, 0, 0x0A, 0x20, 0x0D, 0x0A, 0, 0] ++ List.replicate 433 0 := by
  have e1 : le 4 VMDK_MAGICNUMBER = [0x4B, 0x44, 0x4D, 0x56] := by decide
  have e2 : le 4 VMDK_VERSION = [1, 0, 0, 0] := by decide
  have e3 : le 4 3 = [3, 0, 0, 0] := by decide
  have e4 : le 8 GRAIN_SIZE = [128, 0, 0, 0, 0, 0, 0, 0] := by decide
  have e5 : le 8 1 = [1, 0, 0, 0, 0, 0, 0, 0] := by decide
  have e6 : le 8 DESCRIPTOR_SIZE = [1, 0, 0, 0, 0, 0, 0, 0] := by decide
  have e7 : le 4 512 = [0, 2, 0, 0] := by decide
  have e8 : le 8 0 = [0, 0, 0, 0, 0, 0, 0, 0] := by decide
  have e9 : le 8 2 = [2, 0, 0, 0, 0, 0, 0, 0] := by decide
  have e10 : le 8 (VMDK_HEADER_SIZE + SECTOR_SIZE * DESCRIPTOR_SIZE)
      = [0, 4, 0, 0, 0, 0, 0, 0] := by decide
  have e11 : le 2 0 = [0, 0] := by decide
  unfold SparseExtentHeader.bytes mkHeader
  simp only [e1, e2, e3, e4, e5, e6, e7, e8, e9, e10, e11, le8_eq]
  rfl

theorem mkHeader_length (c : Nat) : (mkHeader c).bytes.length = 512 := by
  rw [mkHeader_bytes, List.length_append, List.length_replicate]
  rfl

theorem fieldAt_append (l r : List Nat) (off w : Nat) (h : off + w ≤ l.length) :
    fieldAt (l ++ r) off w = fieldAt l off w := by
  unfold fieldAt
  congr 1
  apply List.map_congr_left
  intro k hk
  have hk' := List.mem_range.mp hk
  rw [List.getD_append _ _ _ _ (by omega)]

theorem getD_append_left (l r : List Nat) (k : Nat) (h : k < l.length) :
    (l ++ r).getD k 0 = l.getD k 0 := List.getD_append _ _ _ _ h

theorem fieldAt_two (l : List Nat) (off : Nat) :
    fieldAt l off 2 = l.getD off 0 + 256 * l.getD (off + 1) 0 := by
  simp [fieldAt, List.range_succ]
  ring

theorem fieldAt_four (l : List Nat) (off : Nat) :
    fieldAt l off 4 = l.getD off 0 + 256 * l.getD (off + 1) 0 + 65536 * l.getD (off + 2) 0 +
      16777216 * l.getD (off + 3) 0 := by
  simp [fieldAt, List.range_succ]
  ring

theorem fieldAt_eight (l : List Nat) (off : Nat) :
    fieldAt l off 8 = l.getD off 0 + 256 * l.getD (off + 1) 0 + 65536 * l.getD (off + 2) 0 +
      16777216 * l.getD (off + 3) 0 + 4294967296 * l.getD (off + 4) 0 +
      1099511627776 * l.getD (off + 5) 0 + 281474976710656 * l.getD (off + 6) 0 +
      72057594037927936 * l.getD (off + 7) 0 := by
  simp [fieldAt, List.range_succ]
  ring

/-- C11: for every capacitySectors > 0 the byte-packed little-endian header that the run
writes is exactly 512 bytes long, 79 bytes of fields followed by 433 zero pad bytes, with
magicNumber = 0x564D444B, version = 1, flags = 3, capacity = capacitySectors,
grainSize = 128, descriptorOffset = 1, descriptorSize = 1, numGTEsPerGT = 512,
rgdOffset = 0, gdOffset = 2, overHead = 1024, uncleanShutdown = 0, the four bytes 0x0A 0x20
0x0D 0x0A at byte offsets 73..76, and compressAlgorithm = 0. -/
theorem header_fields (capacitySectors : Nat) (hpos : 0 < capacitySectors)
    (h64 : capacitySectors < 2 ^ 64) :
    (mkHeader capacitySectors).bytes.length = 512 ∧
    (mkHeader capacitySectors).bytes.drop 79 = List.replicate 433 0 ∧
    fieldAt (mkHeader capacitySectors).bytes 0 4 = 0x564D444B ∧
    fieldAt (mkHeader capacitySectors).bytes 4 4 = 1 ∧
    fieldAt (mkHeader capacitySectors).bytes 8 4 = 3 ∧
    fieldAt (mkHeader capacitySectors).bytes 12 8 = capacitySectors ∧
    fieldAt (mkHeader capacitySectors).bytes 20 8 = 128 ∧
    fieldAt (mkHeader capacitySectors).bytes 28 8 = 1 ∧
    fieldAt (mkHeader capacitySectors).bytes 36 8 = 1 ∧
    fieldAt (mkHeader capacitySectors).bytes 44 4 = 512 ∧
    fieldAt (mkHeader capacitySectors).bytes 48 8 = 0 ∧
    fieldAt (mkHeader capacitySectors).bytes 56 8 = 2 ∧
    fieldAt (mkHeader capacitySectors).bytes 64 8 = 512 + 512 * 1 ∧
    (mkHeader capacitySectors).bytes.getD 72 0 = 0 ∧
    (mkHeader capacitySectors).bytes.getD 73 0 = 0x0A ∧
    (mkHeader capacitySectors).bytes.getD 74 0 = 0x20 ∧
    (mkHeader capacitySectors).bytes.getD 75 0 = 0x0D ∧
    (mkHeader capacitySectors).bytes.getD 76 0 = 0x0A ∧
    fieldAt (mkHeader capacitySectors).bytes 77 2 = 0 := by
  refine ⟨mkHeader_length _, ?_, ?_, ?_, ?_, ?_, ?_, ?_, ?_, ?_, ?_, ?_, ?_, ?_, ?_, ?_, ?_,
    ?_, ?_⟩
  · rw [mkHeader_bytes]
    exact List.drop_left' rfl
  · rw [mkHeader_bytes, fieldAt_append _ _ _ _ (by simp), fieldAt_four]
    simp only [List.getD_cons_succ, List.getD_cons_zero]
  · rw [mkHeader_bytes, fieldAt_append _ _ _ _ (by simp), fieldAt_four]
    simp only [List.getD_cons_succ, List.getD_cons_zero]
  · rw [mkHeader_bytes, fieldAt_append _ _ _ _ (by simp), fieldAt_four]
    simp only [List.getD_cons_succ, List.getD_cons_zero]
  · rw [mkHeader_bytes, fieldAt_append _ _ _ _ (by simp), fieldAt_eight]
    simp only [List.getD_cons_succ, List.getD_cons_zero]
    norm_num at h64 ⊢
    omega
  · rw [mkHeader_bytes, fieldAt_append _ _ _ _ (by simp), fieldAt_eight]
    simp only [List.getD_cons_succ, List.getD_cons_zero]
  · rw [mkHeader_bytes, fieldAt_append _ _ _ _ (by simp), fieldAt_eight]
    simp only [List.getD_cons_succ, List.getD_cons_zero]
  · rw [mkHeader_bytes, fieldAt_append _ _ _ _ (by simp), fieldAt_eight]
    simp only [List.getD_cons_succ, List.getD_cons_zero]
  · rw [mkHeader_bytes, fieldAt_append _ _ _ _ (by simp), fieldAt_four]
    simp only [List.getD_cons_succ, List.getD_cons_zero]
  · rw [mkHeader_bytes, fieldAt_append _ _ _ _ (by simp), fieldAt_eight]
    simp only [List.getD_cons_succ, List.getD_cons_zero]
  · rw [mkHeader_bytes, fieldAt_append _ _ _ _ (by simp), fieldAt_eight]
    simp only [List.getD_cons_succ, List.getD_cons_zero]
  · rw [mkHeader_bytes, fieldAt_append _ _ _ _ (by simp), fieldAt_eight]
    simp only [List.getD_cons_succ, List.getD_cons_zero]
  · rw [mkHeader_bytes, getD_append_left _ _ _ (by simp)]
    simp only [List.getD_cons_succ, List.getD_cons_zero]
  · rw [mkHeader_bytes, getD_append_left _ _ _ (by simp)]
    simp only [List.getD_cons_succ, List.getD_cons_zero]
  · rw [mkHeader_bytes, getD_append_left _ _ _ (by simp)]
    simp only [List.getD_cons_succ, List.getD_cons_zero]
  · rw [mkHeader_bytes, getD_append_left _ _ _ (by simp)]
    simp only [List.getD_cons_succ, List.getD_cons_zero]
  · rw [mkHeader_bytes, getD_append_left _ _ _ (by simp)]
    simp only [List.getD_cons_succ, List.getD_cons_zero]
  · rw [mkHeader_bytes, fieldAt_append _ _ _ _ (by simp), fieldAt_two]
    simp only [List.getD_cons_succ, List.getD_cons_zero]

/-- C11 on Scenario A: the header for capacitySectors = 1024. -/
theorem header_fields_witness :
    (0 < 1024 ∧ 1024 < 2 ^ 64) ∧ (mkHeader 1024).bytes.length = 512 ∧
    fieldAt (mkHeader 1024).bytes 12 8 = 1024 ∧ (mkHeader 1024).bytes.getD 73 0 = 0x0A :=
  have h := header_fields 1024 (by decide) (by decide)
  ⟨⟨by decide, by decide⟩, h.1, h.2.2.2.2.2.1, h.2.2.2.2.2.2.2.2.2.2.2.2.2.2.1⟩

/-! ## Descriptor -/

theorem descriptor_seg1 : ascii "# Disk DescriptorFile\nversion=1\nCID=" =
    ascii "# Disk DescriptorFile\n" ++ ascii "version=1\n" ++ ascii "CID=" := by rfl

theorem descriptor_seg2 : ascii "\nparentCID=ffffffff\ncreateType=\"monolithicSparse\"\n\n# Extent description\nRW " =
    ascii "\n" ++ ascii "parentCID=ffffffff\n" ++ ascii "createType=\"monolithicSparse\"\n" ++
    ascii "\n" ++ ascii "# Extent description\n" ++ ascii "RW " := by rfl

theorem descriptor_seg3 : ascii ".vmdk\" 0\n\n# The Disk Data Base\n#DDB\nddb.adapterType = \"ide\"\nddb.geometry.cylinders = \"" =
    ascii ".vmdk" ++ ascii "\" 0\n" ++ ascii "\n" ++ ascii "# The Disk Data Base\n" ++
    ascii "#DDB\n" ++ ascii "ddb.adapterType = \"ide\"\n" ++
    ascii "ddb.geometry.cylinders = \"" := by rfl

theorem descriptor_seg4 : ascii "\"\nddb.geometry.heads = \"16\"\nddb.geometry.sectors = \"63\"\nddb.virtualHWVersion = \"10\"\n" =
    ascii "\"\n" ++ ascii "ddb.geometry.heads = \"16\"\n" ++
    ascii "ddb.geometry.sectors = \"63\"\n" ++ ascii "ddb.virtualHWVersion = \"10\"\n" := by rfl

/-- C12: for every capacitySectors > 0, output file name and CID, the descriptor string
of the run is exactly the literal of section 6 of the specification, LF line endings, with
the decimal CID, the decimal capacity, the output file name followed by .vmdk, and the
decimal value of capacitySectors / (16 * 63) as cylinders. -/
theorem descriptor_text (self : SparseVMDK) (env : Env) (capacitySectors : Nat)
    (hpos : 0 < capacitySectors) :
    descriptorOf self env capacitySectors =
      specDescriptor (generateRandomCID env.rand) capacitySectors self.outFileName := by
  unfold descriptorOf mkDescriptor specDescriptor
  rw [descriptor_seg1, descriptor_seg2, descriptor_seg3, descriptor_seg4]
  simp only [List.append_assoc]

set_option maxRecDepth 100000 in
/-- C12, Scenario F: capacitySectors = 2048000 and CID 12345678 give the lines
CID=12345678, RW 2048000 SPARSE "img.vmdk" 0 and ddb.geometry.cylinders = "2031". -/
theorem descriptor_text_witness :
    0 < 2048000 ∧
    descriptorOf img envF 2048000 =
      specDescriptor (generateRandomCID envF.rand) 2048000 img.outFileName ∧
    generateRandomCID envF.rand = 12345678 ∧
    descriptorOf img envF 2048000 =
      ascii "# Disk DescriptorFile\nversion=1\nCID=12345678\nparentCID=ffffffff\ncreateType=\"monolithicSparse\"\n\n# Extent description\nRW 2048000 SPARSE \"img.vmdk\" 0\n\n# The Disk Data Base\n#DDB\nddb.adapterType = \"ide\"\nddb.geometry.cylinders = \"2031\"\nddb.geometry.heads = \"16\"\nddb.geometry.sectors = \"63\"\nddb.virtualHWVersion = \"10\"\n" :=
  ⟨by decide, descriptor_text img envF 2048000 (by decide), by decide, by rfl⟩

/-! ## Header and descriptor region -/

theorem toDigitsCore_length (fuel n : Nat) (ds : List Char) (k : Nat) (hk : 1 ≤ k)
    (h : n < 10 ^ k) : (Nat.toDigitsCore 10 fuel n ds).length ≤ ds.length + k := by
  induction fuel generalizing n ds k with
  | zero =>
    simp only [Nat.toDigitsCore]
    omega
  | succ fuel ih =>
    simp only [Nat.toDigitsCore]
    split
    · simp only [List.length_cons]
      omega
    · rename_i hne
      obtain ⟨j, rfl⟩ : ∃ j, k = j + 1 := ⟨k - 1, by omega⟩
      have hj : 1 ≤ j := by
        rcases Nat.eq_zero_or_pos j with h0 | h0
        · subst h0
          exfalso
          apply hne
          have : n < 10 := by simpa using h
          omega
        · exact h0
      have hn : n / 10 < 10 ^ j := by
        rw [Nat.div_lt_iff_lt_mul (by norm_num)]
        rw [Nat.pow_succ] at h
        exact h
      have := ih (n / 10) (Nat.digitChar (n % 10) :: ds) j hj hn
      simp only [List.length_cons] at this
      omega

theorem decimal_length_le (n k : Nat) (hk : 1 ≤ k) (h : n < 10 ^ k) :
    (decimal n).length ≤ k := by
  unfold decimal Nat.toDigits
  rw [List.length_map]
  have := toDigitsCore_length (n + 1) n [] k hk h
  simpa using this

theorem generateRandomCID_lt (rand : Nat) : generateRandomCID rand < 10 ^ 8 := by
  unfold generateRandomCID u32
  omega

theorem mkDescriptor_length_le (cid c : Nat) (name : List Nat) (hcid : cid < 10 ^ 8)
    (h64 : c < 2 ^ 64) (hname : name.length ≤ 100) :
    (mkDescriptor cid c (name ++ ascii ".vmdk") (c / (HEADS * SECTORS))).length ≤ 435 := by
  rw [mkDescriptor_length, List.length_append]
  have e : (ascii ".vmdk").length = 5 := rfl
  have h1 := decimal_length_le cid 8 (by omega) hcid
  have h2 := decimal_length_le c 20 (by omega) (by norm_num at h64 ⊢; omega)
  have h3 := decimal_length_le (c / (HEADS * SECTORS)) 17 (by omega)
    (by norm_num at h64 ⊢; omega)
  omega

theorem descriptorOf_length_le (self : SparseVMDK) (env : Env) (c : Nat) (h64 : c < 2 ^ 64)
    (hname : self.outFileName.length ≤ 100) : (descriptorOf self env c).length ≤ 435 :=
  mkDescriptor_length_le _ c _ (generateRandomCID_lt _) h64 hname

theorem three_writes (hb db : Nat → Nat) (n : Nat) (hn : n ≤ 512) :
    (((Writer.OpenFile.Write true hb 512).Write true db n).Write true (fun _ => 0)
        (512 - n)).size = 1024 ∧
    (((Writer.OpenFile.Write true hb 512).Write true db n).Write true (fun _ => 0)
        (512 - n)).pos = 1024 ∧
    ∀ k, (((Writer.OpenFile.Write true hb 512).Write true db n).Write true (fun _ => 0)
        (512 - n)).bytes k = if k < 512 then hb k else if k < 512 + n then db (k - 512) else 0 := by
  simp only [Writer.Write, Writer.OpenFile, if_true]
  refine ⟨?_, by omega, fun k => ?_⟩
  · split <;> split <;> simp <;> omega
  · by_cases h1 : k < 512
    · rw [if_pos h1, if_neg (by omega), if_neg (by omega), if_pos (by omega)]
      rfl
    · rw [if_neg h1]
      by_cases h2 : k < 512 + n
      · rw [if_pos h2, if_neg (by omega), if_pos (by omega)]
      · rw [if_neg h2]
        split
        · rfl
        · rw [if_neg (by omega), if_neg (by omega)]

theorem fileSlice_of_getD (bytes : Nat → Nat) (off : Nat) (l : List Nat)
    (h : ∀ k, k < l.length → bytes (off + k) = l.getD k 0) : fileSlice bytes off l.length = l := by
  apply List.ext_getElem
  · simp [fileSlice]
  · intro k h1 h2
    simp only [fileSlice, List.getElem_map, List.getElem_range]
    rw [h k h2, List.getD_eq_getElem _ _ h2]

theorem fileSlice_zero (bytes : Nat → Nat) (off n : Nat)
    (h : ∀ k, k < n → bytes (off + k) = 0) : fileSlice bytes off n = List.replicate n 0 := by
  apply List.ext_getElem
  · simp [fileSlice]
  · intro k h1 h2
    have hk : k < n := by simpa [fileSlice] using h1
    simp only [fileSlice, List.getElem_map, List.getElem_range, List.getElem_replicate]
    exact h k hk

theorem headerState_writer (self : SparseVMDK) (env : Env) (c : Nat)
    (h1 : env.wresHeader = true) (h2 : env.wresDesc = true) (h3 : env.wresPadding = true) :
    (headerState self env c).writer =
      ((Writer.OpenFile.Write true (bufOfList (mkHeader c).bytes) 512).Write true
        (bufOfList (descriptorOf self env c)) (descriptorOf self env c).length).Write true
        (fun _ => 0) (512 - (descriptorOf self env c).length) := by
  unfold headerState writePadding writeHeaderDescriptor
  rw [h1, h2, h3]
  rfl

theorem headerState_trace (self : SparseVMDK) (env : Env) (c : Nat)
    (h1 : env.wresHeader = true) (h2 : env.wresDesc = true) :
    (headerState self env c).trace =
      [Event.openFile env.openFile, Event.write 0 512 true,
        Event.write 512 (descriptorOf self env c).length true,
        Event.write (512 + (descriptorOf self env c).length)
          (512 - (descriptorOf self env c).length) env.wresPadding] := by
  unfold headerState writePadding writeHeaderDescriptor
  rw [h1, h2]
  generalize bufOfList (mkHeader c).bytes = hb
  generalize bufOfList (descriptorOf self env c) = db
  generalize (descriptorOf self env c).length = n
  simp only [State.Write, State.OpenFile, State.init, Writer.Write, Writer.OpenFile, if_true,
    List.nil_append, List.cons_append, Nat.zero_add]

theorem CreateSparse_none_iff (self : SparseVMDK) (env : Env) (bufSize c : Nat) :
    (CreateSparse self env bufSize c).1 = none ↔
      c ≠ 0 ∧ env.openFile = true ∧ 512 < (descriptorOf self env c).length := by
  unfold CreateSparse
  by_cases hc : c = 0
  · simp [hc]
  by_cases h1 : env.openFile = true
  swap
  · simp [hc, h1]
  by_cases hlen : 512 < (descriptorOf self env c).length
  · simp [hc, h1, hlen]
  simp only [hc, h1, hlen, if_true, if_false, ne_eq, not_false_eq_true, true_and, and_false,
    iff_false]
  split
  · simp
  split
  · simp
  split
  · simp
  split
  · simp
  split
  · simp
  · split <;> simp

/-- C13: for every 64-bit capacitySectors > 0, every 8-digit CID and every output file name
of at most 100 bytes, the descriptor text is at most 512 bytes long, so the padding length
512 - len is not negative and the run is not aborted, and when the header write, the
descriptor write and the padding write succeed they produce exactly 1024 bytes: bytes
0..511 are the header, bytes 512..511+len the descriptor, and bytes 512+len..1023 are
zero. -/
theorem header_region_layout (self : SparseVMDK) (env : Env) (bufSize capacitySectors : Nat)
    (hpos : 0 < capacitySectors) (h64 : capacitySectors < 2 ^ 64)
    (hname : self.outFileName.length ≤ 100)
    (h1 : env.wresHeader = true) (h2 : env.wresDesc = true) (h3 : env.wresPadding = true) :
    (∀ cid, 10000000 ≤ cid → cid ≤ 99999999 →
      (mkDescriptor cid capacitySectors (self.outFileName ++ ascii ".vmdk")
        (capacitySectors / (HEADS * SECTORS))).length ≤ 512) ∧
    (descriptorOf self env capacitySectors).length ≤ 512 ∧
    (CreateSparse self env bufSize capacitySectors).1 ≠ none ∧
    (headerState self env capacitySectors).trace =
      [Event.openFile env.openFile, Event.write 0 512 true,
        Event.write 512 (descriptorOf self env capacitySectors).length true,
        Event.write (512 + (descriptorOf self env capacitySectors).length)
          (512 - (descriptorOf self env capacitySectors).length) true] ∧
    (headerState self env capacitySectors).writer.size = 1024 ∧
    (headerState self env capacitySectors).writer.pos = 1024 ∧
    fileSlice (headerState self env capacitySectors).writer.bytes 0 512 =
      (mkHeader capacitySectors).bytes ∧
    fileSlice (headerState self env capacitySectors).writer.bytes 512
      (descriptorOf self env capacitySectors).length = descriptorOf self env capacitySectors ∧
    fileSlice (headerState self env capacitySectors).writer.bytes
      (512 + (descriptorOf self env capacitySectors).length)
      (512 - (descriptorOf self env capacitySectors).length) =
        List.replicate (512 - (descriptorOf self env capacitySectors).length) 0 := by
  have hlen := descriptorOf_length_le self env capacitySectors h64 hname
  have hw := headerState_writer self env capacitySectors h1 h2 h3
  obtain ⟨w1, w2, w3⟩ := three_writes (bufOfList (mkHeader capacitySectors).bytes)
    (bufOfList (descriptorOf self env capacitySectors))
    (descriptorOf self env capacitySectors).length (by omega)
  rw [← hw] at w1 w2 w3
  have htr := headerState_trace self env capacitySectors h1 h2
  rw [h3] at htr
  refine ⟨fun cid hc1 hc2 => ?_, by omega, ?_, htr, w1, w2, ?_, ?_, ?_⟩
  · have := mkDescriptor_length_le cid capacitySectors self.outFileName
      (by norm_num; omega) h64 hname
    omega
  · intro hnone
    have := ((CreateSparse_none_iff self env bufSize capacitySectors).mp hnone).2.2
    omega
  · have := fileSlice_of_getD (headerState self env capacitySectors).writer.bytes 0
      (mkHeader capacitySectors).bytes (fun k hk => by
        rw [mkHeader_length] at hk
        rw [w3, Nat.zero_add, if_pos hk]
        rfl)
    rwa [mkHeader_length] at this
  · exact fileSlice_of_getD _ 512 _ (fun k hk => by
      rw [w3, if_neg (by omega), if_pos (by omega), Nat.add_sub_cancel_left]
      rfl)
  · exact fileSlice_zero _ _ _ (fun k hk => by
      rw [w3, if_neg (by omega), if_neg (by omega)])

/-- C13 on Scenario A. -/
theorem header_region_layout_witness :
    (0 < 1024 ∧ 1024 < 2 ^ 64 ∧ img.outFileName.length ≤ 100 ∧
      (okEnv scenarioA).wresHeader = true ∧ (okEnv scenarioA).wresDesc = true ∧
      (okEnv scenarioA).wresPadding = true) ∧
    (descriptorOf img (okEnv scenarioA) 1024).length ≤ 512 ∧
    (CreateSparse img (okEnv scenarioA) 65536 1024).1 ≠ none ∧
    (headerState img (okEnv scenarioA) 1024).writer.size = 1024 ∧
    fileSlice (headerState img (okEnv scenarioA) 1024).writer.bytes 0 512 =
      (mkHeader 1024).bytes :=
  have h := header_region_layout img (okEnv scenarioA) 65536 1024 (by decide) (by decide)
    (by decide) rfl rfl rfl
  ⟨⟨by decide, by decide, by decide, rfl, rfl, rfl⟩, h.2.1, h.2.2.1, h.2.2.2.2.1,
    h.2.2.2.2.2.2.1⟩

/-! ## Length of the produced file -/

theorem Write_size_le (w : Writer) (ok : Bool) (buf : Nat → Nat) (n : Nat) :
    (w.Write ok buf n).size ≤ max w.size (w.pos + n) := by
  unfold Writer.Write
  cases ok
  · exact le_max_left _ _
  · simp only [if_true]
    split
    · exact le_max_left _ _
    · exact le_refl _

theorem headerState_size_le (self : SparseVMDK) (env : Env) (c : Nat)
    (hlen : (descriptorOf self env c).length ≤ 512) :
    (headerState self env c).writer.size ≤ 1024 := by
  unfold headerState writePadding writeHeaderDescriptor
  simp only [State.Write, State.OpenFile]
  generalize bufOfList (mkHeader c).bytes = hb
  generalize bufOfList (descriptorOf self env c) = db
  have p0 : Writer.OpenFile.pos = 0 := rfl
  have s0 : Writer.OpenFile.size = 0 := rfl
  have p1 := Write_pos_le Writer.OpenFile env.wresHeader hb 512
  have s1 := Write_size_le Writer.OpenFile env.wresHeader hb 512
  have p2 := Write_pos_le (Writer.OpenFile.Write env.wresHeader hb 512) env.wresDesc db
    (descriptorOf self env c).length
  have s2 := Write_size_le (Writer.OpenFile.Write env.wresHeader hb 512) env.wresDesc db
    (descriptorOf self env c).length
  have s3 := Write_size_le ((Writer.OpenFile.Write env.wresHeader hb 512).Write env.wresDesc db
    (descriptorOf self env c).length) env.wresPadding (fun _ => 0)
    (512 - (descriptorOf self env c).length)
  omega

theorem preLoop_eq (self : SparseVMDK) (env : Env) (c : Nat) :
    preLoop self env c =
      (seekData env c (writeGD env c (headerState self env c))).OpenDisk env.openDisk := rfl

theorem preLoop_size_le (self : SparseVMDK) (env : Env) (c : Nat)
    (hlen : (descriptorOf self env c).length ≤ 512) :
    (preLoop self env c).writer.size ≤ 1024 + u64 (numGT c * 4) := by
  have h := headerState_size_le self env c hlen
  rw [preLoop_eq]
  generalize headerState self env c = s4 at h ⊢
  unfold seekData writeGD
  cases hsg : env.wresSetGD
  · cases hsd : env.wresSetData <;>
      simp [State.OpenDisk, State.SetFilePointer, Writer.SetFilePointer] <;> omega
  · have hw := Write_size_le ({ s4.writer with pos := 1024 }) env.wresGD
      (arrayBytes (fillGDEs (numGT c) 0 (u32 (gtOffset c / 512)) (fun _ => 0)))
      (u64 (numGT c * 4))
    cases hsd : env.wresSetData <;>
      simp only [State.OpenDisk, State.SetFilePointer, Writer.SetFilePointer, State.Write,
        if_true, gdOffset_eq, Bool.false_eq_true, if_false] <;>
      simp only [] at hw <;> omega

theorem writeGT_size (env : Env) (c : Nat) (s : State) :
    (writeGT env c s).writer.size =
      if env.wresSetGT = true ∧ env.wresGT = true ∧ u64 (totalGrains c * 4) ≠ 0 then
        max s.writer.size (gtOffset c + u64 (totalGrains c * 4))
      else s.writer.size := by
  unfold writeGT
  cases h1 : env.wresSetGT
  · simp [State.SetFilePointer, Writer.SetFilePointer]
  · cases h2 : env.wresGT
    · simp [State.SetFilePointer, Writer.SetFilePointer, State.Write, Writer.Write]
    · by_cases h3 : u64 (totalGrains c * 4) = 0
      · simp [State.SetFilePointer, Writer.SetFilePointer, State.Write, Writer.Write, h3]
      · simp [State.SetFilePointer, Writer.SetFilePointer, State.Write, Writer.Write, h3]

/-- Length of the file of a successful run, for every input. -/
theorem final_size (self : SparseVMDK) (env : Env) (bufSize c : Nat)
    (h : (CreateSparse self env bufSize c).1 = some true) :
    (CreateSparse self env bufSize c).2.writer.size =
      if env.wresSetGT = true ∧ env.wresGT = true ∧ u64 (totalGrains c * 4) ≠ 0 then
        max (if nonZeroBefore env.source (totalGrains c) = 0 then (preLoop self env c).writer.size
          else max (preLoop self env c).writer.size
            (dataOffset c + 65536 * nonZeroBefore env.source (totalGrains c)))
          (gtOffset c + u64 (totalGrains c * 4))
      else
        (if nonZeroBefore env.source (totalGrains c) = 0 then (preLoop self env c).writer.size
          else max (preLoop self env c).writer.size
            (dataOffset c + 65536 * nonZeroBefore env.source (totalGrains c))) := by
  obtain ⟨hc, h1, hlen, h2, h3, h4, h5, h6, h7, h8⟩ :=
    (CreateSparse_true_iff self env bufSize c).mp h
  obtain ⟨-, -, -, -, p5, -⟩ := preLoop_facts self env c hlen h4 h5
  have hs := (loop_inv self env bufSize c h).size
  rw [p5] at hs
  rw [CreateSparse_state self env bufSize c h, finalState_eq, writeGT_size, hs]

theorem allZeros_zero (i : Nat) : grainIsZero allZeros i := fun _ _ => rfl

theorem allZeros_count (i : Nat) : nonZeroBefore allZeros i = 0 := by
  induction i with
  | zero => simp [nonZeroBefore]
  | succ n ih => rw [nonZeroBefore_succ, if_pos (allZeros_zero n), ih]

theorem allZeros_run (bufSize : Nat) :
    (CreateSparse img (okEnv allZeros) bufSize 1024).1 = some true :=
  okEnv_run allZeros bufSize 1024 (by decide) (by rw [mkDescriptor_length]; decide)

/-- Length of the file of a successful run over a source without non-zero grain whose
seek to the grain tables succeeded: the end of the grain-table array. -/
theorem final_size_allZero (self : SparseVMDK) (env : Env) (bufSize c : Nat)
    (h64 : c < 18446744073709551616)
    (h : (CreateSparse self env bufSize c).1 = some true)
    (hN : nonZeroBefore env.source (totalGrains c) = 0) (hsg : env.wresSetGT = true) :
    (CreateSparse self env bufSize c).2.writer.size = gtOffset c + 4 * totalGrains c := by
  obtain ⟨hc, h1, hlen, h2, h3, h4, h5, h6, h7, h8⟩ :=
    (CreateSparse_true_iff self env bufSize c).mp h
  have ht := totalGrains_eq c h64
  have hn := numGT_eq c h64
  have hg := gtOffset_eq c h64
  have hu : u64 (totalGrains c * 4) = totalGrains c * 4 := Nat.mod_eq_of_lt (by omega)
  have hu2 : u64 (numGT c * 4) = numGT c * 4 := Nat.mod_eq_of_lt (by omega)
  have hp := preLoop_size_le self env c hlen
  rw [final_size self env bufSize c h, hN, hu, if_pos ⟨hsg, h8 hsg, by omega⟩, if_pos rfl]
  rw [hu2] at hp
  omega

/-- C14 as stated fails: for capacitySectors = 1024 and a source of zero bytes the run
returns true and the file is 1568 bytes long (it ends with the grain-table array), while
dataOffset + 65536 * (number of non-zero grains) is 65536. -/
theorem file_size_counterexample :
    (CreateSparse img (okEnv allZeros) 65536 1024).1 = some true ∧
    (CreateSparse img (okEnv allZeros) 65536 1024).2.writer.size = 1568 ∧
    dataOffset 1024 + 65536 * nonZeroBefore (okEnv allZeros).source (totalGrains 1024)
      = 65536 := by
  have hrun := allZeros_run 65536
  have hs : (okEnv allZeros).source = allZeros := rfl
  have hN : nonZeroBefore (okEnv allZeros).source (totalGrains 1024) = 0 := by
    rw [hs, allZeros_count]
  refine ⟨hrun, ?_, ?_⟩
  · rw [final_size_allZero img (okEnv allZeros) 65536 1024 (by norm_num) hrun hN rfl]
    decide
  · rw [hN]
    decide

/-- C14, amended: for every capacitySectors > 0 whose layout fits the 32-bit dataOffset
(gtOffset + 4 * totalGrains ≤ 2^32 - 65536) and every source, after a run that returns
true the length of the produced file is dataOffset + 65536 * (number of source grains that
are not all-zero) when at least one grain is not all-zero; when every grain is all-zero
and the seek to the grain tables succeeded, it is gtOffset + 4 * totalGrains, the end of
the grain-table array. -/
theorem file_size (self : SparseVMDK) (env : Env) (bufSize capacitySectors : Nat)
    (hpos : 0 < capacitySectors) (h64 : capacitySectors < 2 ^ 64)
    (hlayout : dataEnd capacitySectors ≤ 2 ^ 32 - 65536)
    (hrun : (CreateSparse self env bufSize capacitySectors).1 = some true) :
    (0 < nonZeroBefore env.source (totalGrains capacitySectors) →
      (CreateSparse self env bufSize capacitySectors).2.writer.size =
        dataOffset capacitySectors +
          65536 * nonZeroBefore env.source (totalGrains capacitySectors)) ∧
    (nonZeroBefore env.source (totalGrains capacitySectors) = 0 → env.wresSetGT = true →
      (CreateSparse self env bufSize capacitySectors).2.writer.size =
        gtOffset capacitySectors + 4 * totalGrains capacitySectors) := by
  have h64a : capacitySectors < 18446744073709551616 := by simpa using h64
  have hl : dataEnd capacitySectors ≤ 4294967296 - 65536 := by simpa using hlayout
  obtain ⟨hc, h1, hlen, h2, h3, h4, h5, h6, h7, h8⟩ :=
    (CreateSparse_true_iff self env bufSize capacitySectors).mp hrun
  have ht := totalGrains_eq capacitySectors h64a
  have hn := numGT_eq capacitySectors h64a
  have hg := gtOffset_eq capacitySectors h64a
  have hdo := dataOffset_eq capacitySectors h64a hl
  have hde : dataEnd capacitySectors = gtOffset capacitySectors +
      4 * totalGrains capacitySectors := rfl
  have hu : u64 (totalGrains capacitySectors * 4) = totalGrains capacitySectors * 4 :=
    Nat.mod_eq_of_lt (by omega)
  have hu2 : u64 (numGT capacitySectors * 4) = numGT capacitySectors * 4 :=
    Nat.mod_eq_of_lt (by omega)
  have hp := preLoop_size_le self env capacitySectors hlen
  rw [hu2] at hp
  refine ⟨fun hN => ?_, fun hN hsg =>
    final_size_allZero self env bufSize capacitySectors h64a hrun hN hsg⟩
  rw [final_size self env bufSize capacitySectors hrun, hu,
    if_neg (show ¬ nonZeroBefore env.source (totalGrains capacitySectors) = 0 by omega)]
  split <;> omega

/-- C14, amended, Scenario A: 65536 + 7 * 65536 = 524288 bytes. -/
theorem file_size_witness :
    (0 < 1024 ∧ 1024 < 2 ^ 64 ∧ dataEnd 1024 ≤ 2 ^ 32 - 65536 ∧
      (CreateSparse img (okEnv scenarioA) 65536 1024).1 = some true ∧
      0 < nonZeroBefore (okEnv scenarioA).source (totalGrains 1024)) ∧
    (CreateSparse img (okEnv scenarioA) 65536 1024).2.writer.size =
      dataOffset 1024 + 65536 * nonZeroBefore (okEnv scenarioA).source (totalGrains 1024) ∧
    dataOffset 1024 + 65536 * nonZeroBefore (okEnv scenarioA).source (totalGrains 1024)
      = 524288 := by
  have ht : totalGrains 1024 = 8 := by decide
  have hd : dataOffset 1024 = 65536 := by decide
  have hs : (okEnv scenarioA).source = scenarioA := rfl
  have hN : nonZeroBefore (okEnv scenarioA).source (totalGrains 1024) = 7 := by
    rw [hs, ht, scenarioA_count]
    decide
  have h := file_size img (okEnv scenarioA) 65536 1024 (by decide) (by decide) (by decide)
    (scenarioA_run 65536)
  exact ⟨⟨by decide, by decide, by decide, scenarioA_run 65536, by rw [hN]; decide⟩,
    h.1 (by rw [hN]; decide), by rw [hN, hd]⟩

/-! ## Operations issued by a run -/

theorem grainStep_trace (env : Env) (s0 : State) (i : Nat) (s : State)
    (hinv : LoopInv env s0 i s) (hok : (grainStep env i s).1 = true) :
    (grainStep env i s).2.trace = s.trace ++ grainEvents env s0.writer.pos i := by
  have hm := memcmp_readBuffer env i
  obtain ⟨h1, h4⟩ := (grainStep_fst env i s hinv.rpos).mp hok
  have irpos := hinv.rpos
  have ipos := hinv.pos
  unfold grainStep grainEvents
  simp only [BUFFER_SIZE_eq, irpos]
  by_cases h2 : grainIsZero env.source i
  · have h3 : ¬ (memcmp (readBuffer env (i * 65536)) (fun _ => 0) 65536 ≠ 0) := by
      rw [hm]; exact not_not.mpr h2
    simp only [h1, Bool.not_true, Bool.false_eq_true, if_false]
    rw [if_neg h3, if_pos h2]
    simp only [State.Read, if_true, irpos]
  · have h3 : memcmp (readBuffer env (i * 65536)) (fun _ => 0) 65536 ≠ 0 := hm.mpr h2
    have h5 := h4 h2
    simp only [h1, Bool.not_true, Bool.false_eq_true, if_false]
    rw [if_pos h3, if_neg h2]
    simp only [h5, Bool.not_true, Bool.false_eq_true, if_false, State.Read, if_true,
      State.Write, irpos, ipos, List.append_assoc, List.singleton_append]

theorem grainLoop_trace (env : Env) (s0 : State) (count i : Nat) (s : State)
    (hinv : LoopInv env s0 i s) (hok : (grainLoop env count i s).1 = true) :
    (grainLoop env count i s).2.trace =
      s.trace ++ (List.range' i count).flatMap (grainEvents env s0.writer.pos) := by
  induction count generalizing i s with
  | zero => simp [grainLoop]
  | succ n ih =>
    have hstep := grainStep_inv env s0 i s hinv
    have htr := grainStep_trace env s0 i s hinv
    simp only [grainLoop] at hok ⊢
    rcases hgs : grainStep env i s with ⟨b, s1⟩
    rw [hgs] at hstep htr hok
    cases b with
    | false => simp at hok
    | true =>
      simp only at hok ⊢
      rw [ih (i + 1) s1 (hstep rfl) hok, htr rfl, List.range'_succ, List.flatMap_cons,
        List.append_assoc]

theorem writeGT_trace (env : Env) (c : Nat) (s : State) :
    (writeGT env c s).trace = s.trace ++ gtEvents env c := by
  unfold writeGT gtEvents
  cases h1 : env.wresSetGT
  · simp [State.SetFilePointer]
  · simp [State.SetFilePointer, State.Write, Writer.SetFilePointer]

theorem preLoop_trace (self : SparseVMDK) (env : Env) (c : Nat) :
    (preLoop self env c).trace = (headerState self env c).trace ++ gdEvents env c := by
  rw [preLoop_eq]
  generalize headerState self env c = s4
  unfold seekData writeGD gdEvents
  cases h1 : env.wresSetGD
  · simp [State.SetFilePointer, State.OpenDisk, gdOffset_eq]
  · simp [State.SetFilePointer, State.OpenDisk, State.Write, Writer.SetFilePointer, gdOffset_eq]

/-- Operations issued by a successful run, in program order. -/
theorem final_trace (self : SparseVMDK) (env : Env) (bufSize c : Nat)
    (h : (CreateSparse self env bufSize c).1 = some true) :
    (CreateSparse self env bufSize c).2.trace =
      (headerState self env c).trace ++ gdEvents env c ++
      (List.range (totalGrains c)).flatMap (grainEvents env (dataOffset c)) ++
      gtEvents env c := by
  obtain ⟨hc, h1, hlen, h2, h3, h4, h5, h6, h7, h8⟩ :=
    (CreateSparse_true_iff self env bufSize c).mp h
  obtain ⟨p1, p2, -, -, p5, -⟩ := preLoop_facts self env c hlen h4 h5
  have hinit := LoopInv_init env (preLoop self env c) p1 (by rw [p2]; unfold u32; omega)
  have ht := grainLoop_trace env (preLoop self env c) (totalGrains c) 0 _ hinit h7
  rw [p5, preLoop_trace] at ht
  rw [CreateSparse_state self env bufSize c h, finalState_eq, writeGT_trace]
  unfold loopState
  rw [ht, List.range_eq_range']

/-! ## All-zero source -/

theorem nonZeroBefore_eq_zero (source : Nat → Nat) (n : Nat)
    (h : ∀ i, i < n → grainIsZero source i) : nonZeroBefore source n = 0 := by
  induction n with
  | zero => simp [nonZeroBefore]
  | succ n ih =>
    rw [nonZeroBefore_succ, if_pos (h n (by omega)), ih (fun i hi => h i (by omega))]

theorem grainEvents_allZero (env : Env) (D n : Nat)
    (h : ∀ i, i < n → grainIsZero env.source i) :
    (List.range n).flatMap (grainEvents env D) =
      (List.range n).map (fun j => Event.read (j * 65536) 65536 true) := by
  induction n with
  | zero => rfl
  | succ n ih =>
    rw [List.range_succ, List.flatMap_append, List.map_append,
      ih (fun i hi => h i (by omega)), List.flatMap_singleton, List.map_singleton]
    unfold grainEvents
    rw [if_pos (h n (by omega))]

/-- What an all-zero source gives when the layout fits the 32-bit dataOffset: besides the
header, descriptor, grain-directory and grain-table operations the run only reads, every
grain-table entry is 0, and the file ends at or before dataOffset. -/
theorem allZero_in_bounds (self : SparseVMDK) (env : Env) (bufSize c : Nat)
    (h64 : c < 18446744073709551616) (hl : dataEnd c ≤ 4294967296 - 65536)
    (h : (CreateSparse self env bufSize c).1 = some true)
    (hz : ∀ i, i < totalGrains c → grainIsZero env.source i) :
    (CreateSparse self env bufSize c).2.trace =
      (headerState self env c).trace ++ gdEvents env c ++
      (List.range (totalGrains c)).map (fun j => Event.read (j * 65536) 65536 true) ++
      gtEvents env c ∧
    (∀ i, i < totalGrains c → (CreateSparse self env bufSize c).2.GTEs i = 0) ∧
    (CreateSparse self env bufSize c).2.writer.size ≤ dataOffset c := by
  obtain ⟨hc, h1, hlen, h2, h3, h4, h5, h6, h7, h8⟩ :=
    (CreateSparse_true_iff self env bufSize c).mp h
  have ht := totalGrains_eq c h64
  have hn := numGT_eq c h64
  have hg := gtOffset_eq c h64
  have hdo := dataOffset_eq c h64 hl
  have hde : dataEnd c = gtOffset c + 4 * totalGrains c := rfl
  have hu : u64 (totalGrains c * 4) = totalGrains c * 4 := Nat.mod_eq_of_lt (by omega)
  have hu2 : u64 (numGT c * 4) = numGT c * 4 := Nat.mod_eq_of_lt (by omega)
  have hp := preLoop_size_le self env c hlen
  rw [hu2] at hp
  have hN := nonZeroBefore_eq_zero env.source (totalGrains c) hz
  refine ⟨?_, fun i hi => ?_, ?_⟩
  · rw [final_trace self env bufSize c h, grainEvents_allZero env _ _ hz]
  · rw [GTEs_formula self env bufSize c h i, if_pos hi, if_pos (hz i hi)]
  · rw [final_size self env bufSize c h, hN, hu, if_pos rfl]
    split <;> omega

theorem allZeros_run37 (bufSize : Nat) :
    (CreateSparse img (okEnv allZeros) bufSize 137438953472).1 = some true :=
  okEnv_run allZeros bufSize 137438953472 (by decide) (by rw [mkDescriptor_length]; decide)

/-- C15, at capacitySectors = 2^37 with a source of zero bytes: the run returns true, every
grain is all-zero and every grain-table entry is 0, but the grain-table write covers the
bytes 8389632 .. 4303356927, so bytes are written at and beyond dataOffset = 8454144 and
the file is 4303356928 bytes long. -/
theorem allZero_truncated :
    (CreateSparse img (okEnv allZeros) 65536 137438953472).1 = some true ∧
    (∀ i, grainIsZero (okEnv allZeros).source i) ∧
    (∀ i, i < totalGrains 137438953472 →
      (CreateSparse img (okEnv allZeros) 65536 137438953472).2.GTEs i = 0) ∧
    dataOffset 137438953472 = 8454144 ∧
    Event.write 8389632 4294967296 true ∈
      (CreateSparse img (okEnv allZeros) 65536 137438953472).2.trace ∧
    (CreateSparse img (okEnv allZeros) 65536 137438953472).2.writer.size = 4303356928 := by
  have hrun := allZeros_run37 65536
  have hs : (okEnv allZeros).source = allZeros := rfl
  have hz : ∀ i, grainIsZero (okEnv allZeros).source i := allZeros_zero
  have ht : totalGrains 137438953472 = 1073741824 := by decide
  have hg : gtOffset 137438953472 = 8389632 := by decide
  have hd : dataOffset 137438953472 = 8454144 := by decide
  have hN : nonZeroBefore (okEnv allZeros).source (totalGrains 137438953472) = 0 := by
    rw [hs, allZeros_count]
  have hu : u64 (totalGrains 137438953472 * 4) = 4294967296 := by rw [ht]; norm_num [u64]
  refine ⟨hrun, hz, fun i hi => ?_, hd, ?_, ?_⟩
  · rw [GTEs_formula img (okEnv allZeros) 65536 137438953472 hrun i, if_pos hi,
      if_pos (hz i)]
  · have hm : Event.write 8389632 4294967296 true ∈ gtEvents (okEnv allZeros) 137438953472 := by
      unfold gtEvents
      rw [hg, hu]
      simp [okEnv]
    rw [final_trace img (okEnv allZeros) 65536 137438953472 hrun]
    exact List.mem_append_right _ hm
  · rw [final_size_allZero img (okEnv allZeros) 65536 137438953472 (by norm_num) hrun hN rfl,
      hg, ht]

/-! ## Last grain table -/

theorem allOnes_run2048000 (bufSize : Nat) :
    (CreateSparse img (okEnv allOnes) bufSize 2048000).1 = some true :=
  okEnv_run allOnes bufSize 2048000 (by decide) (by rw [mkDescriptor_length]; decide)

/-- C16, at capacitySectors = 2048000 with a source without zero bytes: totalGrains = 16000
is not a multiple of 512, the last of the 32 grain tables starts at GDEs[31] * 512 = 65024
and its 2048 bytes reach beyond dataOffset = 65536, so its entry with in-table index
128 = totalGrains mod 512 is the first four bytes of the first grain, 0xFFFFFFFF, not 0. -/
theorem lastGT_overlaps_data :
    (CreateSparse img (okEnv allOnes) 65536 2048000).1 = some true ∧
    totalGrains 2048000 = 16000 ∧ totalGrains 2048000 % 512 = 128 ∧ numGT 2048000 = 32 ∧
    (CreateSparse img (okEnv allOnes) 65536 2048000).2.GDEs (numGT 2048000 - 1) * 512 = 65024 ∧
    dataOffset 2048000 = 65536 ∧
    readU32 (CreateSparse img (okEnv allOnes) 65536 2048000).2.writer.bytes
      (65024 + 4 * 128) = 4294967295 := by
  have hrun := allOnes_run2048000 65536
  have hs : (okEnv allOnes).source = allOnes := rfl
  have ht : totalGrains 2048000 = 16000 := by decide
  have hn : numGT 2048000 = 32 := by decide
  have hg : gtOffset 2048000 = 1536 := by decide
  have hd : dataOffset 2048000 = 65536 := by decide
  have hu : u64 (totalGrains 2048000 * 4) = 64000 := by rw [ht]; norm_num [u64]
  have hz : ¬ grainIsZero (okEnv allOnes).source 0 := allOnes_nonzero 0
  have h0 : nonZeroBefore (okEnv allOnes).source 0 = 0 := by rw [hs, allOnes_count]
  have hb : ∀ m, m < 65536 →
      (CreateSparse img (okEnv allOnes) 65536 2048000).2.writer.bytes (65536 + m) = 255 := by
    intro m hm
    have hl := loop_bytes_data img (okEnv allOnes) 65536 2048000 hrun 0 m (by omega) hz hm
    rw [hd, h0] at hl
    rw [final_bytes img (okEnv allOnes) 65536 2048000 hrun, hg, hu, if_neg (by omega)]
    rw [show 65536 + 65536 * 0 + m = 65536 + m by omega] at hl
    rw [hl]
    rfl
  refine ⟨hrun, ht, by rw [ht], hn, ?_, hd, ?_⟩
  · rw [GDEs_formula img (okEnv allOnes) 65536 2048000 hrun, if_pos (by omega), hn, hg]
    norm_num [u32]
  · unfold readU32
    rw [show 65024 + 4 * 128 = 65536 + 0 by norm_num,
      show 65536 + 0 + 1 = 65536 + 1 by norm_num, show 65536 + 0 + 2 = 65536 + 2 by norm_num,
      show 65536 + 0 + 3 = 65536 + 3 by norm_num,
      hb 0 (by omega), hb 1 (by omega), hb 2 (by omega), hb 3 (by omega)]

/-- Bytes between the end of the grain-table array and dataOffset are zero in the file of
a successful run whose layout fits the 32-bit dataOffset. -/
theorem GT_padding_zero (self : SparseVMDK) (env : Env) (bufSize c : Nat)
    (h64 : c < 18446744073709551616) (hl : dataEnd c ≤ 4294967296 - 65536)
    (h : (CreateSparse self env bufSize c).1 = some true) (k : Nat)
    (hk1 : gtOffset c + 4 * totalGrains c ≤ k) (hk2 : k < dataOffset c) :
    (CreateSparse self env bufSize c).2.writer.bytes k = 0 := by
  obtain ⟨hc, h1, hlen, h2, h3, h4, h5, h6, h7, h8⟩ :=
    (CreateSparse_true_iff self env bufSize c).mp h
  obtain ⟨-, -, -, -, -, p6⟩ := preLoop_facts self env c hlen h4 h5
  have ht := totalGrains_eq c h64
  have hn := numGT_eq c h64
  have hg := gtOffset_eq c h64
  have hu : u64 (totalGrains c * 4) = totalGrains c * 4 := Nat.mod_eq_of_lt (by omega)
  have hu2 : u64 (numGT c * 4) = numGT c * 4 := Nat.mod_eq_of_lt (by omega)
  rw [final_bytes self env bufSize c h, hu, if_neg (by omega),
    loop_bytes_low self env bufSize c h k hk2, p6 k (by omega), hu2, if_neg (by omega)]

/-! ## Last partial grain -/

theorem reads_grainEvents (env : Env) (D n : Nat) :
    ((List.range n).flatMap (grainEvents env D)).filter Event.isRead =
      (List.range n).map (fun j => Event.read (j * 65536) 65536 true) := by
  induction n with
  | zero => rfl
  | succ n ih =>
    rw [List.range_succ, List.flatMap_append, List.filter_append, List.map_append, ih,
      List.flatMap_singleton, List.map_singleton]
    unfold grainEvents
    split <;> rfl

theorem reads_gdEvents (env : Env) (c : Nat) : (gdEvents env c).filter Event.isRead = [] := by
  unfold gdEvents
  cases env.wresSetGD <;> rfl

theorem reads_gtEvents (env : Env) (c : Nat) : (gtEvents env c).filter Event.isRead = [] := by
  unfold gtEvents
  cases env.wresSetGT <;> rfl

/-- Reads of a successful run: one per grain, 65536 bytes each, in source order. -/
theorem final_reads (self : SparseVMDK) (env : Env) (bufSize c : Nat)
    (h : (CreateSparse self env bufSize c).1 = some true) :
    (CreateSparse self env bufSize c).2.trace.filter Event.isRead =
      (List.range (totalGrains c)).map (fun j => Event.read (j * 65536) 65536 true) := by
  obtain ⟨hc, h1, hlen, h2, h3, h4, h5, h6, h7, h8⟩ :=
    (CreateSparse_true_iff self env bufSize c).mp h
  rw [final_trace self env bufSize c h, List.filter_append, List.filter_append,
    List.filter_append, reads_grainEvents, reads_gdEvents, reads_gtEvents,
    headerState_trace self env c h2 h3]
  have e : List.filter Event.isRead
      [Event.openFile env.openFile, Event.write 0 512 true,
        Event.write 512 (descriptorOf self env c).length true,
        Event.write (512 + (descriptorOf self env c).length)
          (512 - (descriptorOf self env c).length) env.wresPadding] = [] := rfl
  rw [e, List.append_nil, List.append_nil, List.nil_append]

/-- Where a grain that is not all-zero is stored when nothing overflows. -/
theorem nonzero_grain_stored (self : SparseVMDK) (env : Env) (bufSize c : Nat)
    (h64 : c < 18446744073709551616) (hl : dataEnd c ≤ 4294967296 - 65536)
    (hda : dataOffset c / 512 + 128 * nonZeroBefore env.source (totalGrains c) ≤ 4294967296)
    (h : (CreateSparse self env bufSize c).1 = some true)
    (i : Nat) (hi : i < totalGrains c) (hz : ¬ grainIsZero env.source i) :
    (CreateSparse self env bufSize c).2.GTEs i ≠ 0 ∧
    fileSlice (CreateSparse self env bufSize c).2.writer.bytes
      ((CreateSparse self env bufSize c).2.GTEs i * 512) 65536 = grainBytes env.source i := by
  have ht := totalGrains_eq c h64
  have hdo := dataOffset_eq c h64 hl
  have hm := dataOffset_mod c
  have hg := gtOffset_eq c h64
  have hde : dataEnd c = gtOffset c + 4 * totalGrains c := rfl
  have hu : u64 (totalGrains c * 4) = totalGrains c * 4 := Nat.mod_eq_of_lt (by omega)
  have hlt := nonZeroBefore_lt env.source hi hz
  have hf := GTEs_formula self env bufSize c h i
  rw [if_pos hi, if_neg hz, u32_of_lt (by omega)] at hf
  rw [hf]
  refine ⟨by omega, ?_⟩
  apply fileSlice_grain
  intro m hm
  rw [show (dataOffset c / 512 + 128 * nonZeroBefore env.source i) * 512 + m
      = dataOffset c + 65536 * nonZeroBefore env.source i + m by omega,
    final_bytes self env bufSize c h, hu, if_neg (by omega),
    loop_bytes_data self env bufSize c h i m hi hz hm]

theorem allOnes_run_last (bufSize : Nat) :
    (CreateSparse img (okEnv allOnes) bufSize 4294704767).1 = some true :=
  okEnv_run allOnes bufSize 4294704767 (by decide) (by rw [mkDescriptor_length]; decide)

/-- C17 as stated fails: capacitySectors = 4294704767 is not a multiple of 128, the source
has no zero byte, every call succeeds and the last buffer (grain 33552380) is written, yet
GTEs[totalGrains - 1] = 0, because the 32-bit curGTEvalue has wrapped around. -/
theorem last_partial_grain_counterexample :
    4294704767 % 128 ≠ 0 ∧
    (CreateSparse img (okEnv allOnes) 65536 4294704767).1 = some true ∧
    totalGrains 4294704767 = 33552381 ∧
    ¬ grainIsZero (okEnv allOnes).source (totalGrains 4294704767 - 1) ∧
    (CreateSparse img (okEnv allOnes) 65536 4294704767).2.GTEs
      (totalGrains 4294704767 - 1) = 0 := by
  have hrun := allOnes_run_last 65536
  have ht : totalGrains 4294704767 = 33552381 := by decide
  have hd : dataOffset 4294704767 = 134479872 := by decide
  have hs : (okEnv allOnes).source = allOnes := rfl
  have hz : ¬ grainIsZero (okEnv allOnes).source (totalGrains 4294704767 - 1) :=
    allOnes_nonzero _
  refine ⟨by decide, hrun, ht, hz, ?_⟩
  rw [GTEs_formula img (okEnv allOnes) 65536 4294704767 hrun, if_pos (by omega), if_neg hz,
    hs, allOnes_count, hd, ht]
  norm_num [u32]

/-- C17, amended: for every capacitySectors > 0 that is not a multiple of 128, whose layout
fits the 32-bit dataOffset (gtOffset + 4 * totalGrains ≤ 2^32 - 65536) and whose non-zero
grains fit below sector 2^32 (dataOffset/512 + 128 * number of non-zero grains ≤ 2^32), a
run that returns true performs exactly totalGrains reads of 65536 bytes each, the last one
reaching beyond capacitySectors * 512, and if any byte of the last buffer is non-zero, be
it at or beyond capacitySectors * 512, the full 65536-byte buffer is in the file at
GTEs[totalGrains - 1] * 512 and GTEs[totalGrains - 1] ≠ 0. -/
theorem last_partial_grain (self : SparseVMDK) (env : Env) (bufSize capacitySectors : Nat)
    (hpos : 0 < capacitySectors) (h64 : capacitySectors < 2 ^ 64)
    (hmod : capacitySectors % 128 ≠ 0)
    (hlayout : dataEnd capacitySectors ≤ 2 ^ 32 - 65536)
    (hdata : dataOffset capacitySectors / 512 +
      128 * nonZeroBefore env.source (totalGrains capacitySectors) ≤ 2 ^ 32)
    (hrun : (CreateSparse self env bufSize capacitySectors).1 = some true) :
    (CreateSparse self env bufSize capacitySectors).2.trace.filter Event.isRead =
      (List.range (totalGrains capacitySectors)).map
        (fun j => Event.read (j * 65536) 65536 true) ∧
    (totalGrains capacitySectors - 1) * 65536 < capacitySectors * 512 ∧
    capacitySectors * 512 < (totalGrains capacitySectors - 1) * 65536 + 65536 ∧
    ∀ m, m < 65536 →
      env.source ((totalGrains capacitySectors - 1) * 65536 + m) ≠ 0 →
      (CreateSparse self env bufSize capacitySectors).2.GTEs
        (totalGrains capacitySectors - 1) ≠ 0 ∧
      fileSlice (CreateSparse self env bufSize capacitySectors).2.writer.bytes
        ((CreateSparse self env bufSize capacitySectors).2.GTEs
          (totalGrains capacitySectors - 1) * 512) 65536 =
        grainBytes env.source (totalGrains capacitySectors - 1) := by
  have h64a : capacitySectors < 18446744073709551616 := by simpa using h64
  have hl : dataEnd capacitySectors ≤ 4294967296 - 65536 := by simpa using hlayout
  have hda : dataOffset capacitySectors / 512 +
      128 * nonZeroBefore env.source (totalGrains capacitySectors) ≤ 4294967296 := by
    simpa using hdata
  have ht := totalGrains_eq capacitySectors h64a
  refine ⟨final_reads self env bufSize capacitySectors hrun, by omega, by omega,
    fun m hm hne => ?_⟩
  exact nonzero_grain_stored self env bufSize capacitySectors h64a hl hda hrun _ (by omega)
    (fun hz => hne (hz m hm))

theorem leak_run (bufSize : Nat) : (CreateSparse img (okEnv leakSource) bufSize 1).1 = some true :=
  okEnv_run leakSource bufSize 1 (by decide) (by rw [mkDescriptor_length]; decide)

/-- C17, amended, on a source of one sector: the 512 bytes within the capacity are zero,
the byte at offset 600 is not, and the grain is stored with a non-zero entry. -/
theorem last_partial_grain_witness :
    (0 < 1 ∧ 1 < 2 ^ 64 ∧ 1 % 128 ≠ 0 ∧ dataEnd 1 ≤ 2 ^ 32 - 65536 ∧
      dataOffset 1 / 512 + 128 * nonZeroBefore (okEnv leakSource).source (totalGrains 1)
        ≤ 2 ^ 32 ∧
      (CreateSparse img (okEnv leakSource) 65536 1).1 = some true) ∧
    (∀ x, x < 1 * 512 → (okEnv leakSource).source x = 0) ∧
    (okEnv leakSource).source ((totalGrains 1 - 1) * 65536 + 600) ≠ 0 ∧
    (CreateSparse img (okEnv leakSource) 65536 1).2.trace.filter Event.isRead =
      (List.range (totalGrains 1)).map (fun j => Event.read (j * 65536) 65536 true) ∧
    (CreateSparse img (okEnv leakSource) 65536 1).2.GTEs (totalGrains 1 - 1) ≠ 0 := by
  have ht : totalGrains 1 = 1 := by decide
  have hd : dataOffset 1 = 65536 := by decide
  have hfit : dataOffset 1 / 512 +
      128 * nonZeroBefore (okEnv leakSource).source (totalGrains 1) ≤ 2 ^ 32 := by
    have hle := nonZeroBefore_le (okEnv leakSource).source (totalGrains 1)
    rw [ht] at hle ⊢
    rw [hd]
    norm_num
    omega
  have hne : (okEnv leakSource).source ((totalGrains 1 - 1) * 65536 + 600) ≠ 0 := by
    rw [ht]
    decide
  have h := last_partial_grain img (okEnv leakSource) 65536 1 (by decide) (by decide)
    (by decide) (by decide) hfit (leak_run 65536)
  refine ⟨⟨by decide, by decide, by decide, by decide, hfit, leak_run 65536⟩, ?_, hne, h.1,
    (h.2.2.2 600 (by decide) hne).1⟩
  intro x hx
  show (if x = 600 then 1 else 0) = 0
  rw [if_neg (by omega)]

/-! ## Parameter rejection -/

/-- C18: for every buffer size, output directory, output name and source, CreateSparse with
capacitySectors = 0 returns false without issuing any operation: the output file is not
opened or created, the source is not opened, nothing is written. -/
theorem capacity_zero_rejected (self : SparseVMDK) (env : Env) (bufSize : Nat) :
    (CreateSparse self env bufSize 0).1 = some false ∧
    (CreateSparse self env bufSize 0).2.trace = [] ∧
    (CreateSparse self env bufSize 0).2 = State.init :=
  ⟨rfl, rfl, rfl⟩

/-! ## Resume records -/

theorem NoResumeRecord_snoc (tr : List Event) (x : Event) (h : NoResumeRecord tr)
    (hx : Event.isResumeRecord x = false) : NoResumeRecord (tr ++ [x]) := by
  intro e he
  rcases List.mem_append.mp he with h1 | h1
  · exact h e h1
  · rw [List.mem_singleton.mp h1]
    exact hx

theorem NoResumeRecord_Write (s : State) (ok : Bool) (buf : Nat → Nat) (n : Nat)
    (h : NoResumeRecord s.trace) : NoResumeRecord (s.Write ok buf n).trace :=
  NoResumeRecord_snoc _ _ h rfl

theorem NoResumeRecord_SetFilePointer (s : State) (ok : Bool) (d : Nat)
    (h : NoResumeRecord s.trace) : NoResumeRecord (s.SetFilePointer ok d).trace :=
  NoResumeRecord_snoc _ _ h rfl

theorem NoResumeRecord_OpenDisk (s : State) (ok : Bool)
    (h : NoResumeRecord s.trace) : NoResumeRecord (s.OpenDisk ok).trace :=
  NoResumeRecord_snoc _ _ h rfl

theorem NoResumeRecord_Read (s : State) (ok : Bool) (n : Nat)
    (h : NoResumeRecord s.trace) : NoResumeRecord (s.Read ok n).trace :=
  NoResumeRecord_snoc _ _ h rfl

theorem NoResumeRecord_OpenFile (s : State) (ok : Bool)
    (h : NoResumeRecord s.trace) : NoResumeRecord (s.OpenFile ok).trace :=
  NoResumeRecord_snoc _ _ h rfl

theorem NoResumeRecord_grainStep (env : Env) (i : Nat) (s : State)
    (h : NoResumeRecord s.trace) : NoResumeRecord (grainStep env i s).2.trace := by
  have hr := NoResumeRecord_Read s (env.rres i) BUFFER_SIZE h
  have hw := NoResumeRecord_Write (s.Read (env.rres i) BUFFER_SIZE) (env.wresData i)
    (readBuffer env s.rpos) BUFFER_SIZE hr
  unfold grainStep
  simp only []
  split
  · exact hr
  · split
    · split
      · exact hw
      · exact hw
    · exact hr

theorem NoResumeRecord_grainLoop (env : Env) (count i : Nat) (s : State)
    (h : NoResumeRecord s.trace) : NoResumeRecord (grainLoop env count i s).2.trace := by
  induction count generalizing i s with
  | zero => exact h
  | succ n ih =>
    have hs := NoResumeRecord_grainStep env i s h
    simp only [grainLoop]
    rcases hgs : grainStep env i s with ⟨b, s1⟩
    rw [hgs] at hs
    cases b with
    | false => exact hs
    | true => exact ih (i + 1) s1 hs

theorem NoResumeRecord_writeGD (env : Env) (c : Nat) (s : State)
    (h : NoResumeRecord s.trace) : NoResumeRecord (writeGD env c s).trace := by
  unfold writeGD
  simp only []
  split
  · exact NoResumeRecord_Write _ _ _ _ (NoResumeRecord_SetFilePointer _ _ _ h)
  · exact NoResumeRecord_SetFilePointer _ _ _ h

theorem NoResumeRecord_writeGT (env : Env) (c : Nat) (s : State)
    (h : NoResumeRecord s.trace) : NoResumeRecord (writeGT env c s).trace := by
  unfold writeGT
  simp only []
  split
  · exact NoResumeRecord_Write _ _ _ _ (NoResumeRecord_SetFilePointer _ _ _ h)
  · exact NoResumeRecord_SetFilePointer _ _ _ h

theorem NoResumeRecord_seekData (env : Env) (c : Nat) (s : State)
    (h : NoResumeRecord s.trace) : NoResumeRecord (seekData env c s).trace :=
  NoResumeRecord_SetFilePointer _ _ _ h

/-- No run of `CreateSparse` writes a resume record. -/
theorem NoResumeRecord_run (self : SparseVMDK) (env : Env) (bufSize c : Nat) :
    NoResumeRecord (CreateSparse self env bufSize c).2.trace := by
  have n0 : NoResumeRecord State.init.trace := fun e he => by cases he
  have n1 := NoResumeRecord_OpenFile State.init env.openFile n0
  have n3 : NoResumeRecord (writeHeaderDescriptor env (mkHeader c) (descriptorOf self env c)
      (State.init.OpenFile env.openFile)).trace :=
    NoResumeRecord_Write _ _ _ _ (NoResumeRecord_Write _ _ _ _ n1)
  have n4 : NoResumeRecord (headerState self env c).trace := NoResumeRecord_Write _ _ _ _ n3
  have n7 := NoResumeRecord_writeGD env c _ n4
  have n9 := NoResumeRecord_seekData env c _ n7
  have n10 := NoResumeRecord_OpenDisk _ env.openDisk n9
  have n11 := NoResumeRecord_grainLoop env (totalGrains c) 0 _ n10
  have n13 := NoResumeRecord_writeGT env c _ n11
  unfold headerState at n4 n7 n9 n10 n11 n13
  unfold CreateSparse
  simp only []
  split
  · exact n0
  split
  swap
  · exact n1
  split
  · exact n3
  split
  · exact n4
  split
  · exact n7
  split
  · exact n9
  split
  · exact n10
  split
  · rename_i heq
    rw [heq] at n11
    exact n11
  · rename_i heq
    rw [heq] at n13
    split <;> exact n13

/-- A run that reaches the grain loop and in which a grain read or the write of a grain
that is not all-zero fails returns false. -/
theorem grain_failure_returns_false (self : SparseVMDK) (env : Env) (bufSize c : Nat)
    (hlen : (descriptorOf self env c).length ≤ 512)
    (h4 : env.wresSetGD = true → env.wresGD = true) (h5 : env.wresSetData = true)
    (i : Nat) (hi : i < totalGrains c)
    (hfail : env.rres i = false ∨ (¬ grainIsZero env.source i ∧ env.wresData i = false)) :
    (CreateSparse self env bufSize c).1 = some false := by
  obtain ⟨p1, p2, -⟩ := preLoop_facts self env c hlen h4 h5
  have hinit := LoopInv_init env (preLoop self env c) p1 (by rw [p2]; unfold u32; omega)
  have hloop := (grainLoop_spec env (preLoop self env c) (totalGrains c) 0 _ hinit).1
  have hnt : (CreateSparse self env bufSize c).1 ≠ some true := by
    intro ht
    have h7 := ((CreateSparse_true_iff self env bufSize c).mp ht).2.2.2.2.2.2.2.2.1
    obtain ⟨r1, r2⟩ := hloop.mp h7 i (by omega) (by omega)
    rcases hfail with hf | ⟨hz, hf⟩
    · rw [hf] at r1
      exact absurd r1 (by simp)
    · have := r2 hz
      rw [hf] at this
      exact absurd this (by simp)
  have hnn : (CreateSparse self env bufSize c).1 ≠ none := by
    intro hn
    have := ((CreateSparse_none_iff self env bufSize c).mp hn).2.2
    omega
  rcases hr : (CreateSparse self env bufSize c).1 with _ | b
  · exact absurd hr hnn
  · cases b
    · rfl
    · exact absurd hr hnt

theorem envReadFails_descriptor : (descriptorOf img envReadFails 1024).length ≤ 512 :=
  scenarioA_descriptor

/-- C20 as stated fails: on Scenario A with the read of grain 2 failing, CreateSparse
returns false and no operation of the run writes a resume record. -/
theorem resume_record_counterexample :
    2 < totalGrains 1024 ∧ envReadFails.rres 2 = false ∧
    (CreateSparse img envReadFails 65536 1024).1 = some false ∧
    ¬ ∃ e, e ∈ (CreateSparse img envReadFails 65536 1024).2.trace ∧
      Event.isResumeRecord e = true := by
  refine ⟨by decide, rfl, ?_, ?_⟩
  · exact grain_failure_returns_false img envReadFails 65536 1024 envReadFails_descriptor
      (fun _ => rfl) rfl 2 (by decide) (Or.inl rfl)
  · rintro ⟨e, he, hr⟩
    have := NoResumeRecord_run img envReadFails 65536 1024 e he
    rw [this] at hr
    exact absurd hr (by simp)

/-- C20, amended: whenever CreateSparse fails after the data-streaming phase began (a grain
read, or the write of a grain that is not all-zero, fails at source grain index i), it
returns false without writing a resume record: no operation of the run is a call of
CreateSparseLog, so the grain index, the write position and the grain-table entries
produced so far are not kept. -/
theorem failure_without_resume_record (self : SparseVMDK) (env : Env)
    (bufSize capacitySectors : Nat) (hpos : 0 < capacitySectors)
    (hlen : (descriptorOf self env capacitySectors).length ≤ 512)
    (h4 : env.wresSetGD = true → env.wresGD = true) (h5 : env.wresSetData = true)
    (i : Nat) (hi : i < totalGrains capacitySectors)
    (hfail : env.rres i = false ∨ (¬ grainIsZero env.source i ∧ env.wresData i = false)) :
    (CreateSparse self env bufSize capacitySectors).1 = some false ∧
    NoResumeRecord (CreateSparse self env bufSize capacitySectors).2.trace :=
  ⟨grain_failure_returns_false self env bufSize capacitySectors hlen h4 h5 i hi hfail,
    NoResumeRecord_run self env bufSize capacitySectors⟩

/-- C20, amended, on Scenario A with the read of grain 2 failing. -/
theorem failure_without_resume_record_witness :
    (0 < 1024 ∧ (descriptorOf img envReadFails 1024).length ≤ 512 ∧
      (envReadFails.wresSetGD = true → envReadFails.wresGD = true) ∧
      envReadFails.wresSetData = true ∧ 2 < totalGrains 1024 ∧
      (envReadFails.rres 2 = false ∨
        (¬ grainIsZero envReadFails.source 2 ∧ envReadFails.wresData 2 = false))) ∧
    (CreateSparse img envReadFails 65536 1024).1 = some false ∧
    NoResumeRecord (CreateSparse img envReadFails 65536 1024).2.trace :=
  ⟨⟨by decide, envReadFails_descriptor, fun _ => rfl, rfl, by decide, Or.inl rfl⟩,
    failure_without_resume_record img envReadFails 65536 1024 (by decide)
      envReadFails_descriptor (fun _ => rfl) rfl 2 (by decide) (Or.inl rfl)⟩

/-! ## Failure propagation -/

theorem readU32_zero (bytes : Nat → Nat) (off : Nat)
    (h : ∀ k, off ≤ k → k < off + 4 → bytes k = 0) : readU32 bytes off = 0 := by
  unfold readU32
  rw [h off (by omega) (by omega), h (off + 1) (by omega) (by omega),
    h (off + 2) (by omega) (by omega), h (off + 3) (by omega) (by omega)]

theorem scenarioA_layout : gtOffset 1024 = 1536 ∧ dataOffset 1024 = 65536 ∧
    numGT 1024 = 1 ∧ totalGrains 1024 = 8 := by decide

theorem envGDSeekFails_descriptor : (descriptorOf img envGDSeekFails 1024).length ≤ 512 :=
  scenarioA_descriptor

theorem envGTSeekFails_descriptor : (descriptorOf img envGTSeekFails 1024).length ≤ 512 :=
  scenarioA_descriptor

/-- Scenario A with a failing seek to the grain directory: the run returns true. -/
theorem envGDSeekFails_run :
    (CreateSparse img envGDSeekFails 65536 1024).1 = some true :=
  CreateSparse_succeeds img envGDSeekFails 65536 1024 (by decide) envGDSeekFails_descriptor
    rfl rfl rfl (fun h => absurd h (by decide)) rfl rfl (fun _ _ => rfl) (fun _ _ _ => rfl)
    (fun _ => rfl)

/-- Scenario A with a failing seek to the grain tables: the run returns true. -/
theorem envGTSeekFails_run :
    (CreateSparse img envGTSeekFails 65536 1024).1 = some true :=
  CreateSparse_succeeds img envGTSeekFails 65536 1024 (by decide) envGTSeekFails_descriptor
    rfl rfl rfl (fun _ => rfl) rfl rfl (fun _ _ => rfl) (fun _ _ _ => rfl)
    (fun h => absurd h (by decide))

/-- After the failing seek to the grain directory, the first directory entry of the file
is never written. -/
theorem envGDSeekFails_bytes (k : Nat) (hk1 : 1024 ≤ k) (hk2 : k < 1024 + 4) :
    (CreateSparse img envGDSeekFails 65536 1024).2.writer.bytes k = 0 := by
  obtain ⟨hg, hd, -, -⟩ := scenarioA_layout
  obtain ⟨-, -, -, -, -, p6⟩ := preLoop_facts img envGDSeekFails 1024
    envGDSeekFails_descriptor (fun h => absurd h (by decide)) rfl
  rw [final_bytes img envGDSeekFails 65536 1024 envGDSeekFails_run, hg, if_neg (by omega),
    loop_bytes_low img envGDSeekFails 65536 1024 envGDSeekFails_run k (by omega), p6 k hk1,
    if_neg (fun h => absurd h.1 (by decide))]

/-- After the failing seek to the grain tables, the first grain-table entry of the file is
never written. -/
theorem envGTSeekFails_bytes (k : Nat) (hk1 : 1536 ≤ k) (hk2 : k < 1536 + 4) :
    (CreateSparse img envGTSeekFails 65536 1024).2.writer.bytes k = 0 := by
  obtain ⟨-, hd, hn, -⟩ := scenarioA_layout
  have hu2 : u64 (numGT 1024 * 4) = 4 := by rw [hn]; norm_num [u64]
  obtain ⟨-, -, -, -, -, q6⟩ := preLoop_facts img envGTSeekFails 1024
    envGTSeekFails_descriptor (fun _ => rfl) rfl
  rw [final_bytes img envGTSeekFails 65536 1024 envGTSeekFails_run,
    if_neg (fun h => absurd h.1 (by decide)),
    loop_bytes_low img envGTSeekFails 65536 1024 envGTSeekFails_run k (by omega),
    q6 k (by omega), hu2, if_neg (by omega)]

theorem envGDSeekFails_GDE : (CreateSparse img envGDSeekFails 65536 1024).2.GDEs 0 = 3 := by
  obtain ⟨hg, -, hn, -⟩ := scenarioA_layout
  rw [GDEs_formula img envGDSeekFails 65536 1024 envGDSeekFails_run, if_pos (by omega), hg]
  norm_num [u32]

theorem envGTSeekFails_GTE : (CreateSparse img envGTSeekFails 65536 1024).2.GTEs 0 = 128 := by
  obtain ⟨-, hd, -, ht⟩ := scenarioA_layout
  have hs : envGTSeekFails.source = scenarioA := rfl
  have hz : ¬ grainIsZero envGTSeekFails.source 0 :=
    fun h => absurd ((scenarioA_zero 0).mp h) (by decide)
  rw [GTEs_formula img envGTSeekFails 65536 1024 envGTSeekFails_run, if_pos (by omega),
    if_neg hz, hs, scenarioA_count, hd]
  norm_num [u32]

/-- C19, on Scenario A: when only the seek to the grain directory fails, CreateSparse
returns true although the grain directory is never written (the file holds 0 at byte 1024
where GDEs[0] = 3 belongs); when only the seek to the grain tables fails, it returns true
although the grain-table array is never written (the file holds 0 at byte 1536 where
GTEs[0] = 128 belongs). -/
theorem seek_failure_ignored :
    envGDSeekFails.wresSetGD = false ∧
    (CreateSparse img envGDSeekFails 65536 1024).1 = some true ∧
    (CreateSparse img envGDSeekFails 65536 1024).2.GDEs 0 = 3 ∧
    readU32 (CreateSparse img envGDSeekFails 65536 1024).2.writer.bytes 1024 = 0 ∧
    envGTSeekFails.wresSetGT = false ∧
    (CreateSparse img envGTSeekFails 65536 1024).1 = some true ∧
    (CreateSparse img envGTSeekFails 65536 1024).2.GTEs 0 = 128 ∧
    readU32 (CreateSparse img envGTSeekFails 65536 1024).2.writer.bytes 1536 = 0 :=
  ⟨rfl, envGDSeekFails_run, envGDSeekFails_GDE, readU32_zero _ 1024 envGDSeekFails_bytes,
    rfl, envGTSeekFails_run, envGTSeekFails_GTE, readU32_zero _ 1536 envGTSeekFails_bytes⟩

/-! ## CID range -/

theorem toDigitsCore_length_ge (fuel n : Nat) (ds : List Char) (k : Nat)
    (hf : n < fuel) (h : 10 ^ k ≤ n) :
    ds.length + k + 1 ≤ (Nat.toDigitsCore 10 fuel n ds).length := by
  induction fuel generalizing n ds k with
  | zero => omega
  | succ fuel ih =>
    simp only [Nat.toDigitsCore]
    have hpos : 0 < 10 ^ k := Nat.pow_pos (by omega)
    split
    · rename_i h0
      have hk : k = 0 := by
        by_contra hk
        have : 10 ^ 1 ≤ 10 ^ k := Nat.pow_le_pow_right (by omega) (by omega)
        omega
      subst hk
      simp only [List.length_cons]
      omega
    · rename_i hne
      rcases Nat.eq_zero_or_pos k with h0 | h0
      · subst h0
        have := ih (n / 10) ((n % 10).digitChar :: ds) 0 (by omega) (by simp; omega)
        simp only [List.length_cons] at this
        omega
      · obtain ⟨j, rfl⟩ : ∃ j, k = j + 1 := ⟨k - 1, by omega⟩
        have hj : 10 ^ j ≤ n / 10 := by
          rw [Nat.le_div_iff_mul_le (by omega)]
          rw [pow_succ] at h
          exact h
        have := ih (n / 10) ((n % 10).digitChar :: ds) j (by omega) hj
        simp only [List.length_cons] at this
        omega

theorem decimal_length_eq (n k : Nat) (h1 : 10 ^ k ≤ n) (h2 : n < 10 ^ (k + 1)) :
    (decimal n).length = k + 1 := by
  have hle := decimal_length_le n (k + 1) (by omega) h2
  have hge := toDigitsCore_length_ge (n + 1) n [] k (by omega) h1
  unfold decimal Nat.toDigits at hle ⊢
  rw [List.length_map] at hle ⊢
  simp only [List.length_nil] at hge
  omega

/-- C22: for every value r returned by rand(), generateRandomCID returns
10000000 + (r mod 90000000), which lies in [10000000, 99999999] and prints as exactly 8
decimal digits, in SparseVMDK and in FlatVMDK alike. -/
theorem generateRandomCID_range (r : Nat) :
    SparseVMDK.generateRandomCID r = 10000000 + r % 90000000 ∧
    FlatVMDK.generateRandomCID r = 10000000 + r % 90000000 ∧
    10000000 ≤ SparseVMDK.generateRandomCID r ∧ SparseVMDK.generateRandomCID r ≤ 99999999 ∧
    10000000 ≤ FlatVMDK.generateRandomCID r ∧ FlatVMDK.generateRandomCID r ≤ 99999999 ∧
    (decimal (SparseVMDK.generateRandomCID r)).length = 8 ∧
    (decimal (FlatVMDK.generateRandomCID r)).length = 8 := by
  have e1 : SparseVMDK.generateRandomCID r = 10000000 + r % 90000000 := by
    unfold SparseVMDK.generateRandomCID u32
    omega
  have e2 : FlatVMDK.generateRandomCID r = 10000000 + r % 90000000 := by
    unfold FlatVMDK.generateRandomCID u32
    omega
  have hl : (decimal (10000000 + r % 90000000)).length = 8 :=
    decimal_length_eq _ 7 (by norm_num) (by norm_num; omega)
  refine ⟨e1, e2, by omega, by omega, by omega, by omega, ?_, ?_⟩
  · rw [e1]; exact hl
  · rw [e2]; exact hl

/-! ## Order of the operations -/

theorem headerState_ops (self : SparseVMDK) (env : Env) (c : Nat) :
    (headerState self env c).trace = headerOps self env c := by
  unfold headerState writePadding writeHeaderDescriptor headerOps
  generalize bufOfList (mkHeader c).bytes = hb
  generalize bufOfList (descriptorOf self env c) = db
  generalize (descriptorOf self env c).length = n
  cases env.wresHeader <;> cases env.wresDesc <;>
    simp [State.Write, State.OpenFile, State.init, Writer.Write, Writer.OpenFile]

theorem grainStep_ops (env : Env) (s0 : State) (i : Nat) (s : State)
    (hinv : LoopInv env s0 i s) :
    (grainStep env i s).2.trace = s.trace ++ grainOps env s0.writer.pos i := by
  have hm := memcmp_readBuffer env i
  have irpos := hinv.rpos
  have ipos := hinv.pos
  unfold grainStep grainOps
  simp only [BUFFER_SIZE_eq, irpos]
  by_cases h1 : env.rres i = true
  · by_cases h2 : grainIsZero env.source i
    · have h3 : ¬ (memcmp (readBuffer env (i * 65536)) (fun _ => 0) 65536 ≠ 0) := by
        rw [hm]; exact not_not.mpr h2
      simp only [h1, Bool.not_true, Bool.false_eq_true, if_false]
      rw [if_neg h3, if_neg (fun h => h.2 h2)]
      simp only [State.Read, if_true, irpos, List.append_nil]
    · have h3 : memcmp (readBuffer env (i * 65536)) (fun _ => 0) 65536 ≠ 0 := hm.mpr h2
      simp only [h1, Bool.not_true, Bool.false_eq_true, if_false]
      rw [if_pos h3]
      cases h5 : env.wresData i <;>
        simp only [Bool.not_true, Bool.not_false, Bool.false_eq_true, if_false, if_true,
          State.Read, State.Write, irpos, ipos, List.append_assoc, List.singleton_append,
          h2, not_false_eq_true, and_self]
  · have h1f : env.rres i = false := by simpa using h1
    simp only [h1f, Bool.not_false, if_true, State.Read, Bool.false_eq_true, false_and,
      if_false, irpos, List.append_nil]

/-- Operations of the grain loop: those of the iterations carried out, which are all the
iterations when the loop is not left early. -/
theorem grainLoop_ops (env : Env) (s0 : State) (count i : Nat) (s : State)
    (hinv : LoopInv env s0 i s) :
    ∃ l, (grainLoop env count i s).2.trace = s.trace ++ l ∧
      l <+: (List.range' i count).flatMap (grainOps env s0.writer.pos) ∧
      ((grainLoop env count i s).1 = true →
        l = (List.range' i count).flatMap (grainOps env s0.writer.pos)) := by
  induction count generalizing i s with
  | zero => exact ⟨[], by simp [grainLoop], by simp, fun _ => by simp⟩
  | succ n ih =>
    have hstep := grainStep_inv env s0 i s hinv
    have htr := grainStep_ops env s0 i s hinv
    simp only [grainLoop]
    rcases hgs : grainStep env i s with ⟨b, s1⟩
    rw [hgs] at hstep htr
    rw [List.range'_succ, List.flatMap_cons]
    cases b with
    | false =>
      exact ⟨grainOps env s0.writer.pos i, htr, List.prefix_append _ _,
        fun h => absurd h (by simp)⟩
    | true =>
      obtain ⟨l, e1, e2, e3⟩ := ih (i + 1) s1 (hstep rfl)
      refine ⟨grainOps env s0.writer.pos i ++ l, ?_, ?_, fun h => ?_⟩
      · simp only at htr ⊢
        rw [e1, htr, List.append_assoc]
      · exact (List.prefix_append_right_inj _).mpr e2
      · simp only at h
        rw [e3 h]

theorem orderedOps_eq (self : SparseVMDK) (env : Env) (c : Nat) :
    orderedOps self env c = (preLoop self env c).trace ++
      ((List.range' 0 (totalGrains c)).flatMap (grainOps env (dataOffset c)) ++
        gtEvents env c) := by
  unfold orderedOps
  rw [preLoop_trace, headerState_ops, List.range_eq_range', List.append_assoc]

/-- Operations of a run that reaches the grain loop. -/
theorem loop_initial (self : SparseVMDK) (env : Env) (c : Nat)
    (hlen : (descriptorOf self env c).length ≤ 512)
    (h4 : env.wresSetGD = true → env.wresGD = true) (h5 : env.wresSetData = true) :
    (grainLoop env (totalGrains c) 0 (preLoop self env c)).2.trace <+: orderedOps self env c ∧
    ((grainLoop env (totalGrains c) 0 (preLoop self env c)).1 = true →
      (writeGT env c (grainLoop env (totalGrains c) 0 (preLoop self env c)).2).trace =
        orderedOps self env c) := by
  obtain ⟨p1, p2, -, -, p5, -⟩ := preLoop_facts self env c hlen h4 h5
  have hinit := LoopInv_init env (preLoop self env c) p1 (by rw [p2]; unfold u32; omega)
  obtain ⟨l, e1, e2, e3⟩ := grainLoop_ops env (preLoop self env c) (totalGrains c) 0 _ hinit
  rw [p5] at e2 e3
  rw [orderedOps_eq, e1]
  constructor
  · exact (List.prefix_append_right_inj _).mpr
      (e2.trans (List.prefix_append _ _))
  · intro h
    rw [writeGT_trace, e1, e3 h, List.append_assoc]

/-- Operations of any run: a beginning of the operations in the order of the
specification. -/
theorem trace_initial (self : SparseVMDK) (env : Env) (bufSize c : Nat) :
    (CreateSparse self env bufSize c).2.trace <+: orderedOps self env c := by
  have n0 : State.init.trace <+: orderedOps self env c := List.nil_prefix
  have n10 : (preLoop self env c).trace <+: orderedOps self env c := by
    rw [orderedOps_eq]
    exact List.prefix_append _ _
  have n9 : (seekData env c (writeGD env c (headerState self env c))).trace <+:
      orderedOps self env c := List.IsPrefix.trans ⟨_, rfl⟩ n10
  have n7 : (writeGD env c (headerState self env c)).trace <+: orderedOps self env c :=
    List.IsPrefix.trans ⟨_, rfl⟩ n9
  have n4 : (headerState self env c).trace <+: orderedOps self env c := by
    rw [orderedOps_eq, preLoop_trace, List.append_assoc]
    exact List.prefix_append _ _
  have n3 : (writeHeaderDescriptor env (mkHeader c) (descriptorOf self env c)
      (State.init.OpenFile env.openFile)).trace <+: orderedOps self env c :=
    List.IsPrefix.trans ⟨_, rfl⟩ n4
  have n1 : (State.init.OpenFile env.openFile).trace <+: orderedOps self env c :=
    List.IsPrefix.trans ⟨[_, _], rfl⟩ n3
  unfold headerState at n4 n7 n9
  unfold CreateSparse
  simp only []
  split
  · exact n0
  split
  swap
  · exact n1
  split
  · exact n3
  rename_i hlen
  split
  · exact n4
  split
  · exact n7
  rename_i h4
  split
  · exact n9
  rename_i h5
  have h4c : env.wresSetGD = true → env.wresGD = true := by
    intro hs
    cases hg : env.wresGD
    · rw [hs, hg] at h4
      exact absurd rfl h4
    · rfl
  have h5c : env.wresSetData = true := by
    cases hd : env.wresSetData
    · rw [hd] at h5
      exact absurd rfl h5
    · rfl
  obtain ⟨q1, q2⟩ := loop_initial self env c (by omega) h4c h5c
  unfold preLoop at q1 q2 n10
  split
  · exact n10
  split
  · rename_i heq
    rw [heq] at q1
    exact q1
  · rename_i heq
    rw [heq] at q2
    have := q2 rfl
    split <;> rw [this]

theorem writes_grainOps (env : Env) (D n : Nat) :
    ((List.range n).flatMap (grainOps env D)).filter Event.isWrite =
      ((List.range n).filter
        (fun j => env.rres j && decide (¬ grainIsZero env.source j))).map
      (fun j => Event.write (D + 65536 * nonZeroBefore env.source j) 65536 (env.wresData j)) := by
  induction n with
  | zero => rfl
  | succ n ih =>
    rw [List.range_succ, List.flatMap_append, List.filter_append, List.filter_append,
      List.map_append, ih, List.flatMap_singleton]
    congr 1
    unfold grainOps
    by_cases h1 : env.rres n = true
    · by_cases h2 : grainIsZero env.source n
      · simp [h1, h2, Event.isWrite]
      · simp [h1, h2, Event.isWrite]
    · have h1f : env.rres n = false := by simpa using h1
      simp [h1f, Event.isWrite]

theorem writes_orderedOps (self : SparseVMDK) (env : Env) (c : Nat) :
    (orderedOps self env c).filter Event.isWrite = orderedWrites self env c := by
  unfold orderedOps orderedWrites
  rw [List.filter_append, List.filter_append, List.filter_append, writes_grainOps]
  have e1 : (headerOps self env c).filter Event.isWrite =
      [Event.write 0 512 env.wresHeader] ++
      [Event.write (if env.wresHeader = true then 512 else 0)
        (SparseVMDK.descriptorOf self env c).length env.wresDesc,
       Event.write ((if env.wresHeader = true then 512 else 0) +
          (if env.wresDesc = true then (SparseVMDK.descriptorOf self env c).length else 0))
        (512 - (SparseVMDK.descriptorOf self env c).length) env.wresPadding] := rfl
  have e2 : (gdEvents env c).filter Event.isWrite =
      (if env.wresSetGD = true then
        [Event.write 1024 (u64 (SparseVMDK.numGT c * 4)) env.wresGD] else []) := by
    unfold gdEvents
    cases env.wresSetGD <;> rfl
  have e3 : (gtEvents env c).filter Event.isWrite =
      (if env.wresSetGT = true then
        [Event.write (SparseVMDK.gtOffset c) (u64 (SparseVMDK.totalGrains c * 4)) env.wresGT]
       else []) := by
    unfold gtEvents
    cases env.wresSetGT <;> rfl
  rw [e1, e2, e3]

/-- C21: in every run of CreateSparse the operations issued are a beginning of the
sequence: open, header write, descriptor write, padding write, seek and write of the grain
directory, seek to the data region, opening of the source, for each grain in increasing
source index its read and (when it is not all-zero) its write, seek and write of the grain
tables. So among the writes of the run the header write is the first, the grain-directory
write precedes every grain data write, the grain data writes occur in increasing
source-index order, and the grain-table write comes after the last grain data write. -/
theorem write_ordering (self : SparseVMDK) (env : Env) (bufSize capacitySectors : Nat) :
    (CreateSparse self env bufSize capacitySectors).2.trace <+:
      orderedOps self env capacitySectors ∧
    (CreateSparse self env bufSize capacitySectors).2.trace.filter Event.isWrite <+:
      orderedWrites self env capacitySectors := by
  have h := trace_initial self env bufSize capacitySectors
  refine ⟨h, ?_⟩
  rw [← writes_orderedOps]
  exact h.filter _

/-! ## Independence of the buffer size argument -/

theorem reads_grainOps (env : Env) (D n : Nat) :
    ((List.range n).flatMap (grainOps env D)).filter Event.isRead =
      (List.range n).map (fun j => Event.read (j * 65536) 65536 (env.rres j)) := by
  induction n with
  | zero => rfl
  | succ n ih =>
    rw [List.range_succ, List.flatMap_append, List.filter_append, List.map_append, ih,
      List.flatMap_singleton, List.map_singleton]
    unfold grainOps
    split <;> rfl

theorem reads_orderedOps (self : SparseVMDK) (env : Env) (c : Nat) :
    (orderedOps self env c).filter Event.isRead =
      (List.range (totalGrains c)).map (fun j => Event.read (j * 65536) 65536 (env.rres j)) := by
  unfold orderedOps
  rw [List.filter_append, List.filter_append, List.filter_append, reads_grainOps,
    reads_gdEvents, reads_gtEvents]
  have e : (headerOps self env c).filter Event.isRead = [] := rfl
  rw [e, List.append_nil, List.append_nil, List.nil_append]

/-- C28: the bufSize argument does not influence CreateSparse: two runs that differ only
in bufSize return the same result and end in the same state, that is, they issue the same
sequence of reads, seeks and writes and produce the same output file; and the reads of a
run are reads of 65536 bytes each, at the grain boundaries in increasing order. -/
theorem bufSize_irrelevant (self : SparseVMDK) (env : Env) (bufSize1 bufSize2 capacitySectors : Nat) :
    CreateSparse self env bufSize1 capacitySectors =
      CreateSparse self env bufSize2 capacitySectors ∧
    (CreateSparse self env bufSize1 capacitySectors).2.trace.filter Event.isRead <+:
      (List.range (totalGrains capacitySectors)).map
        (fun j => Event.read (j * 65536) 65536 (env.rres j)) := by
  refine ⟨rfl, ?_⟩
  rw [← reads_orderedOps self env capacitySectors]
  exact (trace_initial self env bufSize1 capacitySectors).filter _

/-! ## Grain tables and the data region -/

/-- C25, at capacitySectors = 2048000 (no 32-bit overflow in the layout): the 32 grain
tables of 2048 bytes each, which start at gtOffset = 1536, end at byte 67072, beyond
dataOffset = 65536; the last table, at GDEs[31] * 512 = 65024, ends at 67072 too. -/
theorem grainTables_overlap_data :
    dataEnd 2048000 ≤ 2 ^ 32 - 65536 ∧
    totalGrains 2048000 = 16000 ∧ numGT 2048000 = 32 ∧ gtOffset 2048000 = 1536 ∧
    dataOffset 2048000 = 65536 ∧
    gtOffset 2048000 + 2048 * numGT 2048000 = 67072 ∧
    ¬ (gtOffset 2048000 + 2048 * numGT 2048000 ≤ dataOffset 2048000) ∧
    (CreateSparse img (okEnv allOnes) 65536 2048000).1 = some true ∧
    (CreateSparse img (okEnv allOnes) 65536 2048000).2.GDEs (numGT 2048000 - 1) * 512 + 2048
      = 67072 := by
  have hrun := allOnes_run2048000 65536
  have ht : totalGrains 2048000 = 16000 := by decide
  have hn : numGT 2048000 = 32 := by decide
  have hg : gtOffset 2048000 = 1536 := by decide
  have hd : dataOffset 2048000 = 65536 := by decide
  have he : dataEnd 2048000 = gtOffset 2048000 + 4 * totalGrains 2048000 := rfl
  refine ⟨by rw [he, hg, ht]; norm_num, ht, hn, hg, hd, by rw [hg, hn], by rw [hg, hn, hd]; omega,
    hrun, ?_⟩
  rw [GDEs_formula img (okEnv allOnes) 65536 2048000 hrun, if_pos (by omega), hn, hg]
  norm_num [u32]

/-! ## Exact success condition -/

theorem CreateSparse_true_iff_flags (self : SparseVMDK) (env : Env) (bufSize c : Nat) :
    (CreateSparse self env bufSize c).1 = some true ↔
      c ≠ 0 ∧ env.openFile = true ∧ (descriptorOf self env c).length ≤ 512 ∧
      env.wresHeader = true ∧ env.wresDesc = true ∧
      (env.wresSetGD = true → env.wresGD = true) ∧ env.wresSetData = true ∧
      env.openDisk = true ∧
      (∀ j, j < totalGrains c →
        env.rres j = true ∧ (¬ grainIsZero env.source j → env.wresData j = true)) ∧
      (env.wresSetGT = true → env.wresGT = true) := by
  rw [CreateSparse_true_iff]
  constructor
  · rintro ⟨hc, h1, hlen, h2, h3, h4, h5, h6, h7, h8⟩
    obtain ⟨p1, p2, -⟩ := preLoop_facts self env c hlen h4 h5
    have hinit := LoopInv_init env (preLoop self env c) p1 (by rw [p2]; unfold u32; omega)
    have hl := (grainLoop_spec env (preLoop self env c) (totalGrains c) 0 _ hinit).1
    exact ⟨hc, h1, hlen, h2, h3, h4, h5, h6, fun j hj => hl.mp h7 j (by omega) (by omega), h8⟩
  · rintro ⟨hc, h1, hlen, h2, h3, h4, h5, h6, h7, h8⟩
    obtain ⟨p1, p2, -⟩ := preLoop_facts self env c hlen h4 h5
    have hinit := LoopInv_init env (preLoop self env c) p1 (by rw [p2]; unfold u32; omega)
    have hl := (grainLoop_spec env (preLoop self env c) (totalGrains c) 0 _ hinit).1
    exact ⟨hc, h1, hlen, h2, h3, h4, h5, h6, hl.mpr (fun j _ hj => h7 j (by omega)), h8⟩

/-- The result of the padding write does not influence the result of a run. -/
theorem padding_irrelevant (self : SparseVMDK) (env : Env) (bufSize c : Nat) (b : Bool) :
    (CreateSparse self { env with wresPadding := b } bufSize c).1 =
      (CreateSparse self env bufSize c).1 := by
  have t1 := CreateSparse_true_iff_flags self env bufSize c
  have t2 := CreateSparse_true_iff_flags self { env with wresPadding := b } bufSize c
  have n1 := CreateSparse_none_iff self env bufSize c
  have n2 := CreateSparse_none_iff self { env with wresPadding := b } bufSize c
  have ht : (CreateSparse self { env with wresPadding := b } bufSize c).1 = some true ↔
      (CreateSparse self env bufSize c).1 = some true := t2.trans t1.symm
  have hn : (CreateSparse self { env with wresPadding := b } bufSize c).1 = none ↔
      (CreateSparse self env bufSize c).1 = none := n2.trans n1.symm
  rcases h1 : (CreateSparse self env bufSize c).1 with _ | r1
  · exact hn.mpr h1
  · rcases h2 : (CreateSparse self { env with wresPadding := b } bufSize c).1 with _ | r2
    · rw [hn.mp h2] at h1
      exact absurd h1 (by simp)
    · cases r1 <;> cases r2
      · rfl
      · rw [ht.mp h2] at h1
        exact absurd h1 (by simp)
      · rw [ht.mpr h1] at h2
        exact absurd h2 (by simp)
      · rfl

theorem longName_descriptor : 512 < (descriptorOf longName (okEnv scenarioA) 1024).length := by
  have e : descriptorOf longName (okEnv scenarioA) 1024 =
      mkDescriptor (generateRandomCID 0) 1024 (List.replicate 240 97 ++ ascii ".vmdk")
        (1024 / (HEADS * SECTORS)) := rfl
  have e5 : (ascii ".vmdk").length = 5 := rfl
  rw [e, mkDescriptor_length, List.length_append, List.length_replicate, e5]
  have h1 : (decimal (generateRandomCID 0)).length = 8 := by decide
  omega

/-- C26 as stated fails: with an output name of 240 bytes, capacitySectors = 1024 and every
reader and writer call succeeding, every condition of the claim holds, but the descriptor is
longer than 512 bytes and CreateSparse does not return true (the allocation of the padding
buffer throws). -/
theorem success_condition_counterexample :
    (1024 ≠ 0 ∧ (okEnv scenarioA).openFile = true ∧ (okEnv scenarioA).wresHeader = true ∧
      (okEnv scenarioA).wresDesc = true ∧
      ((okEnv scenarioA).wresSetGD = false ∨ (okEnv scenarioA).wresGD = true) ∧
      (okEnv scenarioA).wresSetData = true ∧ (okEnv scenarioA).openDisk = true ∧
      (∀ i, i < totalGrains 1024 → (okEnv scenarioA).rres i = true) ∧
      (∀ i, i < totalGrains 1024 → ¬ grainIsZero (okEnv scenarioA).source i →
        (okEnv scenarioA).wresData i = true) ∧
      ((okEnv scenarioA).wresSetGT = false ∨ (okEnv scenarioA).wresGT = true)) ∧
    longName.outFileName.length = 240 ∧
    512 < (descriptorOf longName (okEnv scenarioA) 1024).length ∧
    (CreateSparse longName (okEnv scenarioA) 65536 1024).1 = none ∧
    (CreateSparse longName (okEnv scenarioA) 65536 1024).1 ≠ some true := by
  have hn : (CreateSparse longName (okEnv scenarioA) 65536 1024).1 = none :=
    (CreateSparse_none_iff longName (okEnv scenarioA) 65536 1024).mpr
      ⟨by decide, rfl, longName_descriptor⟩
  refine ⟨⟨by decide, rfl, rfl, rfl, Or.inr rfl, rfl, rfl, fun _ _ => rfl,
    fun _ _ _ => rfl, Or.inr rfl⟩, ?_, longName_descriptor, hn, ?_⟩
  · exact List.length_replicate _ _
  · rw [hn]
    exact fun h => absurd h (by simp)

/-- The result of the padding write does not influence the result of a run on a stack of a
given size. -/
theorem padding_irrelevant_onStack (self : SparseVMDK) (env : Env) (stack bufSize c : Nat)
    (b : Bool) :
    (CreateSparseOnStack self { env with wresPadding := b } stack bufSize c).1 =
      (CreateSparseOnStack self env stack bufSize c).1 := by
  have t1 := (CreateSparseOnStack_true_iff self env stack bufSize c).trans
    (and_congr_right (fun _ => CreateSparse_true_iff_flags self env bufSize c))
  have t2 := (CreateSparseOnStack_true_iff self { env with wresPadding := b } stack bufSize c).trans
    (and_congr_right
      (fun _ => CreateSparse_true_iff_flags self { env with wresPadding := b } bufSize c))
  have n1 := CreateSparseOnStack_none_iff self env stack bufSize c
  have n2 := CreateSparseOnStack_none_iff self { env with wresPadding := b } stack bufSize c
  have ht : (CreateSparseOnStack self { env with wresPadding := b } stack bufSize c).1 =
      some true ↔ (CreateSparseOnStack self env stack bufSize c).1 = some true :=
    t2.trans t1.symm
  have hn : (CreateSparseOnStack self { env with wresPadding := b } stack bufSize c).1 = none ↔
      (CreateSparseOnStack self env stack bufSize c).1 = none := n2.trans n1.symm
  rcases h1 : (CreateSparseOnStack self env stack bufSize c).1 with _ | r1
  · exact hn.mpr h1
  · rcases h2 : (CreateSparseOnStack self { env with wresPadding := b } stack bufSize c).1
      with _ | r2
    · rw [hn.mp h2] at h1
      exact absurd h1 (by simp)
    · cases r1 <;> cases r2
      · rfl
      · rw [ht.mp h2] at h1
        exact absurd h1 (by simp)
      · rw [ht.mpr h1] at h2
        exact absurd h2 (by simp)
      · rfl

/-- C26, amended: over an I/O model in which every writer and reader operation returns
success or failure, run on a stack that leaves `stack` bytes for the arrays GDEs and GTEs,
CreateSparse returns true if and only if capacitySectors ≠ 0, the output file opens, the
descriptor text is at most 512 bytes long, the header write and the descriptor write
succeed, the arrays fit the stack (4 * numGT + 4 * totalGrains ≤ stack), (the seek to the
grain directory fails or the grain-directory write succeeds), the seek to dataOffset
succeeds, the source opens, every one of the totalGrains reads succeeds, every write of a
non-zero grain succeeds, and (the seek to the grain table fails or the grain-table write
succeeds); the result of the padding write never influences the return value. -/
theorem success_condition (self : SparseVMDK) (env : Env)
    (stack bufSize capacitySectors : Nat) :
    ((CreateSparseOnStack self env stack bufSize capacitySectors).1 = some true ↔
      capacitySectors ≠ 0 ∧ env.openFile = true ∧
      (descriptorOf self env capacitySectors).length ≤ 512 ∧
      env.wresHeader = true ∧ env.wresDesc = true ∧
      numGT capacitySectors * 4 + totalGrains capacitySectors * 4 ≤ stack ∧
      (env.wresSetGD = false ∨ env.wresGD = true) ∧
      env.wresSetData = true ∧ env.openDisk = true ∧
      (∀ i, i < totalGrains capacitySectors → env.rres i = true) ∧
      (∀ i, i < totalGrains capacitySectors → ¬ grainIsZero env.source i →
        env.wresData i = true) ∧
      (env.wresSetGT = false ∨ env.wresGT = true)) ∧
    (∀ b, (CreateSparseOnStack self { env with wresPadding := b } stack bufSize
        capacitySectors).1 =
      (CreateSparseOnStack self env stack bufSize capacitySectors).1) := by
  refine ⟨?_, padding_irrelevant_onStack self env stack bufSize capacitySectors⟩
  rw [CreateSparseOnStack_true_iff, CreateSparse_true_iff_flags]
  constructor
  · rintro ⟨hs, hc, h1, hlen, h2, h3, h4, h5, h6, h7, h8⟩
    refine ⟨hc, h1, hlen, h2, h3, hs, ?_, h5, h6, fun i hi => (h7 i hi).1,
      fun i hi => (h7 i hi).2, ?_⟩
    · cases hsg : env.wresSetGD
      · exact Or.inl rfl
      · exact Or.inr (h4 hsg)
    · cases hsg : env.wresSetGT
      · exact Or.inl rfl
      · exact Or.inr (h8 hsg)
  · rintro ⟨hc, h1, hlen, h2, h3, hs, h4, h5, h6, h7, h7b, h8⟩
    refine ⟨hs, hc, h1, hlen, h2, h3, ?_, h5, h6, fun j hj => ⟨h7 j hj, h7b j hj⟩, ?_⟩
    · intro hsg
      rcases h4 with h | h
      · rw [hsg] at h
        exact absurd h (by simp)
      · exact h
    · intro hsg
      rcases h8 with h | h
      · rw [hsg] at h
        exact absurd h (by simp)
      · exact h

/-! ## The flat descriptor and the result of `CreateVMDK` -/

theorem flat_seg1 : ascii "# Disk DescriptorFile\nversion=1\nencoding=\"UTF-8\"\nCID=" =
    ascii "# Disk DescriptorFile\n" ++ ascii "version=1\n" ++ ascii "encoding=\"UTF-8\"\n" ++
    ascii "CID=" := by rfl

theorem flat_seg2 : ascii "\nparentCID=ffffffff\nisNativeSnapshot=\"no\"\ncreateType=\"monolithicFlat\"\n\n# Extent description\nRW " =
    ascii "\n" ++ ascii "parentCID=ffffffff\n" ++ ascii "isNativeSnapshot=\"no\"\n" ++
    ascii "createType=\"monolithicFlat\"\n" ++ ascii "\n" ++ ascii "# Extent description\n" ++
    ascii "RW " := by rfl

theorem flat_seg3 : ascii "-flat.vmdk\" 0\n\n# The Disk Data Base\n#DDB\nddb.adapterType = \"lsilogic\"\nddb.geometry.cylinders = \"" =
    ascii "-flat.vmdk" ++ ascii "\" 0\n" ++ ascii "\n" ++ ascii "# The Disk Data Base\n" ++
    ascii "#DDB\n" ++ ascii "ddb.adapterType = \"lsilogic\"\n" ++
    ascii "ddb.geometry.cylinders = \"" := by rfl

theorem flat_seg4 : ascii "\"\nddb.geometry.heads = \"255\"\nddb.geometry.sectors = \"63\"\nddb.virtualHWVersion = \"10\"\n" =
    ascii "\"\n" ++ ascii "ddb.geometry.heads = \"255\"\n" ++
    ascii "ddb.geometry.sectors = \"63\"\n" ++ ascii "ddb.virtualHWVersion = \"10\"\n" := by rfl

/-- The text that `CreateVMDK` streams into the descriptor file. -/
theorem flat_descriptorOf (self : FlatVMDK) (env : FlatEnv) (c : Nat) :
    FlatVMDK.descriptorOf self env c =
      flatDescriptorText (FlatVMDK.generateRandomCID env.rand) c self.outFileName := by
  unfold FlatVMDK.descriptorOf FlatVMDK.mkDescriptor flatDescriptorText
  rw [flat_seg1, flat_seg2, flat_seg3, flat_seg4]
  simp only [List.append_assoc, FlatVMDK.HEADS, FlatVMDK.SECTORS]

/-- The descriptor file of a run whose stream opens and stores the whole text. -/
theorem flat_descriptorFile (self : FlatVMDK) (env : FlatEnv) (bufSize c : Nat)
    (hpos : 0 < c) (hopen : env.openDescriptor = true)
    (hstored : (FlatVMDK.descriptorOf self env c).length ≤ env.stored) :
    (FlatVMDK.CreateVMDK self env bufSize c).2.descriptorFile =
      some (self.outFileDir ++ ascii "/" ++ self.outFileName ++ ascii ".vmdk",
        flatDescriptorText (FlatVMDK.generateRandomCID env.rand) c self.outFileName) := by
  unfold FlatVMDK.CreateVMDK
  rw [if_neg (by omega)]
  simp only [hopen, if_true]
  rw [List.take_of_length_le hstored, flat_descriptorOf]

theorem flatDescriptorText_at32 (cid c : Nat) (name : List Nat) :
    (flatDescriptorText cid c name).getD 32 0 = 101 := by
  unfold flatDescriptorText
  simp only [List.append_assoc]
  rw [getD_append_left _ _ _ (by decide)]
  decide

theorem specFlatDescriptor_at32 (cid c : Nat) (name : List Nat) :
    (specFlatDescriptor cid c name).getD 32 0 = 67 := by
  unfold specFlatDescriptor
  simp only [List.append_assoc]
  rw [getD_append_left _ _ _ (by decide)]
  decide

set_option maxRecDepth 100000 in
theorem flatEnvOk_stored :
    (FlatVMDK.descriptorOf flatImg flatEnvOk 2048000).length ≤ flatEnvOk.stored := by
  decide

/-- C23 as stated fails: for capacitySectors = 2048000, the name img and the CID 12345678
the descriptor written to /tmp/img.vmdk is not the sparse descriptor text with the four
stated differences: its third line is the encoding line, not the CID line. -/
theorem flat_descriptor_counterexample :
    FlatVMDK.generateRandomCID flatEnvOk.rand = 12345678 ∧
    (∃ text, (FlatVMDK.CreateVMDK flatImg flatEnvOk 4194304 2048000).2.descriptorFile =
        some (ascii "/tmp/img.vmdk", text) ∧
      text.getD 32 0 = 101 ∧
      (specFlatDescriptor 12345678 2048000 (ascii "img")).getD 32 0 = 67) ∧
    (FlatVMDK.CreateVMDK flatImg flatEnvOk 4194304 2048000).2.descriptorFile ≠
      some (ascii "/tmp/img.vmdk", specFlatDescriptor 12345678 2048000 (ascii "img")) := by
  have hf := flat_descriptorFile flatImg flatEnvOk 4194304 2048000 (by decide) rfl
    flatEnvOk_stored
  have hp : flatImg.outFileDir ++ ascii "/" ++ flatImg.outFileName ++ ascii ".vmdk" =
      ascii "/tmp/img.vmdk" := by decide
  rw [hp] at hf
  refine ⟨by decide, ⟨_, hf, flatDescriptorText_at32 _ _ _, specFlatDescriptor_at32 _ _ _⟩, ?_⟩
  rw [hf]
  intro h
  have h2 := (Prod.mk.inj (Option.some.inj h)).2
  have h3 := flatDescriptorText_at32 (FlatVMDK.generateRandomCID flatEnvOk.rand) 2048000
    flatImg.outFileName
  rw [h2, specFlatDescriptor_at32] at h3
  exact absurd h3 (by decide)

/-- C23, amended: for every capacitySectors > 0, name and CID, the descriptor written to
name.vmdk (when the file opens and the whole text is stored) has the lines of the sparse
descriptor of section 6 in the same order, with createType="monolithicFlat", the extent line
RW capacitySectors FLAT "name-flat.vmdk" 0, the heads value "255", cylinders =
capacitySectors / 16065, and further the line encoding="UTF-8" after the version line, the
line isNativeSnapshot="no" after the parentCID line, and the adapter type "lsilogic". -/
theorem flat_descriptor (self : FlatVMDK) (env : FlatEnv) (bufSize capacitySectors : Nat)
    (hpos : 0 < capacitySectors) (hopen : env.openDescriptor = true)
    (hstored : (FlatVMDK.descriptorOf self env capacitySectors).length ≤ env.stored) :
    (FlatVMDK.CreateVMDK self env bufSize capacitySectors).2.descriptorFile =
      some (self.outFileDir ++ ascii "/" ++ self.outFileName ++ ascii ".vmdk",
        flatDescriptorText (FlatVMDK.generateRandomCID env.rand) capacitySectors
          self.outFileName) ∧
    capacitySectors / (FlatVMDK.HEADS * FlatVMDK.SECTORS) = capacitySectors / 16065 :=
  ⟨flat_descriptorFile self env bufSize capacitySectors hpos hopen hstored, rfl⟩

set_option maxRecDepth 100000 in
/-- C23, amended, for capacitySectors = 2048000, the name img and the CID 12345678: the
lines CID=12345678, RW 2048000 FLAT "img-flat.vmdk" 0 and ddb.geometry.cylinders = "127". -/
theorem flat_descriptor_witness :
    (0 < 2048000 ∧ flatEnvOk.openDescriptor = true ∧
      (FlatVMDK.descriptorOf flatImg flatEnvOk 2048000).length ≤ flatEnvOk.stored) ∧
    (FlatVMDK.CreateVMDK flatImg flatEnvOk 4194304 2048000).2.descriptorFile =
      some (flatImg.outFileDir ++ ascii "/" ++ flatImg.outFileName ++ ascii ".vmdk",
        flatDescriptorText (FlatVMDK.generateRandomCID flatEnvOk.rand) 2048000
          flatImg.outFileName) ∧
    flatDescriptorText (FlatVMDK.generateRandomCID flatEnvOk.rand) 2048000 flatImg.outFileName =
      ascii "# Disk DescriptorFile\nversion=1\nencoding=\"UTF-8\"\nCID=12345678\nparentCID=ffffffff\nisNativeSnapshot=\"no\"\ncreateType=\"monolithicFlat\"\n\n# Extent description\nRW 2048000 FLAT \"img-flat.vmdk\" 0\n\n# The Disk Data Base\n#DDB\nddb.adapterType = \"lsilogic\"\nddb.geometry.cylinders = \"127\"\nddb.geometry.heads = \"255\"\nddb.geometry.sectors = \"63\"\nddb.virtualHWVersion = \"10\"\n" :=
  ⟨⟨by decide, rfl, flatEnvOk_stored⟩,
    (flat_descriptor flatImg flatEnvOk 4194304 2048000 (by decide) rfl flatEnvOk_stored).1,
    by rfl⟩

/-- C27: CreateVMDK returns false if and only if capacitySectors = 0, and then no
descriptor file is created and no raw copy is started; for every capacitySectors > 0 it
returns true, whatever the outcome of opening and writing the descriptor file and of the raw
copy (two runs that differ in these outcomes only return the same value). -/
theorem CreateVMDK_result (self : FlatVMDK) (env env2 : FlatEnv) (bufSize capacitySectors : Nat) :
    ((FlatVMDK.CreateVMDK self env bufSize capacitySectors).1 = false ↔ capacitySectors = 0) ∧
    ((FlatVMDK.CreateVMDK self env bufSize capacitySectors).1 = true ↔ 0 < capacitySectors) ∧
    (FlatVMDK.CreateVMDK self env bufSize 0).2.descriptorFile = none ∧
    (FlatVMDK.CreateVMDK self env bufSize 0).2.rawCopy = none ∧
    (FlatVMDK.CreateVMDK self env2 bufSize capacitySectors).1 =
      (FlatVMDK.CreateVMDK self env bufSize capacitySectors).1 := by
  unfold FlatVMDK.CreateVMDK
  by_cases hc : capacitySectors = 0
  · subst hc
    simp [FlatVMDK.init]
  · have hpos : 0 < capacitySectors := by omega
    simp [hc, hpos, FlatVMDK.init]

/-! ## Influence of the CID -/

theorem SameOutsideCID_Write (s1 s2 : State) (ok : Bool) (b1 b2 : Nat → Nat) (n : Nat)
    (h : SameOutsideCID s1 s2)
    (hb : ∀ m, m < n → ¬ (548 ≤ s1.writer.pos + m ∧ s1.writer.pos + m ≤ 555) → b1 m = b2 m) :
    SameOutsideCID (s1.Write ok b1 n) (s2.Write ok b2 n) := by
  obtain ⟨hsize, hpos, hbytes, hrpos, hgde, hgte, hcur, htr⟩ := h
  cases ok
  · exact ⟨hsize, hpos, hbytes, hrpos, hgde, hgte, hcur, by
      simp only [State.Write, htr, hpos]⟩
  · refine ⟨?_, ?_, ?_, hrpos, hgde, hgte, hcur, ?_⟩
    · simp only [State.Write, Writer.Write, if_true, hsize, hpos]
    · simp only [State.Write, Writer.Write, if_true, hpos]
    · intro k hk
      simp only [State.Write, Writer.Write, if_true, ← hpos]
      by_cases hin : s1.writer.pos ≤ k ∧ k < s1.writer.pos + n
      · rw [if_pos hin, if_pos hin]
        apply hb (k - s1.writer.pos) (by omega)
        rw [show s1.writer.pos + (k - s1.writer.pos) = k by omega]
        exact hk
      · rw [if_neg hin, if_neg hin]
        exact hbytes k hk
    · simp only [State.Write, htr, hpos]

theorem SameOutsideCID_SetFilePointer (s1 s2 : State) (ok : Bool) (d : Nat)
    (h : SameOutsideCID s1 s2) :
    SameOutsideCID (s1.SetFilePointer ok d) (s2.SetFilePointer ok d) := by
  obtain ⟨hsize, hpos, hbytes, hrpos, hgde, hgte, hcur, htr⟩ := h
  cases ok
  · exact ⟨hsize, hpos, hbytes, hrpos, hgde, hgte, hcur, by
      simp only [State.SetFilePointer, htr]⟩
  · exact ⟨hsize, rfl, hbytes, hrpos, hgde, hgte, hcur, by
      simp only [State.SetFilePointer, htr]⟩

theorem SameOutsideCID_OpenDisk (s1 s2 : State) (ok : Bool) (h : SameOutsideCID s1 s2) :
    SameOutsideCID (s1.OpenDisk ok) (s2.OpenDisk ok) := by
  obtain ⟨hsize, hpos, hbytes, hrpos, hgde, hgte, hcur, htr⟩ := h
  exact ⟨hsize, hpos, hbytes, rfl, hgde, hgte, hcur, by simp only [State.OpenDisk, htr]⟩

theorem SameOutsideCID_Read (s1 s2 : State) (ok : Bool) (n : Nat) (h : SameOutsideCID s1 s2) :
    SameOutsideCID (s1.Read ok n) (s2.Read ok n) := by
  obtain ⟨hsize, hpos, hbytes, hrpos, hgde, hgte, hcur, htr⟩ := h
  exact ⟨hsize, hpos, hbytes, by simp only [State.Read, hrpos], hgde, hgte, hcur, by
    simp only [State.Read, htr, hrpos]⟩

theorem SameOutsideCID_grainStep (env : Env) (i : Nat) (s1 s2 : State)
    (h : SameOutsideCID s1 s2) :
    (grainStep env i s1).1 = (grainStep env i s2).1 ∧
    SameOutsideCID (grainStep env i s1).2 (grainStep env i s2).2 := by
  have hr := SameOutsideCID_Read s1 s2 (env.rres i) BUFFER_SIZE h
  have hw := SameOutsideCID_Write _ _ (env.wresData i) (readBuffer env s1.rpos)
    (readBuffer env s1.rpos) BUFFER_SIZE hr (fun _ _ _ => rfl)
  have hrpos := h.rpos
  unfold grainStep
  simp only [← hrpos]
  split
  · exact ⟨rfl, hr⟩
  · split
    · split
      · exact ⟨rfl, hw⟩
      · refine ⟨rfl, ?_⟩
        obtain ⟨hsize, hpos, hbytes, hrp, hgde, hgte, hcur, htr⟩ := hw
        exact ⟨hsize, hpos, hbytes, hrp, hgde, by simp only [hgte, hcur], by
          simp only [hcur], htr⟩
    · refine ⟨rfl, ?_⟩
      obtain ⟨hsize, hpos, hbytes, hrp, hgde, hgte, hcur, htr⟩ := hr
      exact ⟨hsize, hpos, hbytes, hrp, hgde, by simp only [hgte], hcur, htr⟩

theorem SameOutsideCID_grainLoop (env : Env) (count i : Nat) (s1 s2 : State)
    (h : SameOutsideCID s1 s2) :
    (grainLoop env count i s1).1 = (grainLoop env count i s2).1 ∧
    SameOutsideCID (grainLoop env count i s1).2 (grainLoop env count i s2).2 := by
  induction count generalizing i s1 s2 with
  | zero => exact ⟨rfl, h⟩
  | succ n ih =>
    obtain ⟨e1, e2⟩ := SameOutsideCID_grainStep env i s1 s2 h
    simp only [grainLoop]
    rcases hg1 : grainStep env i s1 with ⟨b1, t1⟩
    rcases hg2 : grainStep env i s2 with ⟨b2, t2⟩
    rw [hg1, hg2] at e1 e2
    simp only at e1 e2
    subst e1
    cases b1 with
    | false => exact ⟨rfl, e2⟩
    | true => exact ih (i + 1) t1 t2 e2

theorem SameOutsideCID_writeGD (env : Env) (c : Nat) (s1 s2 : State)
    (h : SameOutsideCID s1 s2) : SameOutsideCID (writeGD env c s1) (writeGD env c s2) := by
  obtain ⟨hsize, hpos, hbytes, hrpos, hgde, hgte, hcur, htr⟩ := h
  have h5 : SameOutsideCID
      { s1 with GDEs := fillGDEs (numGT c) 0 (u32 (gtOffset c / 512)) (fun _ => 0) }
      { s2 with GDEs := fillGDEs (numGT c) 0 (u32 (gtOffset c / 512)) (fun _ => 0) } :=
    ⟨hsize, hpos, hbytes, hrpos, rfl, hgte, hcur, htr⟩
  have h6 := SameOutsideCID_SetFilePointer _ _ env.wresSetGD gdOffset h5
  unfold writeGD
  simp only []
  split
  · exact SameOutsideCID_Write _ _ _ _ _ _ h6 (fun _ _ _ => rfl)
  · exact h6

theorem SameOutsideCID_seekData (env : Env) (c : Nat) (s1 s2 : State)
    (h : SameOutsideCID s1 s2) : SameOutsideCID (seekData env c s1) (seekData env c s2) := by
  obtain ⟨hsize, hpos, hbytes, hrpos, hgde, hgte, hcur, htr⟩ := h
  exact SameOutsideCID_SetFilePointer _ _ _ _ ⟨hsize, hpos, hbytes, hrpos, hgde, rfl, rfl, htr⟩

theorem SameOutsideCID_writeGT (env : Env) (c : Nat) (s1 s2 : State)
    (h : SameOutsideCID s1 s2) : SameOutsideCID (writeGT env c s1) (writeGT env c s2) := by
  have h12 := SameOutsideCID_SetFilePointer _ _ env.wresSetGT (gtOffset c) h
  have hg : s1.GTEs = s2.GTEs := h.GTEs
  unfold writeGT
  simp only []
  split
  · refine SameOutsideCID_Write _ _ _ _ _ _ h12 (fun m _ _ => ?_)
    simp only [State.SetFilePointer, hg]
  · exact h12

/-- Two byte lists that differ in a middle part of the same length agree at every index
outside that part. -/
theorem getD_splice (A d1 d2 B : List Nat) (hlen : d1.length = d2.length) (m : Nat)
    (hm : m < A.length ∨ A.length + d1.length ≤ m) :
    (A ++ (d1 ++ B)).getD m 0 = (A ++ (d2 ++ B)).getD m 0 := by
  rcases hm with h | h
  · rw [List.getD_append _ _ _ _ h, List.getD_append _ _ _ _ h]
  · rw [List.getD_append_right _ _ _ _ (by omega), List.getD_append_right _ _ _ _ (by omega),
      List.getD_append_right _ _ _ _ (by omega), List.getD_append_right _ _ _ _ (by omega),
      hlen]

theorem mkDescriptor_splice (cid c : Nat) (name : List Nat) (cyl : Nat) :
    mkDescriptor cid c name cyl =
      ascii "# Disk DescriptorFile\nversion=1\nCID=" ++ (decimal cid ++
        (ascii "\n" ++ (ascii "parentCID=ffffffff\n" ++
        (ascii "createType=\"monolithicSparse\"\n" ++ (ascii "\n" ++
        (ascii "# Extent description\n" ++ (ascii "RW " ++ (decimal c ++
        (ascii " SPARSE \"" ++ (name ++ (ascii "\" 0\n" ++ (ascii "\n" ++
        (ascii "# The Disk Data Base\n" ++ (ascii "#DDB\n" ++
        (ascii "ddb.adapterType = \"ide\"\n" ++ (ascii "ddb.geometry.cylinders = \"" ++
        (decimal cyl ++ (ascii "\"\n" ++ (ascii "ddb.geometry.heads = \"16\"\n" ++
        (ascii "ddb.geometry.sectors = \"63\"\n" ++
          ascii "ddb.virtualHWVersion = \"10\"\n")))))))))))))))))))) := by
  unfold mkDescriptor
  rw [descriptor_seg1]
  simp only [List.append_assoc]

theorem generateRandomCID_length (r : Nat) : (decimal (generateRandomCID r)).length = 8 := by
  have e1 : SparseVMDK.generateRandomCID r = 10000000 + r % 90000000 := by
    unfold SparseVMDK.generateRandomCID u32
    omega
  rw [e1]
  exact decimal_length_eq _ 7 (by norm_num) (by norm_num; omega)

/-- The descriptors of two runs that differ in the value of `rand()` only have the same
length and agree outside the 8 digits of the CID, which stand at indices 36..43. -/
theorem descriptorOf_rand (self : SparseVMDK) (env : Env) (r2 c : Nat) :
    (descriptorOf self { env with rand := r2 } c).length = (descriptorOf self env c).length ∧
    ∀ m, ¬ (36 ≤ m ∧ m ≤ 43) →
      bufOfList (descriptorOf self env c) m =
        bufOfList (descriptorOf self { env with rand := r2 } c) m := by
  have l1 := generateRandomCID_length env.rand
  have l2 := generateRandomCID_length r2
  constructor
  · unfold descriptorOf
    simp only []
    rw [mkDescriptor_length, mkDescriptor_length, l1, l2]
  · intro m hm
    unfold descriptorOf bufOfList
    simp only []
    rw [mkDescriptor_splice, mkDescriptor_splice]
    have hA : (ascii "# Disk DescriptorFile\nversion=1\nCID=").length = 36 := rfl
    exact getD_splice _ _ _ _ (by rw [l1, l2]) m (by rw [hA, l1]; omega)

theorem SameOutsideCID_refl (s : State) : SameOutsideCID s s :=
  ⟨rfl, rfl, fun _ _ => rfl, rfl, rfl, rfl, rfl, rfl⟩

theorem SameOutsideCID_headerState (self : SparseVMDK) (env : Env) (r2 c : Nat)
    (h2 : env.wresHeader = true) :
    SameOutsideCID (headerState self env c) (headerState self { env with rand := r2 } c) := by
  obtain ⟨hl, hb⟩ := descriptorOf_rand self env r2 c
  have s1 := SameOutsideCID_refl (State.init.OpenFile env.openFile)
  have s2 := SameOutsideCID_Write _ _ env.wresHeader (bufOfList (mkHeader c).bytes)
    (bufOfList (mkHeader c).bytes) 512 s1 (fun _ _ _ => rfl)
  have hp : ((State.init.OpenFile env.openFile).Write env.wresHeader
      (bufOfList (mkHeader c).bytes) 512).writer.pos = 512 := by
    rw [h2]
    rfl
  have s3 := SameOutsideCID_Write _ _ env.wresDesc (bufOfList (descriptorOf self env c))
    (bufOfList (descriptorOf self { env with rand := r2 } c))
    (descriptorOf self env c).length s2
    (fun m _ hm => hb m (by rw [hp] at hm; omega))
  have s4 := SameOutsideCID_Write _ _ env.wresPadding (fun _ => 0) (fun _ => 0)
    (512 - (descriptorOf self env c).length) s3 (fun _ _ _ => rfl)
  unfold headerState writePadding writeHeaderDescriptor
  rw [hl]
  exact s4

theorem grainLoop_rand (env : Env) (r2 count i : Nat) (s : State) :
    grainLoop { env with rand := r2 } count i s = grainLoop env count i s := by
  induction count generalizing i s with
  | zero => rfl
  | succ n ih =>
    simp only [grainLoop]
    have e : grainStep { env with rand := r2 } i s = grainStep env i s := rfl
    rw [e]
    rcases grainStep env i s with ⟨b, s1⟩
    cases b with
    | false => rfl
    | true => exact ih (i + 1) s1

theorem SameOutsideCID_finalState (self : SparseVMDK) (env : Env) (r2 c : Nat)
    (h2 : env.wresHeader = true) :
    SameOutsideCID (finalState self env c) (finalState self { env with rand := r2 } c) := by
  have s4 := SameOutsideCID_headerState self env r2 c h2
  have s7 := SameOutsideCID_writeGD env c _ _ s4
  have s9 := SameOutsideCID_seekData env c _ _ s7
  have s10 := SameOutsideCID_OpenDisk _ _ env.openDisk s9
  have s11 := (SameOutsideCID_grainLoop env (totalGrains c) 0 _ _ s10).2
  have s13 := SameOutsideCID_writeGT env c _ _ s11
  unfold finalState
  rw [grainLoop_rand env r2]
  exact s13

/-- C29: for every capacitySectors > 0, output file name and source, a successful run of
CreateSparse and the run that differs from it only in the value of rand(), hence in the
generated CID (both CIDs lie in [10000000, 99999999]), are both successful and produce
output files of equal length that are byte-identical everywhere except possibly at file
offsets 548..555; the grain directory, the grain-table entries and the operations issued
are the same. -/
theorem cid_only_its_bytes (self : SparseVMDK) (env : Env) (r2 bufSize capacitySectors : Nat)
    (hpos : 0 < capacitySectors)
    (hrun : (CreateSparse self env bufSize capacitySectors).1 = some true) :
    (CreateSparse self (env.withRand r2) bufSize capacitySectors).1 = some true ∧
    (10000000 ≤ generateRandomCID env.rand ∧ generateRandomCID env.rand ≤ 99999999 ∧
      10000000 ≤ generateRandomCID r2 ∧ generateRandomCID r2 ≤ 99999999) ∧
    (CreateSparse self (env.withRand r2) bufSize capacitySectors).2.writer.size =
      (CreateSparse self env bufSize capacitySectors).2.writer.size ∧
    (∀ k, ¬ (548 ≤ k ∧ k ≤ 555) →
      (CreateSparse self (env.withRand r2) bufSize capacitySectors).2.writer.bytes k =
        (CreateSparse self env bufSize capacitySectors).2.writer.bytes k) ∧
    (CreateSparse self (env.withRand r2) bufSize capacitySectors).2.GDEs =
      (CreateSparse self env bufSize capacitySectors).2.GDEs ∧
    (CreateSparse self (env.withRand r2) bufSize capacitySectors).2.GTEs =
      (CreateSparse self env bufSize capacitySectors).2.GTEs ∧
    (CreateSparse self (env.withRand r2) bufSize capacitySectors).2.trace =
      (CreateSparse self env bufSize capacitySectors).2.trace := by
  unfold Env.withRand
  obtain ⟨hc, h1, hlen, h2, h3, h4, h5, h6, h7, h8⟩ :=
    (CreateSparse_true_iff_flags self env bufSize capacitySectors).mp hrun
  have hl := (descriptorOf_rand self env r2 capacitySectors).1
  have hrun2 : (CreateSparse self { env with rand := r2 } bufSize capacitySectors).1 =
      some true :=
    (CreateSparse_true_iff_flags self { env with rand := r2 } bufSize capacitySectors).mpr
      ⟨hc, h1, by rw [hl]; exact hlen, h2, h3, h4, h5, h6, h7, h8⟩
  obtain ⟨hsize, -, hbytes, -, hgde, hgte, -, htr⟩ :=
    SameOutsideCID_finalState self env r2 capacitySectors h2
  have c1 : generateRandomCID env.rand = 10000000 + env.rand % 90000000 := by
    unfold generateRandomCID u32
    omega
  have c2 : generateRandomCID r2 = 10000000 + r2 % 90000000 := by
    unfold generateRandomCID u32
    omega
  rw [CreateSparse_state self env bufSize capacitySectors hrun,
    CreateSparse_state self { env with rand := r2 } bufSize capacitySectors hrun2]
  exact ⟨hrun2, ⟨by omega, by omega, by omega, by omega⟩, hsize.symm,
    fun k hk => (hbytes k hk).symm, hgde.symm, hgte.symm, htr.symm⟩

/-- C29 on Scenario A, for the values 0 and 2345678 of rand(), that is, the CIDs 10000000
and 12345678. -/
theorem cid_only_its_bytes_witness :
    (0 < 1024 ∧ (CreateSparse img (okEnv scenarioA) 65536 1024).1 = some true) ∧
    generateRandomCID (okEnv scenarioA).rand = 10000000 ∧
    generateRandomCID 2345678 = 12345678 ∧
    (CreateSparse img ((okEnv scenarioA).withRand 2345678) 65536 1024).1 = some true ∧
    (CreateSparse img ((okEnv scenarioA).withRand 2345678) 65536 1024).2.writer.size =
      (CreateSparse img (okEnv scenarioA) 65536 1024).2.writer.size ∧
    (∀ k, ¬ (548 ≤ k ∧ k ≤ 555) →
      (CreateSparse img ((okEnv scenarioA).withRand 2345678) 65536 1024).2.writer.bytes k =
        (CreateSparse img (okEnv scenarioA) 65536 1024).2.writer.bytes k) := by
  have h := cid_only_its_bytes img (okEnv scenarioA) 2345678 65536 1024 (by decide)
    (scenarioA_run 65536)
  exact ⟨⟨by decide, scenarioA_run 65536⟩, by rfl, by norm_num [generateRandomCID, u32],
    h.1, h.2.2.1, h.2.2.2.1⟩

/-! ## Round trip of a RawCopy resume record -/

theorem digitChar_toNat (m : Nat) (h : m < 10) : (Nat.digitChar m).toNat = 48 + m := by
  interval_cases m <;> rfl

theorem toDigitsCore_digits (fuel n : Nat) (ds : List Char)
    (hds : ∀ c, c ∈ ds → 48 ≤ c.toNat ∧ c.toNat ≤ 57) :
    ∀ c, c ∈ Nat.toDigitsCore 10 fuel n ds → 48 ≤ c.toNat ∧ c.toNat ≤ 57 := by
  induction fuel generalizing n ds with
  | zero => exact hds
  | succ fuel ih =>
    have hd := digitChar_toNat (n % 10) (Nat.mod_lt _ (by omega))
    have hds2 : ∀ c, c ∈ (n % 10).digitChar :: ds → 48 ≤ c.toNat ∧ c.toNat ≤ 57 := by
      intro c hc
      rcases List.mem_cons.mp hc with h | h
      · rw [h, hd]
        have := Nat.mod_lt n (show 0 < 10 by omega)
        omega
      · exact hds c h
    simp only [Nat.toDigitsCore]
    split
    · exact hds2
    · exact ih (n / 10) _ hds2

theorem decimal_digits (n : Nat) : ∀ b, b ∈ decimal n → 48 ≤ b ∧ b ≤ 57 := by
  intro b hb
  unfold decimal Nat.toDigits at hb
  obtain ⟨c, hc, rfl⟩ := List.mem_map.mp hb
  exact toDigitsCore_digits (n + 1) n [] (fun c hc => by cases hc) c hc

theorem decimal_NoLineBreak (n : Nat) : NoLineBreak (decimal n) := by
  intro b hb
  have := decimal_digits n b hb
  omega

theorem parseNatAux_toDigitsCore (fuel n : Nat) (ds : List Char) (hf : n < fuel) :
    LogsReadWrite.parseNatAux ((Nat.toDigitsCore 10 fuel n ds).map Char.toNat) 0 =
      LogsReadWrite.parseNatAux (ds.map Char.toNat) n := by
  induction fuel generalizing n ds with
  | zero => omega
  | succ fuel ih =>
    have hd := digitChar_toNat (n % 10) (Nat.mod_lt _ (by omega))
    have hm := Nat.mod_lt n (show 0 < 10 by omega)
    simp only [Nat.toDigitsCore]
    split
    · rename_i h0
      simp only [List.map_cons, LogsReadWrite.parseNatAux, hd]
      rw [if_pos (by omega)]
      congr 1
      omega
    · rename_i h0
      rw [ih (n / 10) _ (by omega)]
      simp only [List.map_cons, LogsReadWrite.parseNatAux, hd]
      rw [if_pos (by omega)]
      congr 1
      omega

theorem decimal_ne_nil (n : Nat) : decimal n ≠ [] := by
  intro h
  have hl : (decimal n).length = 0 := by rw [h]; rfl
  unfold decimal Nat.toDigits at hl
  rw [List.length_map] at hl
  simp only [Nat.toDigitsCore] at hl
  split at hl
  · simp at hl
  · rw [Nat.toDigitsCore_lens_eq] at hl
    omega

theorem parseNat_decimal (n : Nat) : LogsReadWrite.parseNat (decimal n) = some n := by
  have h := parseNatAux_toDigitsCore (n + 1) n [] (by omega)
  have hne := decimal_ne_nil n
  unfold decimal Nat.toDigits at hne ⊢
  rcases hl : (Nat.toDigitsCore 10 (n + 1) n []).map Char.toNat with _ | ⟨b, rest⟩
  · exact absurd hl hne
  · rw [hl] at h
    show LogsReadWrite.parseNatAux (b :: rest) 0 = some n
    rw [h]
    rfl

theorem parseField_decimal (w n : Nat) (h : n < 2 ^ w) :
    LogsReadWrite.parseField w (decimal n) = some n := by
  unfold LogsReadWrite.parseField
  rw [parseNat_decimal]
  simp only [h, if_true]

theorem splitLines_line (l rest : List Nat) (h : ∀ b, b ∈ l → b ≠ 10) :
    LogsReadWrite.splitLines (l ++ 10 :: rest) = l :: LogsReadWrite.splitLines rest := by
  induction l with
  | nil => simp [LogsReadWrite.splitLines]
  | cons b l ih =>
    have hb : b ≠ 10 := h b (List.mem_cons_self _ _)
    rw [List.cons_append, LogsReadWrite.splitLines, if_neg hb,
      ih (fun x hx => h x (List.mem_cons_of_mem _ hx))]

theorem splitLines_logLines (fields : List (List Nat))
    (h : ∀ l, l ∈ fields → NoLineBreak l) :
    LogsReadWrite.splitLines (LogsReadWrite.logLines fields) = fields := by
  induction fields with
  | nil => rfl
  | cons l ls ih =>
    have e : LogsReadWrite.logLines (l :: ls) = l ++ 10 :: LogsReadWrite.logLines ls := by
      unfold LogsReadWrite.logLines
      rw [List.flatMap_cons, List.append_assoc]
      rfl
    rw [e, splitLines_line l _ (fun b hb => (h l (List.mem_cons_self _ _) b hb).1),
      ih (fun x hx => h x (List.mem_cons_of_mem _ hx))]

theorem trimCR_of_NoLineBreak (l : List Nat) (h : NoLineBreak l) :
    LogsReadWrite.trimCR l = l := by
  unfold LogsReadWrite.trimCR
  rw [if_neg]
  intro hl
  have hm : (13 : Nat) ∈ l := List.mem_of_getLast?_eq_some hl
  exact (h 13 hm).2 rfl

/-- The record that `ReadLogFiles` finds in the text written by `CreateRawCopyLog`. -/
theorem parseLogFile_rawCopyLogText (disk serialNum outFileDir outFileName : List Nat)
    (endTime numOfSectorsWriten totalSectors : Nat)
    (h1 : NoLineBreak disk) (h2 : NoLineBreak serialNum) (h3 : NoLineBreak outFileDir)
    (h4 : NoLineBreak outFileName) (ht : endTime < 2 ^ 63)
    (hw : numOfSectorsWriten < 2 ^ 64) (htot : totalSectors < 2 ^ 64) :
    LogsReadWrite.splitLines (LogsReadWrite.rawCopyLogText disk serialNum outFileDir
        outFileName endTime numOfSectorsWriten totalSectors) =
      [ascii "1", disk, serialNum, outFileDir, outFileName, decimal endTime,
        decimal numOfSectorsWriten, decimal totalSectors] ∧
    LogsReadWrite.parseLogFile (LogsReadWrite.rawCopyLogText disk serialNum outFileDir
        outFileName endTime numOfSectorsWriten totalSectors) =
      some { type := ImageType.DD, disk := disk, serialNum := serialNum,
             outFileDir := outFileDir, outFileName := outFileName, endTime := endTime,
             numOfSectorsWriten := numOfSectorsWriten, totalSectors := totalSectors,
             numOfGrainWriten := 0, numOfGrainRead := 0, totalGrains := 0,
             dataOffset := 0, gtOffset := 0 } := by
  have e1 : decimal ImageType.DD.code = ascii "1" := rfl
  have hn1 : NoLineBreak (ascii "1") := by rw [← e1]; exact decimal_NoLineBreak _
  have hsplit : LogsReadWrite.splitLines (LogsReadWrite.rawCopyLogText disk serialNum
      outFileDir outFileName endTime numOfSectorsWriten totalSectors) =
      [ascii "1", disk, serialNum, outFileDir, outFileName, decimal endTime,
        decimal numOfSectorsWriten, decimal totalSectors] := by
    unfold LogsReadWrite.rawCopyLogText
    rw [e1]
    apply splitLines_logLines
    intro l hl
    simp only [List.mem_cons, List.mem_singleton, List.not_mem_nil, or_false] at hl
    rcases hl with h | h | h | h | h | h | h | h <;> rw [h]
    · exact hn1
    · exact h1
    · exact h2
    · exact h3
    · exact h4
    · exact decimal_NoLineBreak _
    · exact decimal_NoLineBreak _
    · exact decimal_NoLineBreak _
  refine ⟨hsplit, ?_⟩
  have p1 : (LogsReadWrite.parseNat (ascii "1")).bind ImageType.ofCode = some ImageType.DD := rfl
  unfold LogsReadWrite.parseLogFile
  rw [hsplit]
  simp only [List.map_cons, List.map_nil, trimCR_of_NoLineBreak _ hn1,
    trimCR_of_NoLineBreak _ h1, trimCR_of_NoLineBreak _ h2, trimCR_of_NoLineBreak _ h3,
    trimCR_of_NoLineBreak _ h4, trimCR_of_NoLineBreak _ (decimal_NoLineBreak _), p1,
    parseField_decimal 63 endTime ht, parseField_decimal 64 numOfSectorsWriten hw,
    parseField_decimal 64 totalSectors htot]

/-- C24: for every record (deviceName, serialNumber, outputDirectory, outputFileName, all
without line breaks, endTime, sectorsWritten, totalSectors), CreateRawCopyLog writes, into
an empty working directory, a file LogFile1 whose lines are, in order, the image type 1,
disk, serialNumber, outputDir, outputFileName, endTime, sectorsWritten, totalSectors; and
ReadLogFiles over the working directory that holds only that file returns true with
filesRead = 1 and the record with the values written. -/
theorem rawCopyLog_round_trip (disk serialNum outFileDir outFileName : List Nat)
    (endTime numOfSectorsWriten totalSectors : Nat)
    (h1 : NoLineBreak disk) (h2 : NoLineBreak serialNum) (h3 : NoLineBreak outFileDir)
    (h4 : NoLineBreak outFileName) (ht : endTime < 2 ^ 63)
    (hw : numOfSectorsWriten < 2 ^ 64) (htot : totalSectors < 2 ^ 64) :
    LogsReadWrite.CreateRawCopyLog [] true disk serialNum outFileDir outFileName endTime
        numOfSectorsWriten totalSectors =
      (true, [(ascii "LogFile1", LogsReadWrite.rawCopyLogText disk serialNum outFileDir
        outFileName endTime numOfSectorsWriten totalSectors)]) ∧
    LogsReadWrite.splitLines (LogsReadWrite.rawCopyLogText disk serialNum outFileDir
        outFileName endTime numOfSectorsWriten totalSectors) =
      [ascii "1", disk, serialNum, outFileDir, outFileName, decimal endTime,
        decimal numOfSectorsWriten, decimal totalSectors] ∧
    LogsReadWrite.ReadLogFiles
        (LogsReadWrite.CreateRawCopyLog [] true disk serialNum outFileDir outFileName endTime
          numOfSectorsWriten totalSectors).2 =
      (true,
        [{ type := ImageType.DD, disk := disk, serialNum := serialNum,
           outFileDir := outFileDir, outFileName := outFileName, endTime := endTime,
           numOfSectorsWriten := numOfSectorsWriten, totalSectors := totalSectors,
           numOfGrainWriten := 0, numOfGrainRead := 0, totalGrains := 0,
           dataOffset := 0, gtOffset := 0 }], 1) := by
  obtain ⟨hsplit, hparse⟩ := parseLogFile_rawCopyLogText disk serialNum outFileDir outFileName
    endTime numOfSectorsWriten totalSectors h1 h2 h3 h4 ht hw htot
  have hname : LogsReadWrite.logFileName (LogsReadWrite.maxLogFileId [] + 1) =
      ascii "LogFile1" := rfl
  have hid : LogsReadWrite.logFileId (ascii "LogFile1") = some 1 := rfl
  have hrun : LogsReadWrite.CreateRawCopyLog [] true disk serialNum outFileDir outFileName
      endTime numOfSectorsWriten totalSectors =
      (true, [(ascii "LogFile1", LogsReadWrite.rawCopyLogText disk serialNum outFileDir
        outFileName endTime numOfSectorsWriten totalSectors)]) := by
    unfold LogsReadWrite.CreateRawCopyLog
    rw [if_pos rfl, hname, List.nil_append]
  refine ⟨hrun, hsplit, ?_⟩
  rw [hrun]
  unfold LogsReadWrite.ReadLogFiles
  simp only [List.filterMap_cons, List.filterMap_nil, hid, hparse, List.length_singleton]

/-- C24 for the record (Disk1, 12345, /logs, log1, 1700000000, 1024, 4096). -/
theorem rawCopyLog_round_trip_witness :
    (NoLineBreak (ascii "Disk1") ∧ NoLineBreak (ascii "12345") ∧ NoLineBreak (ascii "/logs") ∧
      NoLineBreak (ascii "log1") ∧ 1700000000 < 2 ^ 63 ∧ 1024 < 2 ^ 64 ∧ 4096 < 2 ^ 64) ∧
    LogsReadWrite.rawCopyLogText (ascii "Disk1") (ascii "12345") (ascii "/logs") (ascii "log1")
        1700000000 1024 4096 =
      ascii "1\nDisk1\n12345\n/logs\nlog1\n1700000000\n1024\n4096\n" ∧
    LogsReadWrite.ReadLogFiles
        (LogsReadWrite.CreateRawCopyLog [] true (ascii "Disk1") (ascii "12345") (ascii "/logs")
          (ascii "log1") 1700000000 1024 4096).2 =
      (true,
        [{ type := ImageType.DD, disk := ascii "Disk1", serialNum := ascii "12345",
           outFileDir := ascii "/logs", outFileName := ascii "log1", endTime := 1700000000,
           numOfSectorsWriten := 1024, totalSectors := 4096,
           numOfGrainWriten := 0, numOfGrainRead := 0, totalGrains := 0,
           dataOffset := 0, gtOffset := 0 }], 1) :=
  ⟨⟨by decide, by decide, by decide, by decide, by norm_num, by norm_num, by norm_num⟩,
    by rfl,
    (rawCopyLog_round_trip (ascii "Disk1") (ascii "12345") (ascii "/logs") (ascii "log1")
      1700000000 1024 4096 (by decide) (by decide) (by decide) (by decide) (by norm_num)
      (by norm_num) (by norm_num)).2.2⟩

end VMDKSparce
